import Mathlib

/-!
Spectrum Scale CSI plugin: bootstrap of the primary fileset.

A shallow embedding of `csiplugin/gpfs.go` (package `scale`): configuration
validation, host-path validation, the primary-fileset bootstrap and the plugin
initialisation sequence, with the theorems that relate them to the written
specification.

Conventions of the embedding.
* A Go `error` is an `Option String`: `none` is `nil`, `some msg` carries the message.
* A Go multi-value return `(v, err)` is a pair.
* Go strings are Lean strings; functions of the Go standard library
  (`strings`, `path`, `fmt.Sprintf`) are written out on the characters of the string.
* Calls on a cluster connector go to an external system. They are functions of an
  explicit world state, and every call is recorded, with its answer, in a trace.
-/

set_option autoImplicit false

namespace scale

/-! ## Settings (package `settings`) -/

/-- Modelled from the spec: `settings.Primary` is declared outside `gpfs.go`; these are
the fields that `gpfs.go` reads and writes (the primary block of a cluster). -/
structure Primary where
  PrimaryFS : String
  PrimaryFset : String
  PrimaryFSMount : String
  PrimaryFsetLink : String
  SymlinkAbsolutePath : String
  SymlinkRelativePath : String
  PrimaryCid : String
  InodeLimit : String
  RemoteCluster : String
  RemoteFS : String
deriving DecidableEq, Repr

/-- The Go zero value `settings.Primary{}`. -/
def Primary.zero : Primary :=
  ⟨"", "", "", "", "", "", "", "", "", ""⟩

/-- Modelled from the spec: `settings.RestAPI`, one REST endpoint of a cluster. -/
structure RestAPI where
  GuiHost : String
  GuiPort : Int
deriving DecidableEq, Repr

/-- Modelled from the spec: `settings.Clusters`, one declared cluster. `CacertValue` is a
byte slice in Go; `none` is the `nil` slice. -/
structure Clusters where
  ID : String
  Primary : Primary
  SecureSslMode : Bool
  Cacert : String
  Secrets : String
  RestAPI : List RestAPI
  MgmtUsername : String
  MgmtPassword : String
  CacertValue : Option (List Nat)
deriving DecidableEq, Repr

/-- Modelled from the spec: `settings.ScaleSettingsConfigMap`, the whole declaration. -/
structure ScaleSettingsConfigMap where
  Clusters : List Clusters
deriving DecidableEq, Repr

/-! ## Helpers of package `utils` and of the Go standard library -/

/-- Modelled from the spec: `utils.StringInSlice(a, list)` reports whether `a` is an
element of `list`. -/
def StringInSlice (a : String) : List String → Bool
  | [] => false
  | b :: rest => if b = a then true else StringInSlice a rest

/-- Modelled from the spec: `utils.GetEnv(name, fallback)` is the value of the environment
variable `name`, or `fallback` when the variable is not set. The process environment is
the function `environ`. -/
def GetEnv (environ : String → Option String) (name fallback : String) : String :=
  match environ name with
  | some v => v
  | none => fallback

/-- Go `strings.HasPrefix(s, prefix)`. -/
def HasPrefix (s pre : String) : Bool :=
  pre.data.isPrefixOf s.data

/-- Go `strings.HasSuffix(s, suffix)`. -/
def HasSuffix (s suf : String) : Bool :=
  suf.data.isSuffixOf s.data

/-- Go `strings.Join(elems, sep)`. -/
def stringsJoin : List String → String → String
  | [], _ => ""
  | [a], _ => a
  | a :: b :: rest, sep => a ++ sep ++ stringsJoin (b :: rest) sep

/-- Go `strings.TrimSuffix(s, suffix)`. -/
def TrimSuffix (s suf : String) : String :=
  if HasSuffix s suf then ⟨s.data.take (s.data.length - suf.data.length)⟩ else s

/-- Go `strings.Trim(s, cutset)`: `s` without the leading and trailing characters that
occur in `cutset`. -/
def Trim (s cutset : String) : String :=
  ⟨((s.data.dropWhile (fun c => cutset.data.contains c)).reverse.dropWhile
      (fun c => cutset.data.contains c)).reverse⟩

/-- Go `strings.Replace(s, old, new, 1)` on the characters of `s`: the first occurrence
of `old` is replaced by `new`; an empty `old` matches at the start of `s`. -/
def replaceFirst (old new : List Char) : List Char → List Char
  | [] => if old = [] then new else []
  | c :: cs =>
    if old.isPrefixOf (c :: cs) then new ++ (c :: cs).drop old.length
    else c :: replaceFirst old new cs

/-- Go `strings.Replace(s, old, new, 1)`. -/
def Replace1 (s old new : String) : String :=
  if old = new then s else ⟨replaceFirst old.data new.data s.data⟩

/-- The inner loop of the `..` case of Go `path.Clean`:
`for out.w > dotdot && out.index(out.w) != '/' { out.w-- }`, on the write index `w`. -/
def cleanBacktrack (buf : List Char) (dotdot : Nat) : Nat → Nat → Nat
  | 0, w => w
  | fuel + 1, w =>
    if w > dotdot ∧ buf[w]? ≠ some '/' then cleanBacktrack buf dotdot fuel (w - 1) else w

/-- The main loop `for r < n` of Go `path.Clean`. `out` is the content written so far
(the write index `out.w` is its length), `r` the read index, `dotdot` the index up to
which `..` may not backtrack. The read index grows in every iteration, so `n + 1` rounds
of fuel are enough. -/
def cleanLoop (path : List Char) (n : Nat) (rooted : Bool) :
    Nat → Nat → Nat → List Char → List Char
  | 0, _, _, out => out
  | fuel + 1, r, dotdot, out =>
    if r < n then
      if path[r]? = some '/' then
        cleanLoop path n rooted fuel (r + 1) dotdot out
      else if path[r]? = some '.' ∧ (r + 1 = n ∨ path[r + 1]? = some '/') then
        cleanLoop path n rooted fuel (r + 1) dotdot out
      else if path[r]? = some '.' ∧ path[r + 1]? = some '.' ∧
          (r + 2 = n ∨ path[r + 2]? = some '/') then
        if out.length > dotdot then
          cleanLoop path n rooted fuel (r + 2) dotdot
            (out.take (cleanBacktrack out dotdot out.length (out.length - 1)))
        else if ¬ rooted then
          let out1 := if out.length > 0 then out ++ ['/'] else out
          let out2 := out1 ++ ['.', '.']
          cleanLoop path n rooted fuel (r + 2) out2.length out2
        else
          cleanLoop path n rooted fuel (r + 2) dotdot out
      else
        let out1 :=
          if (rooted ∧ out.length ≠ 1) ∨ (¬ rooted ∧ out.length ≠ 0) then out ++ ['/'] else out
        let elem := (path.drop r).takeWhile (fun c => c ≠ '/')
        cleanLoop path n rooted fuel (r + elem.length) dotdot (out1 ++ elem)
    else out

/-- Go `path.Clean(path)`. -/
def pathClean (path : String) : String :=
  if path = "" then "."
  else
    let rooted : Bool := path.data.head? = some '/'
    let n := path.data.length
    let out :=
      if rooted then cleanLoop path.data n rooted (n + 1) 1 1 ['/']
      else cleanLoop path.data n rooted (n + 1) 0 0 []
    if out.length = 0 then "." else ⟨out⟩

/-- Go `path.Join(a, b)`: the non-empty elements joined by `/`, then cleaned; the empty
string when both are empty. -/
def pathJoin (a b : String) : String :=
  if a ≠ "" then pathClean (stringsJoin [a, b] "/")
  else if b ≠ "" then pathClean (stringsJoin [b] "/")
  else ""

/-! ## `ValidateHostpath` -/

/-- `ScaleDriver.ValidateHostpath` (source lines 393-427). `environ` is the process
environment. -/
def ValidateHostpath (environ : String → Option String) (mountpath linkpath : String) :
    Option String :=
  let hostpath := GetEnv environ "SCALE_HOSTPATH" ""
  if hostpath = "" then
    some "SCALE_HOSTPATH not defined in daemonset"
  else
    let hostpath := if ¬ HasSuffix hostpath "/" then stringsJoin [hostpath, "/"] "" else hostpath
    let linkpath := if ¬ HasSuffix linkpath "/" then stringsJoin [linkpath, "/"] "" else linkpath
    let mountpath := if ¬ HasSuffix mountpath "/" then stringsJoin [mountpath, "/"] "" else mountpath
    if ¬ HasPrefix hostpath linkpath ∧ ¬ HasPrefix hostpath mountpath ∧
        ¬ HasPrefix linkpath hostpath ∧ ¬ HasPrefix mountpath hostpath then
      some "Invalid SCALE_HOSTPATH"
    else
      none

/-! ## `ValidateScaleConfigParameters` -/

/-- The variables of the loop of `ValidateScaleConfigParameters`. -/
structure ValidateState where
  primaryClusterFound : Bool
  rClusterForPrimaryFS : String
  cl : List String
deriving DecidableEq, Repr

/-- One iteration of the loop of `ValidateScaleConfigParameters` (source lines 440-469) for
the cluster at index `i`. `Except.error` is an early `return` of the function. -/
def validateCluster (cluster : Clusters) (i : Nat) (st : ValidateState) :
    Except (Bool × Option String) ValidateState :=
  if cluster.ID = "" ∨ cluster.RestAPI.length = 0 ∨ (cluster.RestAPI.head?.map RestAPI.GuiHost) = some "" then
    .error (false, some ("Mandatory parameters not specified for cluster " ++ cluster.ID))
  else
    let afterPrimary : Except (Bool × Option String) ValidateState :=
      if cluster.Primary ≠ Primary.zero then
        if st.primaryClusterFound = true then
          .error (false, some "More than one primary clusters specified")
        else if cluster.Primary.PrimaryFS = "" ∨ cluster.Primary.PrimaryFset = "" then
          .error (false, some ("Mandatory parameters not specified for primary cluster " ++ cluster.ID))
        else
          .ok { st with primaryClusterFound := true,
                        rClusterForPrimaryFS := cluster.Primary.RemoteCluster }
      else
        .ok { st with cl := st.cl.set i cluster.ID }
    match afterPrimary with
    | .error e => .error e
    | .ok st1 =>
      if cluster.Secrets = "" ∨ cluster.MgmtUsername = "" ∨ cluster.MgmtPassword = "" then
        .error (false, some ("Invalid secret specified for cluster " ++ cluster.ID))
      else if cluster.SecureSslMode = true ∧ cluster.CacertValue = none then
        .error (false, some ("CA certificate not specified in secure SSL mode for cluster " ++ cluster.ID))
      else
        .ok st1

/-- The loop `for i := 0; i < len(scaleConfig.Clusters); i++` of
`ValidateScaleConfigParameters`, from index `i` on; `rest` holds the clusters at the
indices `i, i+1, ...`. -/
def validateLoop : List Clusters → Nat → ValidateState → Except (Bool × Option String) ValidateState
  | [], _, st => .ok st
  | cluster :: rest, i, st =>
    match validateCluster cluster i st with
    | .error e => .error e
    | .ok st1 => validateLoop rest (i + 1) st1

/-- `ScaleDriver.ValidateScaleConfigParameters` (source lines 429-481). -/
def ValidateScaleConfigParameters (scaleConfig : ScaleSettingsConfigMap) : Bool × Option String :=
  if scaleConfig.Clusters.length = 0 then
    (false, some "Missing cluster information in Spectrum Scale configuration")
  else
    match validateLoop scaleConfig.Clusters 0
        ⟨false, "", List.replicate scaleConfig.Clusters.length ""⟩ with
    | .error e => e
    | .ok st =>
      if ¬ st.primaryClusterFound then
        (false, some "No primary clusters specified")
      else if st.rClusterForPrimaryFS ≠ "" ∧ ¬ StringInSlice st.rClusterForPrimaryFS st.cl then
        (false, some ("Remote cluster specified for primary filesystem: " ++ st.rClusterForPrimaryFS
          ++ ", but no definition found for it in config"))
      else
        (true, none)

/-! ## Cluster connectors (package `connectors`) -/

/-- Modelled from the spec: `connectors.FileSystemMount`, the answer of
`GetFilesystemMountDetails`. A `nil` and an empty `NodesMounted` are both `[]`. -/
structure FileSystemMount where
  MountPoint : String
  NodesMounted : List String
deriving DecidableEq, Repr

/-- Modelled from the spec: the `Config` part of `connectors.Fileset_v2`; `Path` is the
link path of the fileset. -/
structure FilesetConfig_v2 where
  Path : String
deriving DecidableEq, Repr

/-- Modelled from the spec: `connectors.Fileset_v2`, the answer of `ListFileset`. -/
structure Fileset_v2 where
  Config : FilesetConfig_v2
deriving DecidableEq, Repr

/-- Modelled from the spec: `connectors.UserSpecifiedInodeLimit`, the key of the
inode-limit option of `CreateFileset`. -/
def UserSpecifiedInodeLimit : String := "inodeLimit"

/-- Modelled from the spec: a `connectors.SpectrumScaleConnector`, the per-cluster handle
on the management interface. A connector is identified by the cluster settings it was
built from; what its operations answer is decided by the `ConnectorWorld`. -/
structure SpectrumScaleConnector where
  cluster : Clusters
deriving DecidableEq, Repr

/-- Modelled from the spec: the external management interface. `W` is the state of the
outside world (the clusters); every operation of a connector reads and may change it.
`connectorError` is the error, if any, of `connectors.GetSpectrumScaleConnector`. -/
structure ConnectorWorld (W : Type) where
  connectorError : Clusters → Option String
  GetClusterId : SpectrumScaleConnector → W → (String × Option String) × W
  GetFilesystemMountDetails :
    SpectrumScaleConnector → String → W → (FileSystemMount × Option String) × W
  ListFileset : SpectrumScaleConnector → String → String → W → (Fileset_v2 × Option String) × W
  CreateFileset :
    SpectrumScaleConnector → String → String → List (String × String) → W → Option String × W
  LinkFileset : SpectrumScaleConnector → String → String → String → W → Option String × W
  MakeDirectory : SpectrumScaleConnector → String → String → Nat → Nat → W → Option String × W

/-- Modelled from the spec: `connectors.GetSpectrumScaleConnector(cluster)`, the connector
for a declared cluster together with the error of its construction. -/
def GetSpectrumScaleConnector {W : Type} (env : ConnectorWorld W) (cluster : Clusters) :
    SpectrumScaleConnector × Option String :=
  (⟨cluster⟩, env.connectorError cluster)

/-- A call on a connector, with its arguments and its answer. -/
inductive Call where
  | GetClusterId (sc : SpectrumScaleConnector) (id : String) (err : Option String)
  | GetFilesystemMountDetails (sc : SpectrumScaleConnector) (filesystemName : String)
      (fsMount : FileSystemMount) (err : Option String)
  | ListFileset (sc : SpectrumScaleConnector) (filesystemName filesetName : String)
      (fsetResponse : Fileset_v2) (err : Option String)
  | CreateFileset (sc : SpectrumScaleConnector) (filesystemName filesetName : String)
      (opts : List (String × String)) (err : Option String)
  | LinkFileset (sc : SpectrumScaleConnector) (filesystemName filesetName linkpath : String)
      (err : Option String)
  | MakeDirectory (sc : SpectrumScaleConnector) (filesystemName relativePath : String)
      (uid gid : Nat) (err : Option String)
deriving DecidableEq, Repr

/-- The call creates or links a fileset. -/
def Call.isCreateOrLink : Call → Bool
  | .CreateFileset .. => true
  | .LinkFileset .. => true
  | _ => false

/-- The call changes a fileset or the filesystem: `CreateFileset`, `LinkFileset` or
`MakeDirectory`. -/
def Call.isMutation : Call → Bool
  | .CreateFileset .. => true
  | .LinkFileset .. => true
  | .MakeDirectory .. => true
  | _ => false

/-- The call is a query of the topology resolution: `GetClusterId` or
`GetFilesystemMountDetails`. -/
def Call.isTopologyQuery : Call → Bool
  | .GetClusterId .. => true
  | .GetFilesystemMountDetails .. => true
  | _ => false

/-- The call is a check of the topology resolution that did not pass: a `GetClusterId`
that failed or returned an identity other than the declared ID of the connector's
cluster, or a `GetFilesystemMountDetails` that failed or reported no mounted node. -/
def Call.isFailedCheck : Call → Bool
  | .GetClusterId sc id err => decide (err ≠ none ∨ id ≠ sc.cluster.ID)
  | .GetFilesystemMountDetails _ _ fsMount err =>
    decide (err ≠ none ∨ fsMount.NodesMounted.length = 0)
  | _ => false

/-- The result of running a piece of the driver against the outside world: the value it
returns, the state of the world afterwards and the connector calls it made, in order. -/
structure Run (W : Type) (α : Type) where
  val : α
  world : W
  trace : List Call

/-- The run `r`, made after the calls `t`. -/
def Run.after {W α : Type} (t : List Call) (r : Run W α) : Run W α :=
  { r with trace := t ++ r.trace }

/-- How a Go function ends: it returns a value, or it panics on a method call through a
`nil` connector. -/
inductive Outcome (α : Type) where
  | returned (a : α)
  | nilDereference
deriving DecidableEq, Repr

/-! ## `CreatePrimaryFileset` and `CreateSymlinkPath` -/

/-- `ScaleDriver.CreatePrimaryFileset` (source lines 337-372). -/
def CreatePrimaryFileset {W : Type} (env : ConnectorWorld W) (sc : SpectrumScaleConnector)
    (primaryFS fsmount filesetName inodeLimit : String) (w : W) :
    Run W (String × Option String) :=
  let r := env.ListFileset sc primaryFS filesetName w
  let fsetResponse := r.1.1
  let err := r.1.2
  let t1 := [Call.ListFileset sc primaryFS filesetName fsetResponse err]
  let linkpath := fsetResponse.Config.Path
  let newlinkpath := pathJoin fsmount filesetName
  if err ≠ none then
    let opts : List (String × String) :=
      if inodeLimit ≠ "" then [(UserSpecifiedInodeLimit, inodeLimit)] else []
    let r2 := env.CreateFileset sc primaryFS filesetName opts r.2
    let t2 := t1 ++ [Call.CreateFileset sc primaryFS filesetName opts r2.1]
    if r2.1 ≠ none then ⟨("", r2.1), r2.2, t2⟩
    else ⟨(newlinkpath, none), r2.2, t2⟩
  else if linkpath = "" ∨ linkpath = "--" then
    let r2 := env.LinkFileset sc primaryFS filesetName newlinkpath r.2
    let t2 := t1 ++ [Call.LinkFileset sc primaryFS filesetName newlinkpath r2.1]
    if r2.1 ≠ none then ⟨("", r2.1), r2.2, t2⟩
    else ⟨(newlinkpath, none), r2.2, t2⟩
  else
    ⟨(linkpath, none), r.2, t1⟩

/-- `ScaleDriver.CreateSymlinkPath` (source lines 374-391); it returns
`(symlinkpath, dirpath, err)`. -/
def CreateSymlinkPath {W : Type} (env : ConnectorWorld W) (sc : SpectrumScaleConnector)
    (fs fsmount fsetlinkpath : String) (w : W) : Run W (String × String × Option String) :=
  let dirpath := Replace1 fsetlinkpath fsmount ""
  let dirpath := Trim dirpath "!/"
  let fsetlinkpath := TrimSuffix fsetlinkpath "/"
  let dirpath := dirpath ++ "/.volumes"
  let symlinkpath := fsetlinkpath ++ "/.volumes"
  let r := env.MakeDirectory sc fs dirpath 0 0 w
  ⟨(symlinkpath, dirpath, r.1), r.2, [Call.MakeDirectory sc fs dirpath 0 0 r.1]⟩

/-! ## `PluginInitialize` -/

/-- The four values returned by `PluginInitialize`; `scmap = none` is the `nil` map. -/
structure InitResult where
  scmap : Option (List (String × SpectrumScaleConnector))
  cmap : ScaleSettingsConfigMap
  primary : Primary
  err : Option String
deriving DecidableEq, Repr

/-- The variables of the loop of `PluginInitialize`. `scaleConnMap` is a Go map kept as
an association list in which a later binding of a key hides the earlier ones; `done`
holds the entries `scaleConfig.Clusters[0..i)`, as the loop has left them. -/
structure InitLoopState where
  scaleConnMap : List (String × SpectrumScaleConnector)
  primaryInfo : Primary
  done : List Clusters
deriving DecidableEq, Repr

/-- One iteration of the loop of `PluginInitialize` (source lines 241-280) for `cluster`;
`rest` holds the clusters after it, so that `scaleConfig.Clusters` is
`st.done ++ cluster :: rest`. `Except.error` is an early `return` of `PluginInitialize`. -/
def initCluster {W : Type} (env : ConnectorWorld W) (cluster : Clusters) (rest : List Clusters)
    (st : InitLoopState) (w : W) : Run W (Except InitResult InitLoopState) :=
  let scaleConfig : ScaleSettingsConfigMap := ⟨st.done ++ cluster :: rest⟩
  let c := GetSpectrumScaleConnector env cluster
  let sc := c.1
  if c.2 ≠ none then
    ⟨.error ⟨none, scaleConfig, st.primaryInfo, c.2⟩, w, []⟩
  else
    let r1 := env.GetClusterId sc w
    let clusterId := r1.1.1
    let t1 := [Call.GetClusterId sc clusterId r1.1.2]
    if r1.1.2 ≠ none then
      ⟨.error ⟨none, scaleConfig, st.primaryInfo, r1.1.2⟩, r1.2, t1⟩
    else if cluster.ID ≠ clusterId then
      ⟨.error ⟨none, scaleConfig, st.primaryInfo, some "Cluster ID doesnt match the cluster"⟩,
        r1.2, t1⟩
    else
      let m1 := (clusterId, sc) :: st.scaleConnMap
      if cluster.Primary ≠ Primary.zero then
        let m2 := ("primary", sc) :: m1
        let r2 := env.GetFilesystemMountDetails sc cluster.Primary.PrimaryFS r1.2
        let fsMount := r2.1.1
        let t2 := t1 ++ [Call.GetFilesystemMountDetails sc cluster.Primary.PrimaryFS fsMount r2.1.2]
        if r2.1.2 ≠ none then
          ⟨.error ⟨none, scaleConfig, cluster.Primary, r2.1.2⟩, r2.2, t2⟩
        else if fsMount.NodesMounted.length = 0 then
          ⟨.error ⟨none, scaleConfig, cluster.Primary,
            some "Primary filesystem not mounted on any node"⟩, r2.2, t2⟩
        else
          let primary : Primary :=
            { cluster.Primary with PrimaryFSMount := fsMount.MountPoint, PrimaryCid := clusterId }
          ⟨.ok ⟨m2, primary, st.done ++ [{ cluster with Primary := primary }]⟩, r2.2, t2⟩
      else
        ⟨.ok ⟨m1, st.primaryInfo, st.done ++ [cluster]⟩, r1.2, t1⟩

/-- The loop `for i := 0; i < len(scaleConfig.Clusters); i++` of `PluginInitialize`
(source lines 240-281) over the clusters that are still to be visited. -/
def initLoop {W : Type} (env : ConnectorWorld W) :
    List Clusters → InitLoopState → W → Run W (Except InitResult InitLoopState)
  | [], st, w => ⟨.ok st, w, []⟩
  | cluster :: rest, st, w =>
    let r := initCluster env cluster rest st w
    match r.val with
    | .error res => ⟨.error res, r.world, r.trace⟩
    | .ok st1 => (initLoop env rest st1 r.world).after r.trace

/-- The effective connector, filesystem and mount point chosen by `PluginInitialize`. -/
structure Effective where
  sconn : Option SpectrumScaleConnector
  fs : String
  fsmount : String
deriving DecidableEq, Repr

/-- The choice of the effective connector, filesystem and mount point in
`PluginInitialize` (source lines 283-303). `Except.error` is an early end of
`PluginInitialize`. -/
def resolveEffective {W : Type} (env : ConnectorWorld W)
    (scaleConnMap : List (String × SpectrumScaleConnector)) (scaleConfig : ScaleSettingsConfigMap)
    (primaryInfo : Primary) (w : W) : Run W (Except (Outcome InitResult) Effective) :=
  let fs := primaryInfo.PrimaryFS
  let sconn := scaleConnMap.lookup "primary"
  let fsmount := primaryInfo.PrimaryFSMount
  if primaryInfo.RemoteCluster ≠ "" then
    let sconn := scaleConnMap.lookup primaryInfo.RemoteCluster
    if primaryInfo.RemoteFS ≠ "" then
      let fs := primaryInfo.RemoteFS
      match sconn with
      | none => ⟨.error .nilDereference, w, []⟩
      | some sc =>
        let r := env.GetFilesystemMountDetails sc fs w
        let fsMount := r.1.1
        let t := [Call.GetFilesystemMountDetails sc fs fsMount r.1.2]
        if r.1.2 ≠ none then
          ⟨.error (.returned ⟨some scaleConnMap, scaleConfig, primaryInfo, r.1.2⟩), r.2, t⟩
        else if fsMount.NodesMounted.length = 0 then
          ⟨.error (.returned ⟨some scaleConnMap, scaleConfig, primaryInfo,
            some ("Primary filesystem not mounted on any node on cluster "
              ++ primaryInfo.RemoteCluster)⟩), r.2, t⟩
        else
          ⟨.ok ⟨sconn, fs, fsMount.MountPoint⟩, r.2, t⟩
    else
      ⟨.ok ⟨sconn, fs, fsmount⟩, w, []⟩
  else
    ⟨.ok ⟨sconn, fs, fsmount⟩, w, []⟩

/-- The last part of `PluginInitialize` (source lines 305-333): the primary fileset, the
rewrite of its link path to the local mount point, the host-path check and the
directory of the volume symlinks. -/
def bootstrapFileset {W : Type} (env : ConnectorWorld W) (environ : String → Option String)
    (scaleConnMap : List (String × SpectrumScaleConnector)) (scaleConfig : ScaleSettingsConfigMap)
    (primaryInfo : Primary) (eff : Effective) (w : W) : Run W (Outcome InitResult) :=
  match eff.sconn with
  | none => ⟨.nilDereference, w, []⟩
  | some sconn =>
    let r := CreatePrimaryFileset env sconn eff.fs eff.fsmount primaryInfo.PrimaryFset
      primaryInfo.InodeLimit w
    if r.val.2 ≠ none then
      ⟨.returned ⟨some scaleConnMap, scaleConfig, primaryInfo, r.val.2⟩, r.world, r.trace⟩
    else
      let fsetlinkpath :=
        if eff.fsmount ≠ primaryInfo.PrimaryFSMount then
          Replace1 r.val.1 eff.fsmount primaryInfo.PrimaryFSMount
        else r.val.1
      let err := ValidateHostpath environ primaryInfo.PrimaryFSMount fsetlinkpath
      if err ≠ none then
        ⟨.returned ⟨some scaleConnMap, scaleConfig, primaryInfo, err⟩, r.world, r.trace⟩
      else
        match scaleConnMap.lookup "primary" with
        | none => ⟨.nilDereference, r.world, r.trace⟩
        | some psc =>
          let r2 := CreateSymlinkPath env psc primaryInfo.PrimaryFS primaryInfo.PrimaryFSMount
            fsetlinkpath r.world
          if r2.val.2.2 ≠ none then
            ⟨.returned ⟨some scaleConnMap, scaleConfig, primaryInfo, r2.val.2.2⟩, r2.world,
              r.trace ++ r2.trace⟩
          else
            let primaryInfo : Primary :=
              { primaryInfo with SymlinkAbsolutePath := r2.val.1,
                                 SymlinkRelativePath := r2.val.2.1,
                                 PrimaryFsetLink := fsetlinkpath }
            ⟨.returned ⟨some scaleConnMap, scaleConfig, primaryInfo, none⟩, r2.world,
              r.trace ++ r2.trace⟩

/-- `ScaleDriver.PluginInitialize` (source lines 227-335). `scaleConfig` is the value of
`settings.LoadScaleConfigSettings()` and `environ` the process environment. -/
def PluginInitialize {W : Type} (env : ConnectorWorld W) (environ : String → Option String)
    (scaleConfig : ScaleSettingsConfigMap) (w : W) : Run W (Outcome InitResult) :=
  let v := ValidateScaleConfigParameters scaleConfig
  if ¬ v.1 then
    ⟨.returned ⟨none, ⟨[]⟩, Primary.zero, v.2⟩, w, []⟩
  else
    let l := initLoop env scaleConfig.Clusters ⟨[], Primary.zero, []⟩ w
    match l.val with
    | .error res => ⟨.returned res, l.world, l.trace⟩
    | .ok st =>
      let scaleConfig : ScaleSettingsConfigMap := ⟨st.done⟩
      let e := resolveEffective env st.scaleConnMap scaleConfig st.primaryInfo l.world
      match e.val with
      | .error out => ⟨out, e.world, l.trace ++ e.trace⟩
      | .ok eff =>
        (bootstrapFileset env environ st.scaleConnMap scaleConfig st.primaryInfo eff
          e.world).after (l.trace ++ e.trace)

/-! ## The validation rules as the specification words them -/

/-- A cluster carries a primary block: its `Primary` is not the zero value. -/
def hasPrimary (c : Clusters) : Prop := c.Primary ≠ Primary.zero

instance (c : Clusters) : Decidable (hasPrimary c) := by
  unfold hasPrimary; infer_instance

/-- Rule "every cluster has a non-empty identifier, at least one REST endpoint, and a
non-empty management-host field on that endpoint". -/
def mandatoryOk (c : Clusters) : Prop :=
  c.ID ≠ "" ∧ c.RestAPI ≠ [] ∧ ∀ e, c.RestAPI.head? = some e → e.GuiHost ≠ ""

/-- Rule "every cluster has non-empty credential-secret reference and username/password
fields". -/
def secretsOk (c : Clusters) : Prop :=
  c.Secrets ≠ "" ∧ c.MgmtUsername ≠ "" ∧ c.MgmtPassword ≠ ""

/-- Rule "if a cluster requests secure transport, a CA certificate value must be
present". -/
def cacertOk (c : Clusters) : Prop :=
  c.SecureSslMode = true → c.CacertValue ≠ none

/-- Rule "the primary cluster's primary block has non-empty filesystem and fileset
names". -/
def primaryNamesOk (c : Clusters) : Prop :=
  hasPrimary c → c.Primary.PrimaryFS ≠ "" ∧ c.Primary.PrimaryFset ≠ ""

/-- Rule "if the primary block names a remote cluster, that identifier must match one of
the non-primary clusters in the declaration". -/
def remoteOk (d : ScaleSettingsConfigMap) (c : Clusters) : Prop :=
  hasPrimary c →
    c.Primary.RemoteCluster = "" ∨
      ∃ r ∈ d.Clusters, ¬ hasPrimary r ∧ r.ID = c.Primary.RemoteCluster

/-- The number of clusters of the declaration that carry a primary block. -/
def primaryCount (d : ScaleSettingsConfigMap) : Nat :=
  d.Clusters.countP (fun c => decide (hasPrimary c))

/-- The rules of the configuration validator, all of which must hold. -/
def SpecValid (d : ScaleSettingsConfigMap) : Prop :=
  d.Clusters ≠ [] ∧
  (∀ c ∈ d.Clusters, mandatoryOk c) ∧
  (∀ c ∈ d.Clusters, secretsOk c) ∧
  (∀ c ∈ d.Clusters, cacertOk c) ∧
  primaryCount d = 1 ∧
  (∀ c ∈ d.Clusters, primaryNamesOk c) ∧
  (∀ c ∈ d.Clusters, remoteOk d c)

/-- The per-cluster rules that one iteration of the loop checks. -/
def clusterOk (c : Clusters) : Prop :=
  mandatoryOk c ∧ secretsOk c ∧ cacertOk c ∧ primaryNamesOk c

/-- The loop variables after a successful iteration for cluster `c` at index `i`. -/
def stepState (c : Clusters) (i : Nat) (st : ValidateState) : ValidateState :=
  if hasPrimary c then
    { st with primaryClusterFound := true, rClusterForPrimaryFS := c.Primary.RemoteCluster }
  else
    { st with cl := st.cl.set i c.ID }

/-- The loop variables after the whole loop has run over `cs` without an early return. -/
def loopState : List Clusters → Nat → ValidateState → ValidateState
  | [], _, st => st
  | c :: rest, i, st => loopState rest (i + 1) (stepState c i st)

/-- The number of clusters in a list that carry a primary block. -/
def primaries (cs : List Clusters) : Nat :=
  cs.countP (fun c => decide (hasPrimary c))

/-! ## The host-path rule as the specification words it -/

/-- The path `s` with a trailing separator: `s` itself when its last character is `/`,
otherwise `s` followed by `/`. -/
def withTrailingSlash (s : String) : String :=
  if s.data.getLast? = some '/' then s else s ++ "/"

/-- Containment of paths: the characters of `p` are an initial segment of those of `q`. -/
def isPathPrefix (p q : String) : Prop := p.data <+: q.data

instance (p q : String) : Decidable (isPathPrefix p q) := by
  unfold isPathPrefix; infer_instance

/-! ## Properties of runs -/

/-- What the loop of `PluginInitialize` guarantees about its own calls: they are topology
queries only; an early return carries an error and a `nil` map; a loop that runs to its
end has seen every check pass. -/
def LoopGuarantee {W : Type} (r : Run W (Except InitResult InitLoopState)) : Prop :=
  (∀ e ∈ r.trace, e.isTopologyQuery = true) ∧
  (match r.val with
   | .error res => res.err ≠ none
   | .ok _ => ∀ e ∈ r.trace, e.isFailedCheck = false)

/-- The connector of cluster `c` never confirms the declared identity: in every state
of the world `GetClusterId` fails or returns an identity other than `c.ID`. -/
def identityFails {W : Type} (env : ConnectorWorld W) (c : Clusters) : Prop :=
  ∀ w, (env.GetClusterId ⟨c⟩ w).1.2 ≠ none ∨ (env.GetClusterId ⟨c⟩ w).1.1 ≠ c.ID

/-- The connector `sc` never reports filesystem `fs` as mounted: in every state of the
world `GetFilesystemMountDetails` fails or reports no mounted node. -/
def mountFails {W : Type} (env : ConnectorWorld W) (sc : SpectrumScaleConnector)
    (fs : String) : Prop :=
  ∀ w, (env.GetFilesystemMountDetails sc fs w).1.2 ≠ none ∨
    (env.GetFilesystemMountDetails sc fs w).1.1.NodesMounted.length = 0

/-- The run of `PluginInitialize` ended with a non-nil error and made no `CreateFileset`,
`LinkFileset` or `MakeDirectory` call. -/
def Aborted {W : Type} (run : Run W (Outcome InitResult)) : Prop :=
  (∃ res, run.val = .returned res ∧ res.err ≠ none) ∧ ∀ e ∈ run.trace, e.isMutation = false

/-! ## A model of the remote fileset -/

/-- The state of the primary fileset on the remote side: not found, or found with the
link path that the management interface reports (`""` or `"--"` when it is not linked). -/
inductive FilesetState where
  | notFound
  | found (linkpath : String)
deriving DecidableEq, Repr

/-- The laws of a remote fileset state that changes only through the calls of
`CreatePrimaryFileset`. `view` reads the state of the fileset `filesetName` of
`primaryFS` off the world. `ListFileset` leaves it as it is, fails when the fileset is not
found and otherwise reports its link path; a successful `CreateFileset` leaves the
fileset linked at `path.Join(fsmount, filesetName)`; a successful `LinkFileset` sets the
link path to its target. -/
structure FilesetModel {W : Type} (env : ConnectorWorld W) (view : W → FilesetState)
    (sc : SpectrumScaleConnector) (primaryFS fsmount filesetName : String) : Prop where
  list_view : ∀ w, view (env.ListFileset sc primaryFS filesetName w).2 = view w
  list_notFound : ∀ w, view w = .notFound →
    (env.ListFileset sc primaryFS filesetName w).1.2 ≠ none
  list_found : ∀ w p, view w = .found p →
    (env.ListFileset sc primaryFS filesetName w).1 = (⟨⟨p⟩⟩, none)
  create_ok : ∀ w opts, (env.CreateFileset sc primaryFS filesetName opts w).1 = none →
    view (env.CreateFileset sc primaryFS filesetName opts w).2
      = .found (pathJoin fsmount filesetName)
  link_ok : ∀ w target, (env.LinkFileset sc primaryFS filesetName target w).1 = none →
    view (env.LinkFileset sc primaryFS filesetName target w).2 = .found target

/-- A small outside world whose state is the state of one fileset. A connector reports
the identity `reportedId` gives for its cluster's ID and the mount details `mountOf`
gives for its cluster's ID and the filesystem; every call succeeds, except `ListFileset`
on a fileset that is not found. -/
def modelWorld (reportedId : String → String) (mountOf : String → String → FileSystemMount) :
    ConnectorWorld FilesetState where
  connectorError := fun _ => none
  GetClusterId := fun sc w => ((reportedId sc.cluster.ID, none), w)
  GetFilesystemMountDetails := fun sc fs w => ((mountOf sc.cluster.ID fs, none), w)
  ListFileset := fun _ _ _ w =>
    match w with
    | .notFound => ((⟨⟨""⟩⟩, some "fileset not found"), w)
    | .found p => ((⟨⟨p⟩⟩, none), w)
  CreateFileset := fun sc fs name _ _ =>
    (none, .found (pathJoin (mountOf sc.cluster.ID fs).MountPoint name))
  LinkFileset := fun _ _ _ target _ => (none, .found target)
  MakeDirectory := fun _ _ _ _ _ w => (none, w)

/-- Mount details of the sample world: every filesystem is mounted at `/gpfs/<name>` on
one node. -/
def sampleMount (_clusterId fs : String) : FileSystemMount :=
  ⟨"/gpfs/" ++ fs, ["node1"]⟩

/-- The sample world: every connector reports the declared identity. -/
def sampleWorld : ConnectorWorld FilesetState := modelWorld (fun id => id) sampleMount

/-- A world in which every filesystem is mounted at the empty path. -/
def emptyMountWorld : ConnectorWorld FilesetState :=
  modelWorld (fun id => id) (fun _ _ => ⟨"", ["node1"]⟩)

/-- A world in which every connector reports the identity `other`. -/
def wrongIdWorld : ConnectorWorld FilesetState := modelWorld (fun _ => "other") sampleMount

/-- A process environment in which `SCALE_HOSTPATH` is `/gpfs/fs0`. -/
def sampleEnviron (name : String) : Option String :=
  if name = "SCALE_HOSTPATH" then some "/gpfs/fs0" else none

/-! ## The volumes left by an earlier run: `init` and `loadExVolumes` -/

/-- Modelled from the spec: `scaleVolume`, a volume as it is stored in a `*.json` file of
the controller folder; `VolID` is the key under which it is kept in `scaleVolumes`. -/
structure scaleVolume where
  VolID : String
deriving DecidableEq, Repr

/-- A file of the folder `PluginFolder/controller`, as `loadExVolumes` meets it: its name,
whether `os.Open` succeeds on it, and the volume that the JSON decoder reads from it
(`none` when decoding fails). -/
structure ControllerFile where
  Name : String
  opens : Bool
  decoded : Option scaleVolume
deriving DecidableEq, Repr

/-- The loop `for _, f := range files` of `loadExVolumes` (source lines 90-106).
`scaleVol` is the local variable the decoder writes to and `scaleVolumes` the package
variable. The statement `scaleVolumes[scaleVol.VolID] = &scaleVol` stands inside a
comment in the source (line 105), so a decoded volume only replaces `scaleVol`. -/
def loadExVolumesLoop :
    List ControllerFile → scaleVolume → List (String × scaleVolume) → List (String × scaleVolume)
  | [], _, scaleVolumes => scaleVolumes
  | f :: rest, scaleVol, scaleVolumes =>
    if ¬ HasSuffix f.Name ".json" then
      loadExVolumesLoop rest scaleVol scaleVolumes
    else if ¬ f.opens then
      loadExVolumesLoop rest scaleVol scaleVolumes
    else
      match f.decoded with
      | none => loadExVolumesLoop rest scaleVol scaleVolumes
      | some decodedVol => loadExVolumesLoop rest decodedVol scaleVolumes

/-- `loadExVolumes` (source lines 81-109). `readDir` is the answer of `ioutil.ReadDir` on
the controller folder, `none` when it fails; the result is the package variable
`scaleVolumes` afterwards. -/
def loadExVolumes (readDir : Option (List ControllerFile))
    (scaleVolumes : List (String × scaleVolume)) : List (String × scaleVolume) :=
  match readDir with
  | none => scaleVolumes
  | some files => loadExVolumesLoop files ⟨""⟩ scaleVolumes

/-- The package function `init` (source lines 63-78). `notExist` tells whether `os.Stat`
reports that the controller folder does not exist, `mkdirFails` whether `os.Mkdir`
fails; the result is `scaleVolumes`, or `none` when `glog.Fatalf` ends the process. -/
def init (notExist mkdirFails : Bool) (readDir : Option (List ControllerFile)) :
    Option (List (String × scaleVolume)) :=
  let scaleVolumes : List (String × scaleVolume) := []
  if notExist then
    if mkdirFails then none else some scaleVolumes
  else
    some (loadExVolumes readDir scaleVolumes)

/-! ## The driver and its capabilities -/

/-- The Go enumeration `csi.ControllerServiceCapability_RPC_Type`, an `int32`. -/
abbrev ControllerServiceCapability_RPC_Type := Int

/-- The value `csi.ControllerServiceCapability_RPC_UNKNOWN`. -/
def ControllerServiceCapability_RPC_UNKNOWN : ControllerServiceCapability_RPC_Type := 0

/-- The value `csi.ControllerServiceCapability_RPC_CREATE_DELETE_VOLUME`. -/
def ControllerServiceCapability_RPC_CREATE_DELETE_VOLUME :
    ControllerServiceCapability_RPC_Type := 1

/-- The value `csi.ControllerServiceCapability_RPC_PUBLISH_UNPUBLISH_VOLUME`. -/
def ControllerServiceCapability_RPC_PUBLISH_UNPUBLISH_VOLUME :
    ControllerServiceCapability_RPC_Type := 2

/-- The value `csi.VolumeCapability_AccessMode_MULTI_NODE_MULTI_WRITER`. -/
def VolumeCapability_AccessMode_MULTI_NODE_MULTI_WRITER : Int := 5

/-- The value `csi.NodeServiceCapability_RPC_STAGE_UNSTAGE_VOLUME`. -/
def NodeServiceCapability_RPC_STAGE_UNSTAGE_VOLUME : Int := 1

/-- The Go type `csi.ControllerServiceCapability_RPC`; `type` is its field `Type`. -/
structure ControllerServiceCapability_RPC where
  type : ControllerServiceCapability_RPC_Type
deriving DecidableEq, Repr

/-- The Go type `csi.ControllerServiceCapability`. `Rpc` is what `GetRpc()` returns:
`none` is the `nil` it returns for a capability without an RPC, and for a `nil` entry of
`driver.cscap`. -/
structure ControllerServiceCapability where
  Rpc : Option ControllerServiceCapability_RPC
deriving DecidableEq, Repr

/-- The Go type `csi.VolumeCapability_AccessMode`. -/
structure VolumeCapability_AccessMode where
  Mode : Int
deriving DecidableEq, Repr

/-- The Go type `csi.NodeServiceCapability`, with the type of its RPC. -/
structure NodeServiceCapability where
  Rpc : Option Int
deriving DecidableEq, Repr

/-- Modelled from the spec: `NewControllerServiceCapability(cap)` builds the capability
with the RPC type `cap`. -/
def NewControllerServiceCapability (cap : ControllerServiceCapability_RPC_Type) :
    ControllerServiceCapability :=
  ⟨some ⟨cap⟩⟩

/-- Modelled from the spec: `NewVolumeCapabilityAccessMode(mode)` builds the access mode
`mode`. -/
def NewVolumeCapabilityAccessMode (mode : Int) : VolumeCapability_AccessMode :=
  ⟨mode⟩

/-- Modelled from the spec: `NewNodeServiceCapability(cap)` builds the capability with
the RPC type `cap`. -/
def NewNodeServiceCapability (cap : Int) : NodeServiceCapability :=
  ⟨some cap⟩

/-- The Go type `mount.SafeFormatAndMount`, known here by a number only. -/
abbrev SafeFormatAndMount := Nat

/-- Modelled from the spec: `ScaleIdentityServer`. Its field `Driver` points back to the
driver that owns it and is not kept here. -/
structure ScaleIdentityServer where
deriving DecidableEq, Repr

/-- Modelled from the spec: `ScaleNodeServer`, with its `Mounter`; the field `Driver`
points back to the driver and is not kept here. -/
structure ScaleNodeServer where
  Mounter : Option SafeFormatAndMount
deriving DecidableEq, Repr

/-- Modelled from the spec: `ScaleControllerServer`; the field `Driver` points back to
the driver and is not kept here. -/
structure ScaleControllerServer where
deriving DecidableEq, Repr

/-- The struct `ScaleDriver` (source lines 42-59). A `nil` pointer or map is `none`; a
`nil` slice is `[]`. -/
structure ScaleDriver where
  name : String
  vendorVersion : String
  nodeID : String
  ids : Option ScaleIdentityServer
  ns : Option ScaleNodeServer
  cs : Option ScaleControllerServer
  connmap : Option (List (String × SpectrumScaleConnector))
  cmap : ScaleSettingsConfigMap
  primary : Primary
  reqmap : Option (List (String × Int))
  vcap : List VolumeCapability_AccessMode
  cscap : List ControllerServiceCapability
  nscap : List NodeServiceCapability
deriving DecidableEq, Repr

/-- `GetScaleDriver` (source lines 111-114): the zero value `&ScaleDriver{}`. -/
def GetScaleDriver : ScaleDriver :=
  { name := "", vendorVersion := "", nodeID := "", ids := none, ns := none, cs := none,
    connmap := none, cmap := ⟨[]⟩, primary := Primary.zero, reqmap := none,
    vcap := [], cscap := [], nscap := [] }

/-- `NewIdentityServer` (source lines 116-121). -/
def NewIdentityServer (_d : ScaleDriver) : ScaleIdentityServer :=
  {}

/-- `NewControllerServer` (source lines 123-133): the server, and the driver with
`connmap`, `cmap`, `primary` and a fresh `reqmap` set. -/
def NewControllerServer (d : ScaleDriver)
    (connMap : Option (List (String × SpectrumScaleConnector))) (cmap : ScaleSettingsConfigMap)
    (primary : Primary) : ScaleControllerServer × ScaleDriver :=
  ({}, { d with connmap := connMap, cmap := cmap, primary := primary, reqmap := some [] })

/-- `NewNodeServer` (source lines 135-141). -/
def NewNodeServer (_d : ScaleDriver) (mounter : Option SafeFormatAndMount) : ScaleNodeServer :=
  { Mounter := mounter }

/-- `ScaleDriver.AddVolumeCapabilityAccessModes` (source lines 143-151): the driver
afterwards and the error returned. -/
def AddVolumeCapabilityAccessModes (driver : ScaleDriver) (vc : List Int) :
    ScaleDriver × Option String :=
  let vca := vc.foldl (fun vca c => vca ++ [NewVolumeCapabilityAccessMode c]) []
  ({ driver with vcap := vca }, none)

/-- `ScaleDriver.AddControllerServiceCapabilities` (source lines 153-162): the driver
afterwards and the error returned. -/
def AddControllerServiceCapabilities (driver : ScaleDriver)
    (cl : List ControllerServiceCapability_RPC_Type) : ScaleDriver × Option String :=
  let csc := cl.foldl (fun csc c => csc ++ [NewControllerServiceCapability c]) []
  ({ driver with cscap := csc }, none)

/-- `ScaleDriver.AddNodeServiceCapabilities` (source lines 164-173): the driver afterwards
and the error returned. -/
def AddNodeServiceCapabilities (driver : ScaleDriver) (nl : List Int) :
    ScaleDriver × Option String :=
  let nsc := nl.foldl (fun nsc n => nsc ++ [NewNodeServiceCapability n]) []
  ({ driver with nscap := nsc }, none)

/-- A gRPC status error: `status.Error(code, message)`. -/
structure StatusError where
  Code : Nat
  Message : String
deriving DecidableEq, Repr

/-- The gRPC code `codes.InvalidArgument`. -/
def codes_InvalidArgument : Nat := 3

/-- The loop `for _, cap := range driver.cscap` of `ValidateControllerServiceRequest`
(source lines 180-184). The field access `cap.GetRpc().Type` panics when `GetRpc()` is
`nil`. -/
def validateRequestLoop (c : ControllerServiceCapability_RPC_Type) :
    List ControllerServiceCapability → Outcome (Option StatusError)
  | [] => .returned (some ⟨codes_InvalidArgument, "Invalid controller service request"⟩)
  | cap :: rest =>
    match cap.Rpc with
    | none => .nilDereference
    | some rpc => if c = rpc.type then .returned none else validateRequestLoop c rest

/-- `ScaleDriver.ValidateControllerServiceRequest` (source lines 175-186). -/
def ValidateControllerServiceRequest (driver : ScaleDriver)
    (c : ControllerServiceCapability_RPC_Type) : Outcome (Option StatusError) :=
  if c = ControllerServiceCapability_RPC_UNKNOWN then .returned none
  else validateRequestLoop c driver.cscap

/-- `ScaleDriver.SetupScaleDriver` (source lines 188-225): the driver afterwards and the
error returned. `scaleConfig` and `environ` are what `PluginInitialize` reads. -/
def SetupScaleDriver {W : Type} (env : ConnectorWorld W) (environ : String → Option String)
    (scaleConfig : ScaleSettingsConfigMap) (driver : ScaleDriver)
    (name vendorVersion nodeID : String) (mounter : Option SafeFormatAndMount) (w : W) :
    Run W (Outcome (ScaleDriver × Option String)) :=
  if name = "" then
    ⟨.returned (driver, some "Driver name missing"), w, []⟩
  else
    let r := PluginInitialize env environ scaleConfig w
    match r.val with
    | .nilDereference => ⟨.nilDereference, r.world, r.trace⟩
    | .returned res =>
      if res.err ≠ none then
        ⟨.returned (driver, res.err), r.world, r.trace⟩
      else
        let driver := { driver with name := name, vendorVersion := vendorVersion,
                                    nodeID := nodeID }
        let driver := (AddVolumeCapabilityAccessModes driver
          [VolumeCapability_AccessMode_MULTI_NODE_MULTI_WRITER]).1
        let driver := (AddControllerServiceCapabilities driver
          [ControllerServiceCapability_RPC_CREATE_DELETE_VOLUME,
           ControllerServiceCapability_RPC_PUBLISH_UNPUBLISH_VOLUME]).1
        let driver := (AddNodeServiceCapabilities driver
          [NodeServiceCapability_RPC_STAGE_UNSTAGE_VOLUME]).1
        let driver := { driver with ids := some (NewIdentityServer driver) }
        let driver := { driver with ns := some (NewNodeServer driver mounter) }
        let c := NewControllerServer driver res.scmap res.cmap res.primary
        let driver := { c.2 with cs := some c.1 }
        ⟨.returned (driver, none), r.world, r.trace⟩

/-! ## Names for the steps of the last part of `PluginInitialize` -/

/-- The link path after the rewrite of source lines 311-313: when the effective mount
point `fsmount` differs from the local mount point `primaryFSMount`, its first occurrence
in `linkpath` is replaced by the local mount point. -/
def rewrittenLinkPath (linkpath fsmount primaryFSMount : String) : String :=
  if fsmount ≠ primaryFSMount then Replace1 linkpath fsmount primaryFSMount else linkpath

/-- The call is a `MakeDirectory`. -/
def Call.isMakeDirectory : Call → Bool
  | .MakeDirectory .. => true
  | _ => false

/-- The call is a `ListFileset`. -/
def Call.isListFileset : Call → Bool
  | .ListFileset .. => true
  | _ => false

/-- The call is a `CreateFileset`. -/
def Call.isCreateFileset : Call → Bool
  | .CreateFileset .. => true
  | _ => false

/-! ## The paths of the symlink directory as the specification words them -/

/-- The API-relative path as the specification words it: the link path with the
mount-point prefix stripped and any leading `/` removed, followed by `/.volumes`. -/
def specRelativePath (fsmount fsetlinkpath : String) : String :=
  ⟨(fsetlinkpath.data.drop fsmount.data.length).dropWhile (fun c => c = '/')⟩ ++ "/.volumes"

/-- The absolute path as the specification words it: the link path followed by
`/.volumes`. -/
def specAbsolutePath (fsetlinkpath : String) : String :=
  fsetlinkpath ++ "/.volumes"

/-- A character that `CreateSymlinkPath` trims off both ends of the relative path. -/
def isEdgeChar (c : Char) : Bool := c == '!' || c == '/'

/-- The characters `l` without the `/` and `!` at its start and at its end. -/
def stripEdges (l : List Char) : List Char :=
  ((l.dropWhile isEdgeChar).reverse.dropWhile isEdgeChar).reverse

/-- The characters `l` without one `/` at the end, when there is one. -/
def dropOneTrailingSlash (l : List Char) : List Char :=
  if l.getLast? = some '/' then l.dropLast else l

/-! ## Sample declarations -/

/-- A cluster without a primary block, with every mandatory field filled in. -/
def plainCluster (id : String) : Clusters :=
  { ID := id, Primary := Primary.zero, SecureSslMode := false, Cacert := "",
    Secrets := "secret", RestAPI := [⟨"gui.example", 443⟩], MgmtUsername := "admin",
    MgmtPassword := "pw", CacertValue := none }

/-- A cluster with the primary block `fs0`/`csiroot` and the given remote cluster
identifier and remote filesystem. -/
def primaryCluster (id remoteCluster remoteFS : String) : Clusters :=
  { plainCluster id with
    Primary := { Primary.zero with PrimaryFS := "fs0", PrimaryFset := "csiroot",
                                   RemoteCluster := remoteCluster, RemoteFS := remoteFS } }

/-- A declaration with two primary-bearing clusters. -/
def twoPrimaries : ScaleSettingsConfigMap :=
  ⟨[primaryCluster "c1" "" "", primaryCluster "c2" "" ""]⟩

/-- A declaration whose primary names the remote cluster `c9`, which is not declared. -/
def danglingRemote : ScaleSettingsConfigMap :=
  ⟨[primaryCluster "c1" "c9" "fs9", plainCluster "c2"]⟩

/-- A declaration in which two clusters share the identifier `c1`. -/
def duplicateIds : ScaleSettingsConfigMap :=
  ⟨[primaryCluster "c1" "" "", plainCluster "c1"]⟩

/-- A declaration with a primary cluster `c1` and a remote cluster `c2`. -/
def localAndRemote : ScaleSettingsConfigMap :=
  ⟨[primaryCluster "c1" "c2" "fs1", plainCluster "c2"]⟩

/-- A declaration whose primary names the remote cluster `c2` but no remote filesystem. -/
def remoteWithoutFS : ScaleSettingsConfigMap :=
  ⟨[primaryCluster "c1" "c2" "", plainCluster "c2"]⟩

/-- A declaration of three clusters in which the second is a second primary. -/
def secondPrimaryThenPlain : ScaleSettingsConfigMap :=
  ⟨[primaryCluster "c1" "" ""] ++ primaryCluster "c2" "" "" :: [plainCluster "c3"]⟩

/-- The controller folder holds one file, `vol1.json`, which opens and decodes to the
volume `vol1`. -/
def oneVolumeFolder : Option (List ControllerFile) :=
  some [⟨"vol1.json", true, some ⟨"vol1"⟩⟩]

/-- A declaration of one cluster `c1` with the primary block `fs0`/`csiroot`. -/
def singleCluster : ScaleSettingsConfigMap :=
  ⟨[primaryCluster "c1" "" ""]⟩

/-- A declaration in which the cluster declared after the primary cluster `c1` has the
identifier `primary`. -/
def clusterNamedPrimary : ScaleSettingsConfigMap :=
  ⟨[primaryCluster "c1" "" "", plainCluster "primary"]⟩

/-- Mount details of a world in which the remote filesystem `fs1` is reported with the
mount point `/gpfs/fs1/`, which ends in a separator. -/
def trailingSlashMount (_clusterId fs : String) : FileSystemMount :=
  if fs = "fs1" then ⟨"/gpfs/fs1/", ["node1"]⟩ else ⟨"/gpfs/" ++ fs, ["node1"]⟩

/-- A world in which the remote filesystem is mounted at `/gpfs/fs1/`. -/
def trailingSlashWorld : ConnectorWorld FilesetState :=
  modelWorld (fun id => id) trailingSlashMount

/-- A world in which every filesystem is reported with the mount point `/gpfs//<name>`,
which is not in its shortest form. -/
def doubleSlashWorld : ConnectorWorld FilesetState :=
  modelWorld (fun id => id) (fun _ fs => ⟨"/gpfs//" ++ fs, ["node1"]⟩)

/-! # Theorems -/

/-! ### Lemmas about the validation loop -/

theorem StringInSlice_iff (a : String) (l : List String) :
    StringInSlice a l = true ↔ a ∈ l := by
  induction l with
  | nil => simp [StringInSlice]
  | cons b rest ih =>
    simp only [StringInSlice, List.mem_cons]
    by_cases h : b = a
    · simp [h]
    · simp only [h, if_false, ih]
      constructor
      · intro h1; exact Or.inr h1
      · rintro (h1 | h1)
        · exact absurd h1.symm h
        · exact h1

theorem mandatoryOk_iff (c : Clusters) :
    mandatoryOk c ↔
      ¬ (c.ID = "" ∨ c.RestAPI.length = 0 ∨ (c.RestAPI.head?.map RestAPI.GuiHost) = some "") := by
  unfold mandatoryOk
  cases h : c.RestAPI with
  | nil => simp
  | cons e es => simp

theorem validateCluster_ok_iff (c : Clusters) (i : Nat) (st st1 : ValidateState) :
    validateCluster c i st = .ok st1 ↔
      clusterOk c ∧ (hasPrimary c → st.primaryClusterFound = false) ∧ st1 = stepState c i st := by
  unfold clusterOk
  rw [mandatoryOk_iff]
  unfold validateCluster secretsOk cacertOk primaryNamesOk stepState hasPrimary
  by_cases hm : (c.ID = "" ∨ c.RestAPI.length = 0 ∨ (c.RestAPI.head?.map RestAPI.GuiHost) = some "")
  · rw [if_pos hm]
    constructor
    · intro h; cases h
    · intro h; exact absurd hm h.1.1
  · rw [if_neg hm]
    by_cases hp : c.Primary = Primary.zero
    · by_cases hs : (c.Secrets = "" ∨ c.MgmtUsername = "" ∨ c.MgmtPassword = "")
      · simp only [hp, hs, ne_eq, not_true_eq_false, if_true, if_false]
        simp only [not_or] at hs ⊢
        constructor
        · intro h; cases h
        · intro h; tauto
      · by_cases hc : (c.SecureSslMode = true ∧ c.CacertValue = none)
        · simp only [hp, hs, hc, ne_eq, not_true_eq_false, if_true, if_false]
          constructor
          · intro h; cases h
          · intro h; tauto
        · simp only [hp, hs, hc, ne_eq, not_true_eq_false, if_true, if_false, Except.ok.injEq]
          constructor
          · intro h; subst h; tauto
          · intro h; exact h.2.2.symm
    · by_cases hf : st.primaryClusterFound = true
      · simp only [hp, hf, ne_eq, not_false_eq_true, if_true, if_false]
        constructor
        · intro h; cases h
        · intro h; have := h.2.1 trivial; cases this
      · by_cases hn : (c.Primary.PrimaryFS = "" ∨ c.Primary.PrimaryFset = "")
        · simp only [hp, hf, hn, ne_eq, not_false_eq_true, if_true, if_false]
          constructor
          · intro h; cases h
          · intro h; tauto
        · by_cases hs : (c.Secrets = "" ∨ c.MgmtUsername = "" ∨ c.MgmtPassword = "")
          · simp only [hp, hf, hn, hs, ne_eq, not_false_eq_true, if_true, if_false]
            constructor
            · intro h; cases h
            · intro h; tauto
          · by_cases hc : (c.SecureSslMode = true ∧ c.CacertValue = none)
            · simp only [hp, hf, hn, hs, hc, ne_eq, not_false_eq_true, if_true, if_false]
              constructor
              · intro h; cases h
              · intro h; tauto
            · have hf1 : st.primaryClusterFound = false := by
                cases hq : st.primaryClusterFound
                · rfl
                · exact absurd hq hf
              simp only [hp, hf1, hn, hs, hc, ne_eq, not_false_eq_true, if_true, if_false,
                Except.ok.injEq, Bool.false_eq_true]
              constructor
              · intro h; subst h; tauto
              · intro h; exact h.2.2.symm

theorem primaries_cons (c : Clusters) (cs : List Clusters) :
    primaries (c :: cs) = primaries cs + if hasPrimary c then 1 else 0 := by
  unfold primaries
  rw [List.countP_cons]
  by_cases h : hasPrimary c <;> simp [h]

theorem primaries_eq_zero (cs : List Clusters) :
    primaries cs = 0 ↔ ∀ c ∈ cs, ¬ hasPrimary c := by
  unfold primaries
  rw [List.countP_eq_zero]
  simp

theorem primaries_pos (cs : List Clusters) :
    0 < primaries cs ↔ ∃ c ∈ cs, hasPrimary c := by
  unfold primaries
  rw [List.countP_pos_iff]
  simp

theorem validateLoop_ok_iff (cs : List Clusters) (i : Nat) (st st1 : ValidateState) :
    validateLoop cs i st = .ok st1 ↔
      (∀ c ∈ cs, clusterOk c) ∧
      ((st.primaryClusterFound = true → primaries cs = 0) ∧ primaries cs ≤ 1) ∧
      st1 = loopState cs i st := by
  induction cs generalizing i st with
  | nil =>
    unfold validateLoop loopState primaries
    constructor
    · intro h
      injection h with h
      exact ⟨by simp, by simp, h.symm⟩
    · intro h; rw [h.2.2]
  | cons c rest ih =>
    rw [primaries_cons]
    simp only [validateLoop, loopState, List.mem_cons, forall_eq_or_imp]
    cases hv : validateCluster c i st with
    | error e =>
      simp only
      constructor
      · intro h; cases h
      · rintro ⟨⟨hc, _⟩, ⟨h1, h2⟩, _⟩
        have hok : validateCluster c i st = .ok (stepState c i st) := by
          rw [validateCluster_ok_iff]
          refine ⟨hc, ?_, rfl⟩
          intro hp
          cases hq : st.primaryClusterFound
          · rfl
          · have := h1 hq
            simp [hp] at this
        rw [hv] at hok
        cases hok
    | ok st2 =>
      simp only
      rw [validateCluster_ok_iff] at hv
      obtain ⟨hc, hf, hst⟩ := hv
      subst hst
      rw [ih]
      have hfound : (stepState c i st).primaryClusterFound = true ↔
          (hasPrimary c ∨ st.primaryClusterFound = true) := by
        unfold stepState
        by_cases hp : hasPrimary c <;> simp [hp]
      rw [hfound]
      by_cases hp : hasPrimary c
      · have hf1 := hf hp
        simp only [hp, hf1, if_true, true_or, forall_const, Bool.false_eq_true, false_implies,
          true_and, hc]
        constructor
        · rintro ⟨h1, ⟨h2, _⟩, h3⟩
          exact ⟨h1, by omega, h3⟩
        · rintro ⟨h1, h2, h3⟩
          exact ⟨h1, ⟨by omega, by omega⟩, h3⟩
      · simp only [hp, if_false, false_or, Nat.add_zero, hc, true_and]

theorem validateLoop_error (cs : List Clusters) (i : Nat) (st : ValidateState)
    (e : Bool × Option String) (h : validateLoop cs i st = .error e) :
    e.1 = false ∧ e.2 ≠ none := by
  induction cs generalizing i st with
  | nil => simp [validateLoop] at h
  | cons c rest ih =>
    simp only [validateLoop] at h
    cases hv : validateCluster c i st with
    | ok st2 =>
      rw [hv] at h
      exact ih _ _ h
    | error e2 =>
      rw [hv] at h
      simp only [Except.error.injEq] at h
      subst h
      unfold validateCluster at hv
      split_ifs at hv <;> simp at hv <;> (try (subst hv; simp))

theorem loopState_found (cs : List Clusters) (i : Nat) (st : ValidateState) :
    (loopState cs i st).primaryClusterFound = true ↔
      (st.primaryClusterFound = true ∨ 0 < primaries cs) := by
  induction cs generalizing i st with
  | nil => simp [loopState, primaries]
  | cons c rest ih =>
    rw [loopState, ih, primaries_cons]
    unfold stepState
    by_cases hp : hasPrimary c <;> simp [hp]

theorem loopState_remote_none (cs : List Clusters) (i : Nat) (st : ValidateState)
    (h : primaries cs = 0) :
    (loopState cs i st).rClusterForPrimaryFS = st.rClusterForPrimaryFS := by
  induction cs generalizing i st with
  | nil => rfl
  | cons c rest ih =>
    rw [primaries_cons] at h
    have hp : ¬ hasPrimary c := by
      intro hp; simp [hp] at h
    rw [loopState, ih _ _ (by omega)]
    simp [stepState, hp]

theorem loopState_remote (cs : List Clusters) (i : Nat) (st : ValidateState)
    (c : Clusters) (hc : c ∈ cs) (hp : hasPrimary c) (h1 : primaries cs ≤ 1) :
    (loopState cs i st).rClusterForPrimaryFS = c.Primary.RemoteCluster := by
  induction cs generalizing i st with
  | nil => simp at hc
  | cons a rest ih =>
    rw [primaries_cons] at h1
    rw [loopState]
    rcases List.mem_cons.mp hc with hca | hca
    · subst hca
      simp only [hp, if_true] at h1
      rw [loopState_remote_none _ _ _ (by omega)]
      simp [stepState, hp]
    · exact ih _ _ hca (by omega)

theorem loopState_cl_mem (cs : List Clusters) (i : Nat) (st : ValidateState) (x : String)
    (hx : x ∈ (loopState cs i st).cl) :
    x ∈ st.cl ∨ ∃ c ∈ cs, ¬ hasPrimary c ∧ c.ID = x := by
  induction cs generalizing i st with
  | nil => exact Or.inl hx
  | cons a rest ih =>
    rw [loopState] at hx
    rcases ih _ _ hx with h | ⟨c, hc, hnp, hid⟩
    · unfold stepState at h
      by_cases hp : hasPrimary a
      · simp only [hp, if_true] at h
        exact Or.inl h
      · simp only [hp, if_false] at h
        rcases List.mem_or_eq_of_mem_set h with h2 | h2
        · exact Or.inl h2
        · exact Or.inr ⟨a, List.mem_cons_self _ _, hp, h2.symm⟩
    · exact Or.inr ⟨c, List.mem_cons_of_mem _ hc, hnp, hid⟩

theorem loopState_cl_length (cs : List Clusters) (i : Nat) (st : ValidateState) :
    (loopState cs i st).cl.length = st.cl.length := by
  induction cs generalizing i st with
  | nil => rfl
  | cons a rest ih =>
    rw [loopState, ih]
    unfold stepState
    by_cases hp : hasPrimary a <;> simp [hp]

theorem loopState_cl_below (cs : List Clusters) (i : Nat) (st : ValidateState) (j : Nat)
    (hj : j < i) : (loopState cs i st).cl[j]? = st.cl[j]? := by
  induction cs generalizing i st with
  | nil => rfl
  | cons a rest ih =>
    rw [loopState, ih _ _ (by omega)]
    unfold stepState
    by_cases hp : hasPrimary a
    · simp [hp]
    · simp only [hp, if_false]
      rw [List.getElem?_set_ne (by omega)]

theorem loopState_cl_has (cs : List Clusters) (i : Nat) (st : ValidateState)
    (hlen : i + cs.length ≤ st.cl.length) (c : Clusters) (hc : c ∈ cs)
    (hnp : ¬ hasPrimary c) : c.ID ∈ (loopState cs i st).cl := by
  induction cs generalizing i st with
  | nil => simp at hc
  | cons a rest ih =>
    rw [loopState]
    have hlen1 : (stepState a i st).cl.length = st.cl.length := by
      unfold stepState
      by_cases hp : hasPrimary a <;> simp [hp]
    simp only [List.length_cons] at hlen
    rcases List.mem_cons.mp hc with hca | hca
    · subst hca
      rw [List.mem_iff_getElem?]
      refine ⟨i, ?_⟩
      rw [loopState_cl_below _ _ _ _ (by omega)]
      simp only [stepState, hnp, if_false]
      rw [List.getElem?_set_self (by omega)]
    · exact ih _ _ (by rw [hlen1]; omega) hca

/-! ### The validator against its rules -/

theorem validate_coherent (d : ScaleSettingsConfigMap) :
    ValidateScaleConfigParameters d = (true, none) ∨
      ∃ msg, ValidateScaleConfigParameters d = (false, some msg) := by
  unfold ValidateScaleConfigParameters
  split_ifs with h0
  · exact Or.inr ⟨_, rfl⟩
  · cases hv : validateLoop d.Clusters 0 ⟨false, "", List.replicate d.Clusters.length ""⟩ with
    | error e =>
      obtain ⟨h1, h2⟩ := validateLoop_error _ _ _ _ hv
      obtain ⟨b, m⟩ := e
      simp only at h1 h2 ⊢
      subst h1
      cases m with
      | none => exact absurd rfl h2
      | some msg => exact Or.inr ⟨msg, rfl⟩
    | ok st =>
      simp only
      split_ifs <;> first | exact Or.inl rfl | exact Or.inr ⟨_, rfl⟩

theorem validate_true_iff (d : ScaleSettingsConfigMap) :
    (ValidateScaleConfigParameters d).1 = true ↔ SpecValid d := by
  unfold ValidateScaleConfigParameters SpecValid
  by_cases h0 : d.Clusters.length = 0
  · rw [if_pos h0]
    have : d.Clusters = [] := List.length_eq_zero.mp h0
    simp [this]
  · rw [if_neg h0]
    have hne : d.Clusters ≠ [] := fun h => h0 (by rw [h]; rfl)
    have hcount : primaryCount d = primaries d.Clusters := rfl
    rw [hcount]
    cases hv : validateLoop d.Clusters 0 ⟨false, "", List.replicate d.Clusters.length ""⟩ with
    | error e =>
      obtain ⟨h1, _⟩ := validateLoop_error _ _ _ _ hv
      simp only [h1, Bool.false_eq_true, false_iff]
      rintro ⟨_, hm, hs, hc, hp1, hn, _⟩
      have hok : validateLoop d.Clusters 0 ⟨false, "", List.replicate d.Clusters.length ""⟩
          = .ok (loopState d.Clusters 0 ⟨false, "", List.replicate d.Clusters.length ""⟩) := by
        rw [validateLoop_ok_iff]
        refine ⟨fun c hcm => ⟨hm c hcm, hs c hcm, hc c hcm, hn c hcm⟩, ⟨?_, by omega⟩, rfl⟩
        intro h; cases h
      rw [hv] at hok
      cases hok
    | ok st =>
      rw [validateLoop_ok_iff] at hv
      obtain ⟨hall, ⟨_, hle⟩, hst⟩ := hv
      have hfound := loopState_found d.Clusters 0 ⟨false, "", List.replicate d.Clusters.length ""⟩
      rw [← hst] at hfound
      simp only [Bool.false_eq_true, false_or] at hfound
      simp only
      constructor
      · intro h
        by_cases hf : st.primaryClusterFound = true
        swap
        · rw [if_pos (by simpa using hf)] at h
          cases h
        rw [if_neg (by simp [hf])] at h
        by_cases h2 : (st.rClusterForPrimaryFS ≠ "" ∧
            ¬ StringInSlice st.rClusterForPrimaryFS st.cl = true)
        · rw [if_pos h2] at h
          cases h
        · have hpos := hfound.mp hf
          refine ⟨hne, fun c hc => (hall c hc).1, fun c hc => (hall c hc).2.1,
            fun c hc => (hall c hc).2.2.1, by omega, fun c hc => (hall c hc).2.2.2, ?_⟩
          intro c hc hp
          have hr := loopState_remote d.Clusters 0 ⟨false, "", List.replicate d.Clusters.length ""⟩
            c hc hp hle
          rw [← hst] at hr
          by_cases hre : c.Primary.RemoteCluster = ""
          · exact Or.inl hre
          · right
            rw [← hr] at hre
            have hin : StringInSlice st.rClusterForPrimaryFS st.cl = true := by
              by_contra hcon
              exact h2 ⟨hre, by simpa using hcon⟩
            rw [StringInSlice_iff, hst] at hin
            rcases loopState_cl_mem _ _ _ _ hin with h3 | ⟨r, hrm, hrnp, hrid⟩
            · simp only [List.mem_replicate] at h3
              rw [← hst] at h3
              exact absurd h3.2 hre
            · refine ⟨r, hrm, hrnp, ?_⟩
              rw [hrid, ← hst, hr]
      · rintro ⟨_, _, _, _, hp1, _, hrem⟩
        have hf : st.primaryClusterFound = true := hfound.mpr (by omega)
        rw [if_neg (by simp [hf])]
        obtain ⟨c, hc, hp⟩ := (primaries_pos d.Clusters).mp (by omega)
        have hr := loopState_remote d.Clusters 0 ⟨false, "", List.replicate d.Clusters.length ""⟩
            c hc hp hle
        rw [← hst] at hr
        rw [if_neg]
        rintro ⟨hre, hnot⟩
        rcases hrem c hc hp with h4 | ⟨r, hrm, hrnp, hrid⟩
        · rw [hr] at hre; exact hre h4
        · apply hnot
          have := loopState_cl_has d.Clusters 0 ⟨false, "", List.replicate d.Clusters.length ""⟩
            (by simp) r hrm hrnp
          rw [← hst, hrid, ← hr] at this
          simpa using (StringInSlice_iff _ _).mpr this

theorem validate_rejects_of_not_valid (d : ScaleSettingsConfigMap) (h : ¬ SpecValid d) :
    (ValidateScaleConfigParameters d).1 = false ∧ (ValidateScaleConfigParameters d).2 ≠ none := by
  rcases validate_coherent d with h1 | ⟨msg, h1⟩
  · exact absurd ((validate_true_iff d).mp (by rw [h1])) h
  · rw [h1]; simp

/-- C1. `ValidateScaleConfigParameters` returns `true` exactly for the declarations that
satisfy every rule of the validator: a non-empty cluster list; for every cluster a
non-empty ID, at least one REST endpoint and a non-empty `GuiHost` on the first one;
non-empty `Secrets`, `MgmtUsername` and `MgmtPassword`; a CA certificate value whenever
`SecureSslMode` is set; exactly one cluster with a non-zero `Primary`, whose `PrimaryFS`
and `PrimaryFset` are non-empty and whose `RemoteCluster` is empty or the ID of a cluster
without a `Primary`. -/
theorem C1_validate_iff_rules (d : ScaleSettingsConfigMap) :
    (ValidateScaleConfigParameters d).1 = true ↔
      (d.Clusters ≠ [] ∧
       (∀ c ∈ d.Clusters, c.ID ≠ "" ∧ c.RestAPI ≠ [] ∧
          ∀ e, c.RestAPI.head? = some e → e.GuiHost ≠ "") ∧
       (∀ c ∈ d.Clusters, c.Secrets ≠ "" ∧ c.MgmtUsername ≠ "" ∧ c.MgmtPassword ≠ "") ∧
       (∀ c ∈ d.Clusters, c.SecureSslMode = true → c.CacertValue ≠ none) ∧
       (d.Clusters.countP (fun c => decide (c.Primary ≠ Primary.zero))) = 1 ∧
       (∀ c ∈ d.Clusters, c.Primary ≠ Primary.zero →
          c.Primary.PrimaryFS ≠ "" ∧ c.Primary.PrimaryFset ≠ "") ∧
       (∀ c ∈ d.Clusters, c.Primary ≠ Primary.zero →
          c.Primary.RemoteCluster = "" ∨
            ∃ r ∈ d.Clusters, r.Primary = Primary.zero ∧ r.ID = c.Primary.RemoteCluster)) := by
  rw [validate_true_iff]
  unfold SpecValid mandatoryOk secretsOk cacertOk primaryNamesOk remoteOk primaryCount hasPrimary
  simp only [ne_eq, not_not]

/-- C2. A declaration in which zero clusters, or more than one cluster, carry a primary
block is rejected: the validator returns `false` together with a non-nil error, whatever
the other fields are. -/
theorem C2_primary_count_rejected (d : ScaleSettingsConfigMap)
    (h : primaryCount d = 0 ∨ 1 < primaryCount d) :
    (ValidateScaleConfigParameters d).1 = false ∧ (ValidateScaleConfigParameters d).2 ≠ none := by
  apply validate_rejects_of_not_valid
  intro hv
  have := hv.2.2.2.2.1
  omega

/-- C2, witness: a declaration with two primary-bearing clusters is rejected. -/
theorem C2_primary_count_rejected_witness :
    (primaryCount twoPrimaries = 0 ∨ 1 < primaryCount twoPrimaries) ∧
    (ValidateScaleConfigParameters twoPrimaries).1 = false ∧
    (ValidateScaleConfigParameters twoPrimaries).2 ≠ none :=
  ⟨by decide, C2_primary_count_rejected twoPrimaries (by decide)⟩

/-- C3. A declaration whose primary block names a non-empty remote cluster identifier
that is not the ID of a non-primary cluster of the declaration (an identifier that is not
declared at all, or the ID of the primary cluster itself) is rejected. -/
theorem C3_unknown_remote_rejected (d : ScaleSettingsConfigMap) (c : Clusters)
    (hc : c ∈ d.Clusters) (hp : hasPrimary c) (hr : c.Primary.RemoteCluster ≠ "")
    (habs : ∀ r ∈ d.Clusters, ¬ hasPrimary r → r.ID ≠ c.Primary.RemoteCluster) :
    (ValidateScaleConfigParameters d).1 = false ∧ (ValidateScaleConfigParameters d).2 ≠ none := by
  apply validate_rejects_of_not_valid
  intro hv
  rcases hv.2.2.2.2.2.2 c hc hp with h | ⟨r, hrm, hrnp, hrid⟩
  · exact hr h
  · exact habs r hrm hrnp hrid

/-- C3, witness: a primary that names the undeclared remote cluster `c9` is rejected. -/
theorem C3_unknown_remote_rejected_witness :
    (ValidateScaleConfigParameters danglingRemote).1 = false ∧
    (ValidateScaleConfigParameters danglingRemote).2 ≠ none :=
  C3_unknown_remote_rejected danglingRemote (primaryCluster "c1" "c9" "fs9")
    (by decide) (by decide) (by decide) (by decide)

/-- C4, counterexample. The validator accepts a declaration in which two clusters share
the identifier `c1`, so an accepted declaration need not have pairwise distinct
identifiers. -/
theorem C4_duplicate_ids_accepted :
    ¬ ((ValidateScaleConfigParameters duplicateIds).1 = true →
        (∀ c ∈ duplicateIds.Clusters, c.ID ≠ "") ∧
        (duplicateIds.Clusters.map Clusters.ID).Nodup) := by
  decide

/-- C4, amended. Every declaration accepted by the validator has a non-empty identifier
on each of its clusters. -/
theorem C4_accepted_ids_nonempty (d : ScaleSettingsConfigMap)
    (h : (ValidateScaleConfigParameters d).1 = true) :
    ∀ c ∈ d.Clusters, c.ID ≠ "" := by
  intro c hc
  exact (((validate_true_iff d).mp h).2.1 c hc).1

/-- C4, witness: an accepted declaration with a primary and a remote cluster. -/
theorem C4_accepted_ids_nonempty_witness :
    (ValidateScaleConfigParameters localAndRemote).1 = true ∧
    ∀ c ∈ localAndRemote.Clusters, c.ID ≠ "" :=
  ⟨by decide, C4_accepted_ids_nonempty localAndRemote (by decide)⟩

/-! ### `ValidateHostpath` -/

theorem HasSuffix_slash_iff (s : String) :
    HasSuffix s "/" = true ↔ s.data.getLast? = some '/' := by
  unfold HasSuffix
  rw [List.isSuffixOf_iff_suffix, List.getLast?_eq_some_iff]
  constructor
  · rintro ⟨t, ht⟩; exact ⟨t, ht.symm⟩
  · rintro ⟨t, ht⟩; exact ⟨t, ht.symm⟩

theorem normalise_eq (s : String) :
    (if ¬ HasSuffix s "/" = true then stringsJoin [s, "/"] "" else s) = withTrailingSlash s := by
  unfold withTrailingSlash
  by_cases h : HasSuffix s "/" = true
  · rw [if_neg (not_not.mpr h), if_pos ((HasSuffix_slash_iff s).mp h)]
  · rw [if_pos h, if_neg (fun h1 => h ((HasSuffix_slash_iff s).mpr h1))]
    simp [stringsJoin]

theorem HasPrefix_iff (s pre : String) : HasPrefix s pre = true ↔ isPathPrefix pre s := by
  unfold HasPrefix isPathPrefix
  exact List.isPrefixOf_iff_prefix

theorem ValidateHostpath_none_iff (environ : String → Option String)
    (mountpath linkpath : String) :
    ValidateHostpath environ mountpath linkpath = none ↔
      (GetEnv environ "SCALE_HOSTPATH" "" ≠ "" ∧
        (isPathPrefix (withTrailingSlash (GetEnv environ "SCALE_HOSTPATH" ""))
            (withTrailingSlash linkpath) ∨
         isPathPrefix (withTrailingSlash (GetEnv environ "SCALE_HOSTPATH" ""))
            (withTrailingSlash mountpath) ∨
         isPathPrefix (withTrailingSlash linkpath)
            (withTrailingSlash (GetEnv environ "SCALE_HOSTPATH" "")) ∨
         isPathPrefix (withTrailingSlash mountpath)
            (withTrailingSlash (GetEnv environ "SCALE_HOSTPATH" "")))) := by
  unfold ValidateHostpath
  simp only [normalise_eq, HasPrefix_iff]
  by_cases h : GetEnv environ "SCALE_HOSTPATH" "" = ""
  · simp [h]
  · simp only [h, if_false, ne_eq, not_false_eq_true, true_and]
    split_ifs with h1
    · simp only [reduceCtorEq, false_iff]
      tauto
    · simp only [true_iff]
      tauto

/-- C8. `ValidateHostpath(mountpath, linkpath)` succeeds exactly when the value `h` of
`SCALE_HOSTPATH` is non-empty and, each of the three paths being given a trailing `/`
when it has none, `h` is a prefix of the link path or of the mount path, or the link
path or the mount path is a prefix of `h`. With `h = /data/`, link path `/mnt/fs/fset/`
and mount point `/mnt/fs/` it fails; with `h = /mnt/fs/fset/.volumes/` and link path
`/mnt/fs/fset/` it succeeds; with `SCALE_HOSTPATH` unset or empty it fails. -/
theorem C8_hostpath_iff_containment :
    (∀ (environ : String → Option String) (mountpath linkpath : String),
      ValidateHostpath environ mountpath linkpath = none ↔
        ((environ "SCALE_HOSTPATH").getD "" ≠ "" ∧
          (isPathPrefix (withTrailingSlash ((environ "SCALE_HOSTPATH").getD ""))
              (withTrailingSlash linkpath) ∨
           isPathPrefix (withTrailingSlash ((environ "SCALE_HOSTPATH").getD ""))
              (withTrailingSlash mountpath) ∨
           isPathPrefix (withTrailingSlash linkpath)
              (withTrailingSlash ((environ "SCALE_HOSTPATH").getD "")) ∨
           isPathPrefix (withTrailingSlash mountpath)
              (withTrailingSlash ((environ "SCALE_HOSTPATH").getD ""))))) ∧
    ValidateHostpath (fun _ => some "/data/") "/mnt/fs/" "/mnt/fs/fset/" ≠ none ∧
    (∀ mountpath, ValidateHostpath (fun _ => some "/mnt/fs/fset/.volumes/") mountpath
        "/mnt/fs/fset/" = none) ∧
    (∀ mountpath linkpath, ValidateHostpath (fun _ => none) mountpath linkpath ≠ none) ∧
    (∀ mountpath linkpath, ValidateHostpath (fun _ => some "") mountpath linkpath ≠ none) := by
  have hget : ∀ environ : String → Option String,
      GetEnv environ "SCALE_HOSTPATH" "" = (environ "SCALE_HOSTPATH").getD "" := by
    intro environ
    unfold GetEnv
    cases environ "SCALE_HOSTPATH" <;> rfl
  refine ⟨?_, by decide, ?_, ?_, ?_⟩
  · intro environ mountpath linkpath
    rw [ValidateHostpath_none_iff, hget]
  · intro mountpath
    rw [ValidateHostpath_none_iff]
    refine ⟨by decide, Or.inr (Or.inr (Or.inl (by decide)))⟩
  · intro mountpath linkpath h
    rw [ValidateHostpath_none_iff] at h
    exact h.1 rfl
  · intro mountpath linkpath h
    rw [ValidateHostpath_none_iff] at h
    exact h.1 rfl

/-! ### `CreatePrimaryFileset` -/

theorem createPrimaryFileset_notFound {W : Type} (env : ConnectorWorld W)
    (sc : SpectrumScaleConnector) (primaryFS fsmount filesetName inodeLimit : String) (w : W)
    (herr : (env.ListFileset sc primaryFS filesetName w).1.2 ≠ none) :
    ∃ opts,
      (CreatePrimaryFileset env sc primaryFS fsmount filesetName inodeLimit w).val =
        (if (env.CreateFileset sc primaryFS filesetName opts
              (env.ListFileset sc primaryFS filesetName w).2).1 ≠ none
          then ("", (env.CreateFileset sc primaryFS filesetName opts
              (env.ListFileset sc primaryFS filesetName w).2).1)
          else (pathJoin fsmount filesetName, none)) ∧
      (CreatePrimaryFileset env sc primaryFS fsmount filesetName inodeLimit w).world =
        (env.CreateFileset sc primaryFS filesetName opts
              (env.ListFileset sc primaryFS filesetName w).2).2 ∧
      (CreatePrimaryFileset env sc primaryFS fsmount filesetName inodeLimit w).trace =
        [Call.ListFileset sc primaryFS filesetName
            (env.ListFileset sc primaryFS filesetName w).1.1
            (env.ListFileset sc primaryFS filesetName w).1.2,
          Call.CreateFileset sc primaryFS filesetName opts
            (env.CreateFileset sc primaryFS filesetName opts
              (env.ListFileset sc primaryFS filesetName w).2).1] := by
  refine ⟨if inodeLimit ≠ "" then [(UserSpecifiedInodeLimit, inodeLimit)] else [], ?_⟩
  simp only [CreatePrimaryFileset, if_pos herr]
  split_ifs <;> exact ⟨rfl, rfl, rfl⟩

theorem createPrimaryFileset_unlinked {W : Type} (env : ConnectorWorld W)
    (sc : SpectrumScaleConnector) (primaryFS fsmount filesetName inodeLimit : String) (w : W)
    (herr : (env.ListFileset sc primaryFS filesetName w).1.2 = none)
    (hpath : (env.ListFileset sc primaryFS filesetName w).1.1.Config.Path = "" ∨
      (env.ListFileset sc primaryFS filesetName w).1.1.Config.Path = "--") :
    (CreatePrimaryFileset env sc primaryFS fsmount filesetName inodeLimit w).val =
      (if (env.LinkFileset sc primaryFS filesetName (pathJoin fsmount filesetName)
            (env.ListFileset sc primaryFS filesetName w).2).1 ≠ none
        then ("", (env.LinkFileset sc primaryFS filesetName (pathJoin fsmount filesetName)
            (env.ListFileset sc primaryFS filesetName w).2).1)
        else (pathJoin fsmount filesetName, none)) ∧
    (CreatePrimaryFileset env sc primaryFS fsmount filesetName inodeLimit w).world =
      (env.LinkFileset sc primaryFS filesetName (pathJoin fsmount filesetName)
            (env.ListFileset sc primaryFS filesetName w).2).2 ∧
    (CreatePrimaryFileset env sc primaryFS fsmount filesetName inodeLimit w).trace =
      [Call.ListFileset sc primaryFS filesetName
          (env.ListFileset sc primaryFS filesetName w).1.1
          (env.ListFileset sc primaryFS filesetName w).1.2,
        Call.LinkFileset sc primaryFS filesetName (pathJoin fsmount filesetName)
          (env.LinkFileset sc primaryFS filesetName (pathJoin fsmount filesetName)
            (env.ListFileset sc primaryFS filesetName w).2).1] := by
  simp only [CreatePrimaryFileset, if_neg (not_not.mpr herr), if_pos hpath]
  split_ifs <;> exact ⟨rfl, rfl, rfl⟩

theorem createPrimaryFileset_linked {W : Type} (env : ConnectorWorld W)
    (sc : SpectrumScaleConnector) (primaryFS fsmount filesetName inodeLimit : String) (w : W)
    (herr : (env.ListFileset sc primaryFS filesetName w).1.2 = none)
    (h1 : (env.ListFileset sc primaryFS filesetName w).1.1.Config.Path ≠ "")
    (h2 : (env.ListFileset sc primaryFS filesetName w).1.1.Config.Path ≠ "--") :
    (CreatePrimaryFileset env sc primaryFS fsmount filesetName inodeLimit w).val =
      ((env.ListFileset sc primaryFS filesetName w).1.1.Config.Path, none) ∧
    (CreatePrimaryFileset env sc primaryFS fsmount filesetName inodeLimit w).world =
      (env.ListFileset sc primaryFS filesetName w).2 ∧
    (CreatePrimaryFileset env sc primaryFS fsmount filesetName inodeLimit w).trace =
      [Call.ListFileset sc primaryFS filesetName
          (env.ListFileset sc primaryFS filesetName w).1.1
          (env.ListFileset sc primaryFS filesetName w).1.2] := by
  have hpath : ¬ ((env.ListFileset sc primaryFS filesetName w).1.1.Config.Path = "" ∨
      (env.ListFileset sc primaryFS filesetName w).1.1.Config.Path = "--") := by
    rintro (h | h)
    · exact h1 h
    · exact h2 h
  unfold CreatePrimaryFileset
  rw [if_neg (not_not.mpr herr), if_neg hpath]
  exact ⟨rfl, rfl, rfl⟩

/-- C5. One call of `CreatePrimaryFileset` starts with `ListFileset` and issues at most
one `CreateFileset` or `LinkFileset`: a `CreateFileset` only when `ListFileset` returned
an error, a `LinkFileset` only when `ListFileset` succeeded with link path `""` or `"--"`,
and neither when `ListFileset` succeeded with another link path. -/
theorem C5_at_most_one_mutation {W : Type} (env : ConnectorWorld W)
    (sc : SpectrumScaleConnector) (primaryFS fsmount filesetName inodeLimit : String) (w : W) :
    let run := CreatePrimaryFileset env sc primaryFS fsmount filesetName inodeLimit w
    let listed := (env.ListFileset sc primaryFS filesetName w).1
    run.trace.head? = some (Call.ListFileset sc primaryFS filesetName listed.1 listed.2) ∧
    run.trace.countP Call.isCreateOrLink ≤ 1 ∧
    (∀ sc1 fs1 name1 opts err, Call.CreateFileset sc1 fs1 name1 opts err ∈ run.trace →
      listed.2 ≠ none) ∧
    (∀ sc1 fs1 name1 target err, Call.LinkFileset sc1 fs1 name1 target err ∈ run.trace →
      listed.2 = none ∧ (listed.1.Config.Path = "" ∨ listed.1.Config.Path = "--")) ∧
    (listed.2 = none → listed.1.Config.Path ≠ "" → listed.1.Config.Path ≠ "--" →
      ∀ e ∈ run.trace, e.isCreateOrLink = false) := by
  intro run listed
  by_cases herr : (env.ListFileset sc primaryFS filesetName w).1.2 ≠ none
  · have hrun : run.trace = [Call.ListFileset sc primaryFS filesetName listed.1 listed.2,
        Call.CreateFileset sc primaryFS filesetName
          (if inodeLimit ≠ "" then [(UserSpecifiedInodeLimit, inodeLimit)] else [])
          (env.CreateFileset sc primaryFS filesetName
            (if inodeLimit ≠ "" then [(UserSpecifiedInodeLimit, inodeLimit)] else [])
            (env.ListFileset sc primaryFS filesetName w).2).1] := by
      simp only [run, CreatePrimaryFileset, if_pos herr]
      split_ifs <;> rfl
    rw [hrun]
    refine ⟨rfl, by simp [List.countP_cons, Call.isCreateOrLink], ?_, ?_, ?_⟩
    · intro _ _ _ _ _ _; exact herr
    · intro sc1 fs1 name1 target err hmem
      simp at hmem
    · intro h; exact absurd h herr
  · by_cases hpath : ((env.ListFileset sc primaryFS filesetName w).1.1.Config.Path = "" ∨
        (env.ListFileset sc primaryFS filesetName w).1.1.Config.Path = "--")
    · have hrun : run.trace = [Call.ListFileset sc primaryFS filesetName listed.1 listed.2,
          Call.LinkFileset sc primaryFS filesetName (pathJoin fsmount filesetName)
            (env.LinkFileset sc primaryFS filesetName (pathJoin fsmount filesetName)
              (env.ListFileset sc primaryFS filesetName w).2).1] := by
        simp only [run, CreatePrimaryFileset, if_neg herr, if_pos hpath]
        split_ifs <;> rfl
      rw [hrun]
      refine ⟨rfl, by simp [List.countP_cons, Call.isCreateOrLink], ?_, ?_, ?_⟩
      · intro sc1 fs1 name1 opts err hmem
        simp at hmem
      · intro _ _ _ _ _ _; exact ⟨not_not.mp herr, hpath⟩
      · intro _ h1 h2
        rcases hpath with h | h
        · exact absurd h h1
        · exact absurd h h2
    · have hrun : run.trace = [Call.ListFileset sc primaryFS filesetName listed.1 listed.2] := by
        simp only [run, CreatePrimaryFileset, if_neg herr, if_neg hpath]
      rw [hrun]
      refine ⟨rfl, by simp [List.countP_cons, Call.isCreateOrLink], ?_, ?_, ?_⟩
      · intro sc1 fs1 name1 opts err hmem
        simp at hmem
      · intro sc1 fs1 name1 target err hmem
        simp at hmem
      · intro _ _ _ e he
        simp only [List.mem_singleton] at he
        subst he
        rfl

/-- C6. Whenever `CreatePrimaryFileset` succeeds, the link path it returns is
`path.Join(fsmount, filesetName)` when `ListFileset` failed and the fileset was created;
the same path when the fileset was found with link path `""` or `"--"` and was linked,
that path being the target passed to `LinkFileset`; and the link path reported by
`ListFileset` when the fileset was found linked. -/
theorem C6_returned_link_path {W : Type} (env : ConnectorWorld W)
    (sc : SpectrumScaleConnector) (primaryFS fsmount filesetName inodeLimit : String) (w : W)
    (hok : (CreatePrimaryFileset env sc primaryFS fsmount filesetName inodeLimit w).val.2 = none) :
    let run := CreatePrimaryFileset env sc primaryFS fsmount filesetName inodeLimit w
    let listed := (env.ListFileset sc primaryFS filesetName w).1
    (listed.2 ≠ none →
      run.val.1 = pathJoin fsmount filesetName ∧
      ∃ opts, Call.CreateFileset sc primaryFS filesetName opts none ∈ run.trace) ∧
    (listed.2 = none → (listed.1.Config.Path = "" ∨ listed.1.Config.Path = "--") →
      run.val.1 = pathJoin fsmount filesetName ∧
      Call.LinkFileset sc primaryFS filesetName (pathJoin fsmount filesetName) none
        ∈ run.trace) ∧
    (listed.2 = none → listed.1.Config.Path ≠ "" → listed.1.Config.Path ≠ "--" →
      run.val.1 = listed.1.Config.Path ∧ ∀ e ∈ run.trace, e.isCreateOrLink = false) := by
  intro run listed
  refine ⟨?_, ?_, ?_⟩
  · intro herr
    obtain ⟨opts, hval, _, htrace⟩ :=
      createPrimaryFileset_notFound env sc primaryFS fsmount filesetName inodeLimit w herr
    have hc : (env.CreateFileset sc primaryFS filesetName opts
        (env.ListFileset sc primaryFS filesetName w).2).1 = none := by
      by_contra hne
      rw [hval, if_pos hne] at hok
      exact hne hok
    refine ⟨?_, opts, ?_⟩
    · show (CreatePrimaryFileset env sc primaryFS fsmount filesetName inodeLimit w).val.1 = _
      rw [hval, if_neg (not_not.mpr hc)]
    · show _ ∈ (CreatePrimaryFileset env sc primaryFS fsmount filesetName inodeLimit w).trace
      rw [htrace, hc]
      simp
  · intro herr hpath
    obtain ⟨hval, _, htrace⟩ :=
      createPrimaryFileset_unlinked env sc primaryFS fsmount filesetName inodeLimit w herr hpath
    have hc : (env.LinkFileset sc primaryFS filesetName (pathJoin fsmount filesetName)
        (env.ListFileset sc primaryFS filesetName w).2).1 = none := by
      by_contra hne
      rw [hval, if_pos hne] at hok
      exact hne hok
    refine ⟨?_, ?_⟩
    · show (CreatePrimaryFileset env sc primaryFS fsmount filesetName inodeLimit w).val.1 = _
      rw [hval, if_neg (not_not.mpr hc)]
    · show _ ∈ (CreatePrimaryFileset env sc primaryFS fsmount filesetName inodeLimit w).trace
      rw [htrace, hc]
      simp
  · intro herr h1 h2
    obtain ⟨hval, _, htrace⟩ :=
      createPrimaryFileset_linked env sc primaryFS fsmount filesetName inodeLimit w herr h1 h2
    refine ⟨?_, ?_⟩
    · show (CreatePrimaryFileset env sc primaryFS fsmount filesetName inodeLimit w).val.1 = _
      rw [hval]
    · show ∀ e ∈ (CreatePrimaryFileset env sc primaryFS fsmount filesetName inodeLimit w).trace, _
      rw [htrace]
      intro e he
      simp only [List.mem_singleton] at he
      subst he
      rfl

/-- C6, witness: the fileset is found with link path `--` and is linked. -/
theorem C6_returned_link_path_witness :
    let run := CreatePrimaryFileset sampleWorld ⟨plainCluster "c1"⟩ "fs0" "/gpfs/fs0" "csiroot" ""
      (FilesetState.found "--")
    let listed := (sampleWorld.ListFileset ⟨plainCluster "c1"⟩ "fs0" "csiroot"
      (FilesetState.found "--")).1
    (listed.2 ≠ none →
      run.val.1 = pathJoin "/gpfs/fs0" "csiroot" ∧
      ∃ opts, Call.CreateFileset ⟨plainCluster "c1"⟩ "fs0" "csiroot" opts none ∈ run.trace) ∧
    (listed.2 = none → (listed.1.Config.Path = "" ∨ listed.1.Config.Path = "--") →
      run.val.1 = pathJoin "/gpfs/fs0" "csiroot" ∧
      Call.LinkFileset ⟨plainCluster "c1"⟩ "fs0" "csiroot" (pathJoin "/gpfs/fs0" "csiroot") none
        ∈ run.trace) ∧
    (listed.2 = none → listed.1.Config.Path ≠ "" → listed.1.Config.Path ≠ "--" →
      run.val.1 = listed.1.Config.Path ∧ ∀ e ∈ run.trace, e.isCreateOrLink = false) :=
  C6_returned_link_path sampleWorld ⟨plainCluster "c1"⟩ "fs0" "/gpfs/fs0" "csiroot" ""
    (FilesetState.found "--") (by decide)

/-! ### Idempotence of `CreatePrimaryFileset` -/

theorem modelWorld_filesetModel (reportedId : String → String)
    (mountOf : String → String → FileSystemMount) (sc : SpectrumScaleConnector)
    (primaryFS filesetName : String) :
    FilesetModel (modelWorld reportedId mountOf) id sc primaryFS
      (mountOf sc.cluster.ID primaryFS).MountPoint filesetName where
  list_view := by
    intro w
    cases w <;> rfl
  list_notFound := by
    intro w hw
    simp only [id] at hw
    subst hw
    simp [modelWorld]
  list_found := by
    intro w p hw
    simp only [id] at hw
    subst hw
    rfl
  create_ok := by
    intro w opts _
    rfl
  link_ok := by
    intro w target _
    rfl

theorem createPrimaryFileset_twice {W : Type} (env : ConnectorWorld W)
    (view : W → FilesetState) (sc : SpectrumScaleConnector)
    (primaryFS fsmount filesetName inodeLimit : String)
    (hm : FilesetModel env view sc primaryFS fsmount filesetName)
    (hj1 : pathJoin fsmount filesetName ≠ "") (hj2 : pathJoin fsmount filesetName ≠ "--")
    (w : W)
    (h1 : (CreatePrimaryFileset env sc primaryFS fsmount filesetName inodeLimit w).val.2 = none) :
    ((CreatePrimaryFileset env sc primaryFS fsmount filesetName inodeLimit w).trace
      ++ (CreatePrimaryFileset env sc primaryFS fsmount filesetName inodeLimit
          (CreatePrimaryFileset env sc primaryFS fsmount filesetName inodeLimit w).world).trace
      ).countP Call.isCreateOrLink ≤ 1 ∧
    (CreatePrimaryFileset env sc primaryFS fsmount filesetName inodeLimit
        (CreatePrimaryFileset env sc primaryFS fsmount filesetName inodeLimit w).world).val =
      ((CreatePrimaryFileset env sc primaryFS fsmount filesetName inodeLimit w).val.1, none) := by
  -- the second call finds the fileset linked at the path the first call returned
  have hsecond : ∀ (w1 : W) (p : String), view w1 = .found p → p ≠ "" → p ≠ "--" →
      (CreatePrimaryFileset env sc primaryFS fsmount filesetName inodeLimit w1).val = (p, none) ∧
      (CreatePrimaryFileset env sc primaryFS fsmount filesetName inodeLimit w1).trace.countP
        Call.isCreateOrLink = 0 := by
    intro w1 p hv hp1 hp2
    have hl := hm.list_found w1 p hv
    have herr : (env.ListFileset sc primaryFS filesetName w1).1.2 = none := by rw [hl]
    have hpath : (env.ListFileset sc primaryFS filesetName w1).1.1.Config.Path = p := by rw [hl]
    obtain ⟨hval, _, htrace⟩ := createPrimaryFileset_linked env sc primaryFS fsmount filesetName
      inodeLimit w1 herr (by rw [hpath]; exact hp1) (by rw [hpath]; exact hp2)
    rw [hval, htrace, hpath]
    exact ⟨rfl, by simp [List.countP_cons, Call.isCreateOrLink]⟩
  rw [List.countP_append]
  by_cases herr : (env.ListFileset sc primaryFS filesetName w).1.2 ≠ none
  · obtain ⟨opts, hval, hworld, htrace⟩ :=
      createPrimaryFileset_notFound env sc primaryFS fsmount filesetName inodeLimit w herr
    have hc : (env.CreateFileset sc primaryFS filesetName opts
        (env.ListFileset sc primaryFS filesetName w).2).1 = none := by
      by_contra hne
      rw [hval, if_pos hne] at h1
      exact hne h1
    have hview := hm.create_ok (env.ListFileset sc primaryFS filesetName w).2 opts hc
    rw [← hworld] at hview
    obtain ⟨hv2, hc2⟩ := hsecond _ _ hview hj1 hj2
    rw [hv2, hc2, hval, if_neg (not_not.mpr hc), htrace]
    exact ⟨by simp [List.countP_cons, Call.isCreateOrLink], rfl⟩
  · have herr1 := not_not.mp herr
    by_cases hpath : ((env.ListFileset sc primaryFS filesetName w).1.1.Config.Path = "" ∨
        (env.ListFileset sc primaryFS filesetName w).1.1.Config.Path = "--")
    · obtain ⟨hval, hworld, htrace⟩ := createPrimaryFileset_unlinked env sc primaryFS fsmount
        filesetName inodeLimit w herr1 hpath
      have hc : (env.LinkFileset sc primaryFS filesetName (pathJoin fsmount filesetName)
          (env.ListFileset sc primaryFS filesetName w).2).1 = none := by
        by_contra hne
        rw [hval, if_pos hne] at h1
        exact hne h1
      have hview := hm.link_ok (env.ListFileset sc primaryFS filesetName w).2 _ hc
      rw [← hworld] at hview
      obtain ⟨hv2, hc2⟩ := hsecond _ _ hview hj1 hj2
      rw [hv2, hc2, hval, if_neg (not_not.mpr hc), htrace]
      exact ⟨by simp [List.countP_cons, Call.isCreateOrLink], rfl⟩
    · have hp1 : (env.ListFileset sc primaryFS filesetName w).1.1.Config.Path ≠ "" :=
        fun h => hpath (Or.inl h)
      have hp2 : (env.ListFileset sc primaryFS filesetName w).1.1.Config.Path ≠ "--" :=
        fun h => hpath (Or.inr h)
      obtain ⟨hval, hworld, htrace⟩ := createPrimaryFileset_linked env sc primaryFS fsmount
        filesetName inodeLimit w herr1 hp1 hp2
      -- the fileset was found, so the world reports it under the same path afterwards
      have hview : view (env.ListFileset sc primaryFS filesetName w).2
          = .found (env.ListFileset sc primaryFS filesetName w).1.1.Config.Path := by
        rw [hm.list_view]
        cases hvw : view w with
        | notFound => exact absurd herr1 (hm.list_notFound w hvw)
        | found p => rw [hm.list_found w p hvw]
      rw [← hworld] at hview
      obtain ⟨hv2, hc2⟩ := hsecond _ _ hview hp1 hp2
      rw [hv2, hc2, hval, htrace]
      exact ⟨by simp [List.countP_cons, Call.isCreateOrLink], rfl⟩

/-- C7, counterexample. In a world where the filesystem is mounted at the empty path, the
fileset named `--` is created by a first call, is then reported with the link path
`path.Join("", "--") = "--"`, and is linked again by the second call: two successful
calls make two create-or-link calls. -/
theorem C7_two_mutations_when_join_is_sentinel :
    FilesetModel emptyMountWorld id ⟨plainCluster "c1"⟩ "fs0" "" "--" ∧
    ¬ ((CreatePrimaryFileset emptyMountWorld ⟨plainCluster "c1"⟩ "fs0" "" "--" ""
          FilesetState.notFound).val.2 = none →
       (CreatePrimaryFileset emptyMountWorld ⟨plainCluster "c1"⟩ "fs0" "" "--" ""
          (CreatePrimaryFileset emptyMountWorld ⟨plainCluster "c1"⟩ "fs0" "" "--" ""
            FilesetState.notFound).world).val.2 = none →
       ((CreatePrimaryFileset emptyMountWorld ⟨plainCluster "c1"⟩ "fs0" "" "--" ""
          FilesetState.notFound).trace ++
        (CreatePrimaryFileset emptyMountWorld ⟨plainCluster "c1"⟩ "fs0" "" "--" ""
          (CreatePrimaryFileset emptyMountWorld ⟨plainCluster "c1"⟩ "fs0" "" "--" ""
            FilesetState.notFound).world).trace).countP Call.isCreateOrLink ≤ 1) :=
  ⟨modelWorld_filesetModel (fun id => id) (fun _ _ => ⟨"", ["node1"]⟩) ⟨plainCluster "c1"⟩
    "fs0" "--", by decide⟩

/-- C7, amended. Over a model of the remote fileset state that changes only through the
calls of `CreatePrimaryFileset`, and provided `path.Join(fsmount, filesetName)` is
neither `""` nor `"--"`, for every initial state two successive successful calls with the
same arguments make at most one `CreateFileset` or `LinkFileset` call in total and
return the same link path. -/
theorem C7_idempotent {W : Type} (env : ConnectorWorld W)
    (view : W → FilesetState) (sc : SpectrumScaleConnector)
    (primaryFS fsmount filesetName inodeLimit : String)
    (hm : FilesetModel env view sc primaryFS fsmount filesetName)
    (hj1 : pathJoin fsmount filesetName ≠ "") (hj2 : pathJoin fsmount filesetName ≠ "--")
    (w : W)
    (h1 : (CreatePrimaryFileset env sc primaryFS fsmount filesetName inodeLimit w).val.2 = none)
    (_h2 : (CreatePrimaryFileset env sc primaryFS fsmount filesetName inodeLimit
        (CreatePrimaryFileset env sc primaryFS fsmount filesetName inodeLimit w).world).val.2
          = none) :
    ((CreatePrimaryFileset env sc primaryFS fsmount filesetName inodeLimit w).trace
      ++ (CreatePrimaryFileset env sc primaryFS fsmount filesetName inodeLimit
          (CreatePrimaryFileset env sc primaryFS fsmount filesetName inodeLimit w).world).trace
      ).countP Call.isCreateOrLink ≤ 1 ∧
    (CreatePrimaryFileset env sc primaryFS fsmount filesetName inodeLimit
        (CreatePrimaryFileset env sc primaryFS fsmount filesetName inodeLimit w).world).val.1 =
      (CreatePrimaryFileset env sc primaryFS fsmount filesetName inodeLimit w).val.1 := by
  obtain ⟨hc, hv⟩ := createPrimaryFileset_twice env view sc primaryFS fsmount filesetName
    inodeLimit hm hj1 hj2 w h1
  exact ⟨hc, by rw [hv]⟩

/-- C7, witness: two calls for the fileset `csiroot` of `fs0`, mounted at `/gpfs/fs0`,
starting from a fileset that is not found. -/
theorem C7_idempotent_witness :
    ((CreatePrimaryFileset sampleWorld ⟨plainCluster "c1"⟩ "fs0" "/gpfs/fs0" "csiroot" ""
          FilesetState.notFound).trace
      ++ (CreatePrimaryFileset sampleWorld ⟨plainCluster "c1"⟩ "fs0" "/gpfs/fs0" "csiroot" ""
          (CreatePrimaryFileset sampleWorld ⟨plainCluster "c1"⟩ "fs0" "/gpfs/fs0" "csiroot" ""
            FilesetState.notFound).world).trace
      ).countP Call.isCreateOrLink ≤ 1 ∧
    (CreatePrimaryFileset sampleWorld ⟨plainCluster "c1"⟩ "fs0" "/gpfs/fs0" "csiroot" ""
        (CreatePrimaryFileset sampleWorld ⟨plainCluster "c1"⟩ "fs0" "/gpfs/fs0" "csiroot" ""
          FilesetState.notFound).world).val.1 =
      (CreatePrimaryFileset sampleWorld ⟨plainCluster "c1"⟩ "fs0" "/gpfs/fs0" "csiroot" ""
        FilesetState.notFound).val.1 :=
  C7_idempotent sampleWorld id ⟨plainCluster "c1"⟩ "fs0" "/gpfs/fs0" "csiroot" ""
    (modelWorld_filesetModel (fun id => id) sampleMount ⟨plainCluster "c1"⟩ "fs0" "csiroot")
    (by decide) (by decide) FilesetState.notFound (by decide) (by decide)

/-! ### The loop of `PluginInitialize` -/

theorem Run.after_val {W α : Type} (t : List Call) (r : Run W α) : (r.after t).val = r.val := rfl

theorem Run.after_trace {W α : Type} (t : List Call) (r : Run W α) :
    (r.after t).trace = t ++ r.trace := rfl

theorem Run.after_world {W α : Type} (t : List Call) (r : Run W α) :
    (r.after t).world = r.world := rfl

theorem LoopGuarantee.after {W : Type} (t : List Call)
    (r : Run W (Except InitResult InitLoopState))
    (ht : ∀ e ∈ t, e.isTopologyQuery = true ∧ e.isFailedCheck = false)
    (h : LoopGuarantee r) : LoopGuarantee (r.after t) := by
  obtain ⟨hq, hv⟩ := h
  refine ⟨?_, ?_⟩
  · intro e he
    rw [Run.after_trace, List.mem_append] at he
    rcases he with he | he
    · exact (ht e he).1
    · exact hq e he
  · rw [Run.after_val]
    cases hval : r.val with
    | error res =>
      rw [hval] at hv
      exact hv
    | ok st =>
      rw [hval] at hv
      simp only at hv ⊢
      intro e he
      rw [Run.after_trace, List.mem_append] at he
      rcases he with he | he
      · exact (ht e he).2
      · exact hv e he

theorem initCluster_guarantee {W : Type} (env : ConnectorWorld W) (cluster : Clusters)
    (rest : List Clusters) (st : InitLoopState) (w : W) :
    (∀ e ∈ (initCluster env cluster rest st w).trace, e.isTopologyQuery = true) ∧
    (match (initCluster env cluster rest st w).val with
     | .error res => res.err ≠ none
     | .ok _ => ∀ e ∈ (initCluster env cluster rest st w).trace, e.isFailedCheck = false) := by
  unfold initCluster
  simp only [GetSpectrumScaleConnector]
  split_ifs with h1 h2 h3 h4 h5 h6
  · exact ⟨by simp, h1⟩
  · exact ⟨by simp [Call.isTopologyQuery], h2⟩
  · exact ⟨by simp [Call.isTopologyQuery], by simp⟩
  · exact ⟨by simp [Call.isTopologyQuery], h5⟩
  · exact ⟨by simp [Call.isTopologyQuery], by simp⟩
  · refine ⟨by simp [Call.isTopologyQuery], ?_⟩
    intro e he
    simp only [List.mem_append, List.mem_singleton, List.mem_cons, List.not_mem_nil,
      or_false] at he
    rcases he with he | he
    · subst he
      simp only [Call.isFailedCheck, decide_eq_false_iff_not, not_or, not_not]
      exact ⟨not_not.mp h2, (not_not.mp h3).symm⟩
    · subst he
      simp only [Call.isFailedCheck, decide_eq_false_iff_not, not_or, not_not]
      exact ⟨not_not.mp h5, h6⟩
  · refine ⟨by simp [Call.isTopologyQuery], ?_⟩
    intro e he
    simp only [List.mem_singleton] at he
    subst he
    simp only [Call.isFailedCheck, decide_eq_false_iff_not, not_or, not_not]
    exact ⟨not_not.mp h2, (not_not.mp h3).symm⟩

theorem initLoop_cons_error {W : Type} (env : ConnectorWorld W) (cluster : Clusters)
    (rest : List Clusters) (st : InitLoopState) (w : W) (res : InitResult)
    (h : (initCluster env cluster rest st w).val = .error res) :
    initLoop env (cluster :: rest) st w =
      ⟨.error res, (initCluster env cluster rest st w).world,
        (initCluster env cluster rest st w).trace⟩ := by
  rw [initLoop]
  simp only [h]

theorem initLoop_cons_ok {W : Type} (env : ConnectorWorld W) (cluster : Clusters)
    (rest : List Clusters) (st : InitLoopState) (w : W) (st1 : InitLoopState)
    (h : (initCluster env cluster rest st w).val = .ok st1) :
    initLoop env (cluster :: rest) st w =
      (initLoop env rest st1 (initCluster env cluster rest st w).world).after
        (initCluster env cluster rest st w).trace := by
  rw [initLoop]
  simp only [h]

theorem initLoop_guarantee {W : Type} (env : ConnectorWorld W) (cs : List Clusters)
    (st : InitLoopState) (w : W) : LoopGuarantee (initLoop env cs st w) := by
  induction cs generalizing st w with
  | nil =>
    unfold initLoop LoopGuarantee
    simp
  | cons cluster rest ih =>
    obtain ⟨hq, hv⟩ := initCluster_guarantee env cluster rest st w
    cases hc : (initCluster env cluster rest st w).val with
    | error res =>
      rw [initLoop_cons_error env cluster rest st w res hc]
      rw [hc] at hv
      exact ⟨hq, hv⟩
    | ok st1 =>
      rw [initLoop_cons_ok env cluster rest st w st1 hc]
      rw [hc] at hv
      exact LoopGuarantee.after _ _ (fun e he => ⟨hq e he, hv e he⟩) (ih _ _)

theorem initCluster_ok {W : Type} (env : ConnectorWorld W) (c : Clusters)
    (rest : List Clusters) (st : InitLoopState) (w : W) (st1 : InitLoopState)
    (h : (initCluster env c rest st w).val = .ok st1) :
    (env.GetClusterId ⟨c⟩ w).1.2 = none ∧ (env.GetClusterId ⟨c⟩ w).1.1 = c.ID ∧
    (¬ hasPrimary c →
      st1 = ⟨(c.ID, ⟨c⟩) :: st.scaleConnMap, st.primaryInfo, st.done ++ [c]⟩) ∧
    (hasPrimary c →
      (env.GetFilesystemMountDetails ⟨c⟩ c.Primary.PrimaryFS (env.GetClusterId ⟨c⟩ w).2).1.2
        = none ∧
      (env.GetFilesystemMountDetails ⟨c⟩ c.Primary.PrimaryFS
        (env.GetClusterId ⟨c⟩ w).2).1.1.NodesMounted.length ≠ 0 ∧
      st1 = ⟨("primary", ⟨c⟩) :: (c.ID, ⟨c⟩) :: st.scaleConnMap,
        { c.Primary with
          PrimaryFSMount := (env.GetFilesystemMountDetails ⟨c⟩ c.Primary.PrimaryFS
            (env.GetClusterId ⟨c⟩ w).2).1.1.MountPoint,
          PrimaryCid := c.ID },
        st.done ++ [{ c with Primary := { c.Primary with
          PrimaryFSMount := (env.GetFilesystemMountDetails ⟨c⟩ c.Primary.PrimaryFS
            (env.GetClusterId ⟨c⟩ w).2).1.1.MountPoint,
          PrimaryCid := c.ID } }]⟩) := by
  unfold initCluster at h
  simp only [GetSpectrumScaleConnector] at h
  unfold hasPrimary
  split_ifs at h with h1 h2 h3 h4 h5 h6
  · have hid : (env.GetClusterId ⟨c⟩ w).1.1 = c.ID := (not_not.mp h3).symm
    simp only [Except.ok.injEq] at h
    refine ⟨not_not.mp h2, hid, fun hn => absurd h4 hn, fun _ => ⟨not_not.mp h5, h6, ?_⟩⟩
    rw [← h, hid]
  · have hid : (env.GetClusterId ⟨c⟩ w).1.1 = c.ID := (not_not.mp h3).symm
    simp only [Except.ok.injEq] at h
    refine ⟨not_not.mp h2, hid, fun _ => ?_, fun hp => absurd hp h4⟩
    rw [← h, hid]

theorem initLoop_ok_induction {W : Type} (env : ConnectorWorld W)
    (P : List Clusters → InitLoopState → InitLoopState → Prop)
    (hnil : ∀ st, P [] st st)
    (hcons : ∀ c rest st w st1 st2, (initCluster env c rest st w).val = .ok st1 →
      P rest st1 st2 → P (c :: rest) st st2)
    (cs : List Clusters) (st : InitLoopState) (w : W) (st2 : InitLoopState)
    (h : (initLoop env cs st w).val = .ok st2) : P cs st st2 := by
  induction cs generalizing st w with
  | nil =>
    simp only [initLoop, Except.ok.injEq] at h
    subst h
    exact hnil _
  | cons c rest ih =>
    cases hc : (initCluster env c rest st w).val with
    | error res =>
      rw [initLoop_cons_error env c rest st w res hc] at h
      cases h
    | ok st1 =>
      rw [initLoop_cons_ok env c rest st w st1 hc, Run.after_val] at h
      exact hcons c rest st w st1 st2 hc (ih _ _ h)

/-- When the loop runs to its end, every declared cluster has answered `GetClusterId`
with its declared identity, in some state of the world. -/
theorem initLoop_ok_identity {W : Type} (env : ConnectorWorld W)
    (cs : List Clusters) (st : InitLoopState) (w : W) (st2 : InitLoopState)
    (h : (initLoop env cs st w).val = .ok st2) :
    ∀ c ∈ cs, ∃ w1, (env.GetClusterId ⟨c⟩ w1).1.2 = none ∧
      (env.GetClusterId ⟨c⟩ w1).1.1 = c.ID := by
  refine initLoop_ok_induction env
    (fun cs _ _ => ∀ c ∈ cs, ∃ w1, (env.GetClusterId ⟨c⟩ w1).1.2 = none ∧
      (env.GetClusterId ⟨c⟩ w1).1.1 = c.ID) ?_ ?_ cs st w st2 h
  · intro _ c hc
    simp at hc
  · intro c rest st w st1 st2 hc ih a ha
    rcases List.mem_cons.mp ha with ha | ha
    · subst ha
      obtain ⟨h1, h2, _⟩ := initCluster_ok env a rest st w st1 hc
      exact ⟨w, h1, h2⟩
    · exact ih a ha

/-- When the loop runs to its end, every primary-bearing cluster has answered
`GetFilesystemMountDetails` for its primary filesystem with at least one mounted node. -/
theorem initLoop_ok_mount {W : Type} (env : ConnectorWorld W)
    (cs : List Clusters) (st : InitLoopState) (w : W) (st2 : InitLoopState)
    (h : (initLoop env cs st w).val = .ok st2) :
    ∀ c ∈ cs, hasPrimary c → ∃ w1,
      (env.GetFilesystemMountDetails ⟨c⟩ c.Primary.PrimaryFS w1).1.2 = none ∧
      (env.GetFilesystemMountDetails ⟨c⟩ c.Primary.PrimaryFS w1).1.1.NodesMounted.length ≠ 0 := by
  refine initLoop_ok_induction env
    (fun cs _ _ => ∀ c ∈ cs, hasPrimary c → ∃ w1,
      (env.GetFilesystemMountDetails ⟨c⟩ c.Primary.PrimaryFS w1).1.2 = none ∧
      (env.GetFilesystemMountDetails ⟨c⟩ c.Primary.PrimaryFS w1).1.1.NodesMounted.length ≠ 0)
    ?_ ?_ cs st w st2 h
  · intro _ c hc
    simp at hc
  · intro c rest st w st1 st2 hc ih a ha hp
    rcases List.mem_cons.mp ha with ha | ha
    · subst ha
      obtain ⟨_, _, _, h4⟩ := initCluster_ok env a rest st w st1 hc
      obtain ⟨h5, h6, _⟩ := h4 hp
      exact ⟨_, h5, h6⟩
    · exact ih a ha hp

theorem lookup_cons_eq {β : Type} (k a : String) (b : β) (l : List (String × β)) :
    List.lookup k ((a, b) :: l) = if k = a then some b else List.lookup k l := by
  rw [List.lookup_cons]
  by_cases h : k = a
  · subst h
    simp
  · have hb : (k == a) = false := by simp [h]
    rw [hb, if_neg h]

theorem initCluster_ok_lookup {W : Type} (env : ConnectorWorld W) (c : Clusters)
    (rest : List Clusters) (st : InitLoopState) (w : W) (st1 : InitLoopState)
    (h : (initCluster env c rest st w).val = .ok st1) (k : String) (hk : k ≠ "primary") :
    st1.scaleConnMap.lookup k =
      if k = c.ID then some ⟨c⟩ else st.scaleConnMap.lookup k := by
  obtain ⟨_, _, h3, h4⟩ := initCluster_ok env c rest st w st1 h
  by_cases hp : hasPrimary c
  · rw [(h4 hp).2.2]
    simp only
    rw [lookup_cons_eq, if_neg hk, lookup_cons_eq]
  · rw [h3 hp]
    simp only
    rw [lookup_cons_eq]

theorem initCluster_ok_primary_key {W : Type} (env : ConnectorWorld W) (c : Clusters)
    (rest : List Clusters) (st : InitLoopState) (w : W) (st1 : InitLoopState)
    (h : (initCluster env c rest st w).val = .ok st1) :
    st1.scaleConnMap.lookup "primary" =
      if hasPrimary c ∨ c.ID = "primary" then some ⟨c⟩ else st.scaleConnMap.lookup "primary" := by
  obtain ⟨_, _, h3, h4⟩ := initCluster_ok env c rest st w st1 h
  by_cases hp : hasPrimary c
  · rw [(h4 hp).2.2]
    simp only
    rw [lookup_cons_eq, if_pos rfl, if_pos (Or.inl hp)]
  · rw [h3 hp]
    simp only
    rw [lookup_cons_eq]
    by_cases hkc : "primary" = c.ID
    · rw [if_pos hkc, if_pos (Or.inr hkc.symm)]
    · rw [if_neg hkc, if_neg]
      rintro (h1 | h1)
      · exact hp h1
      · exact hkc h1.symm

/-- When the loop runs to its end, the connector map has an entry under the ID of every
declared cluster. -/
theorem initLoop_ok_lookup_some {W : Type} (env : ConnectorWorld W)
    (cs : List Clusters) (st : InitLoopState) (w : W) (st2 : InitLoopState)
    (h : (initLoop env cs st w).val = .ok st2) (k : String) :
    ((st.scaleConnMap.lookup k).isSome = true ∨ ∃ c ∈ cs, c.ID = k) →
      (st2.scaleConnMap.lookup k).isSome = true := by
  refine initLoop_ok_induction env
    (fun cs st st2 => ((st.scaleConnMap.lookup k).isSome = true ∨ ∃ c ∈ cs, c.ID = k) →
      (st2.scaleConnMap.lookup k).isSome = true) ?_ ?_ cs st w st2 h
  · intro st hk
    rcases hk with hk | ⟨c, hc, _⟩
    · exact hk
    · simp at hc
  · intro c rest st w st1 st2 hc ih hk
    apply ih
    by_cases hkp : k = "primary"
    · subst hkp
      rw [initCluster_ok_primary_key env c rest st w st1 hc]
      by_cases hq : hasPrimary c ∨ c.ID = "primary"
      · left; simp [hq]
      · rw [if_neg hq]
        rcases hk with hk | ⟨a, ha, hid⟩
        · exact Or.inl hk
        · rcases List.mem_cons.mp ha with ha | ha
          · subst ha
            exact absurd (Or.inr hid) hq
          · exact Or.inr ⟨a, ha, hid⟩
    · rw [initCluster_ok_lookup env c rest st w st1 hc k hkp]
      by_cases hkc : k = c.ID
      · left; simp [hkc]
      · rw [if_neg hkc]
        rcases hk with hk | ⟨a, ha, hid⟩
        · exact Or.inl hk
        · rcases List.mem_cons.mp ha with ha | ha
          · subst ha
            exact absurd hid.symm hkc
          · exact Or.inr ⟨a, ha, hid⟩

/-- When the loop runs to its end and the identifier `k`, which is not the key `primary`,
belongs to the one declared cluster `r`, the connector map holds the connector of `r`
under `k`. -/
theorem initLoop_ok_lookup {W : Type} (env : ConnectorWorld W)
    (cs : List Clusters) (st : InitLoopState) (w : W) (st2 : InitLoopState)
    (h : (initLoop env cs st w).val = .ok st2) (r : Clusters) (hk : r.ID ≠ "primary") :
    (∀ c ∈ cs, c.ID = r.ID → c = r) →
      st2.scaleConnMap.lookup r.ID =
        if r ∈ cs then some ⟨r⟩ else st.scaleConnMap.lookup r.ID := by
  refine initLoop_ok_induction env
    (fun cs st st2 => (∀ c ∈ cs, c.ID = r.ID → c = r) →
      st2.scaleConnMap.lookup r.ID =
        if r ∈ cs then some ⟨r⟩ else st.scaleConnMap.lookup r.ID) ?_ ?_ cs st w st2 h
  · intro st _
    simp
  · intro c rest st w st1 st2 hc ih huniq
    rw [ih (fun a ha => huniq a (List.mem_cons_of_mem _ ha))]
    by_cases hr : r ∈ rest
    · rw [if_pos hr, if_pos (List.mem_cons_of_mem _ hr)]
    · rw [if_neg hr, initCluster_ok_lookup env c rest st w st1 hc r.ID hk]
      by_cases hcr : r.ID = c.ID
      · have : c = r := huniq c (List.mem_cons_self _ _) hcr.symm
        subst this
        rw [if_pos rfl, if_pos (List.mem_cons_self _ _)]
      · rw [if_neg hcr, if_neg]
        intro hmem
        rcases List.mem_cons.mp hmem with h1 | h1
        · exact hcr (by rw [h1])
        · exact hr h1

/-- The fields of a primary block that the loop of `PluginInitialize` copies unchanged. -/
theorem initLoop_ok_primaryInfo {W : Type} (env : ConnectorWorld W)
    (cs : List Clusters) (st : InitLoopState) (w : W) (st2 : InitLoopState)
    (h : (initLoop env cs st w).val = .ok st2) :
    (primaries cs = 0 → st2.primaryInfo = st.primaryInfo) ∧
    (primaries cs ≤ 1 → ∀ p ∈ cs, hasPrimary p →
      ∃ mount, st2.primaryInfo =
        { p.Primary with PrimaryFSMount := mount, PrimaryCid := p.ID }) := by
  refine initLoop_ok_induction env
    (fun cs st st2 => (primaries cs = 0 → st2.primaryInfo = st.primaryInfo) ∧
      (primaries cs ≤ 1 → ∀ p ∈ cs, hasPrimary p →
        ∃ mount, st2.primaryInfo =
          { p.Primary with PrimaryFSMount := mount, PrimaryCid := p.ID })) ?_ ?_ cs st w st2 h
  · intro st
    exact ⟨fun _ => rfl, fun _ p hp => absurd hp (by simp)⟩
  · intro c rest st w st1 st2 hc ih
    obtain ⟨_, _, h3, h4⟩ := initCluster_ok env c rest st w st1 hc
    rw [primaries_cons]
    constructor
    · intro h0
      have hnp : ¬ hasPrimary c := by
        intro hp; simp [hp] at h0
      rw [ih.1 (by omega), h3 hnp]
    · intro h1 p hp hpp
      rcases List.mem_cons.mp hp with hpc | hpc
      · subst hpc
        simp only [hpp, if_true] at h1
        rw [ih.1 (by omega), (h4 hpp).2.2]
        exact ⟨_, rfl⟩
      · exact ih.2 (by omega) p hpc hpp

/-! ### The stages of `PluginInitialize` after the loop -/

theorem Call.not_mutation_of_query (e : Call) (h : e.isTopologyQuery = true) :
    e.isMutation = false := by
  cases e <;> simp_all [Call.isTopologyQuery, Call.isMutation]

theorem Call.not_failed_of_not_query (e : Call) (h : e.isTopologyQuery = false) :
    e.isFailedCheck = false := by
  cases e <;> simp_all [Call.isTopologyQuery, Call.isFailedCheck]

theorem resolveEffective_local {W : Type} (env : ConnectorWorld W)
    (scaleConnMap : List (String × SpectrumScaleConnector)) (scaleConfig : ScaleSettingsConfigMap)
    (primaryInfo : Primary) (w : W) (h1 : primaryInfo.RemoteCluster = "") :
    resolveEffective env scaleConnMap scaleConfig primaryInfo w =
      ⟨.ok ⟨scaleConnMap.lookup "primary", primaryInfo.PrimaryFS, primaryInfo.PrimaryFSMount⟩,
        w, []⟩ := by
  unfold resolveEffective
  simp [h1]

theorem resolveEffective_noRemoteFS {W : Type} (env : ConnectorWorld W)
    (scaleConnMap : List (String × SpectrumScaleConnector)) (scaleConfig : ScaleSettingsConfigMap)
    (primaryInfo : Primary) (w : W) (h1 : primaryInfo.RemoteCluster ≠ "")
    (h2 : primaryInfo.RemoteFS = "") :
    resolveEffective env scaleConnMap scaleConfig primaryInfo w =
      ⟨.ok ⟨scaleConnMap.lookup primaryInfo.RemoteCluster, primaryInfo.PrimaryFS,
        primaryInfo.PrimaryFSMount⟩, w, []⟩ := by
  unfold resolveEffective
  simp [h1, h2]

theorem resolveEffective_nil {W : Type} (env : ConnectorWorld W)
    (scaleConnMap : List (String × SpectrumScaleConnector)) (scaleConfig : ScaleSettingsConfigMap)
    (primaryInfo : Primary) (w : W) (h1 : primaryInfo.RemoteCluster ≠ "")
    (h2 : primaryInfo.RemoteFS ≠ "")
    (h3 : scaleConnMap.lookup primaryInfo.RemoteCluster = none) :
    resolveEffective env scaleConnMap scaleConfig primaryInfo w =
      ⟨.error .nilDereference, w, []⟩ := by
  unfold resolveEffective
  simp [h1, h2, h3]

theorem resolveEffective_remote {W : Type} (env : ConnectorWorld W)
    (scaleConnMap : List (String × SpectrumScaleConnector)) (scaleConfig : ScaleSettingsConfigMap)
    (primaryInfo : Primary) (w : W) (sc : SpectrumScaleConnector)
    (h1 : primaryInfo.RemoteCluster ≠ "") (h2 : primaryInfo.RemoteFS ≠ "")
    (h3 : scaleConnMap.lookup primaryInfo.RemoteCluster = some sc) :
    resolveEffective env scaleConnMap scaleConfig primaryInfo w =
      (if (env.GetFilesystemMountDetails sc primaryInfo.RemoteFS w).1.2 ≠ none then
        ⟨.error (.returned ⟨some scaleConnMap, scaleConfig, primaryInfo,
            (env.GetFilesystemMountDetails sc primaryInfo.RemoteFS w).1.2⟩),
          (env.GetFilesystemMountDetails sc primaryInfo.RemoteFS w).2,
          [Call.GetFilesystemMountDetails sc primaryInfo.RemoteFS
            (env.GetFilesystemMountDetails sc primaryInfo.RemoteFS w).1.1
            (env.GetFilesystemMountDetails sc primaryInfo.RemoteFS w).1.2]⟩
      else if (env.GetFilesystemMountDetails sc primaryInfo.RemoteFS w).1.1.NodesMounted.length = 0
      then
        ⟨.error (.returned ⟨some scaleConnMap, scaleConfig, primaryInfo,
            some ("Primary filesystem not mounted on any node on cluster "
              ++ primaryInfo.RemoteCluster)⟩),
          (env.GetFilesystemMountDetails sc primaryInfo.RemoteFS w).2,
          [Call.GetFilesystemMountDetails sc primaryInfo.RemoteFS
            (env.GetFilesystemMountDetails sc primaryInfo.RemoteFS w).1.1
            (env.GetFilesystemMountDetails sc primaryInfo.RemoteFS w).1.2]⟩
      else
        ⟨.ok ⟨some sc, primaryInfo.RemoteFS,
            (env.GetFilesystemMountDetails sc primaryInfo.RemoteFS w).1.1.MountPoint⟩,
          (env.GetFilesystemMountDetails sc primaryInfo.RemoteFS w).2,
          [Call.GetFilesystemMountDetails sc primaryInfo.RemoteFS
            (env.GetFilesystemMountDetails sc primaryInfo.RemoteFS w).1.1
            (env.GetFilesystemMountDetails sc primaryInfo.RemoteFS w).1.2]⟩) := by
  unfold resolveEffective
  simp only [h1, h2, h3, ne_eq, not_false_eq_true, if_true]

theorem resolveEffective_guarantee {W : Type} (env : ConnectorWorld W)
    (scaleConnMap : List (String × SpectrumScaleConnector)) (scaleConfig : ScaleSettingsConfigMap)
    (primaryInfo : Primary) (w : W) :
    (∀ e ∈ (resolveEffective env scaleConnMap scaleConfig primaryInfo w).trace,
      e.isTopologyQuery = true) ∧
    (match (resolveEffective env scaleConnMap scaleConfig primaryInfo w).val with
     | .error (.returned res) => res.err ≠ none
     | .error .nilDereference =>
       (resolveEffective env scaleConnMap scaleConfig primaryInfo w).trace = []
     | .ok _ => ∀ e ∈ (resolveEffective env scaleConnMap scaleConfig primaryInfo w).trace,
        e.isFailedCheck = false) := by
  by_cases h1 : primaryInfo.RemoteCluster = ""
  · rw [resolveEffective_local env _ _ _ _ h1]
    simp
  · by_cases h2 : primaryInfo.RemoteFS = ""
    · rw [resolveEffective_noRemoteFS env _ _ _ _ h1 h2]
      simp
    · cases hl : List.lookup primaryInfo.RemoteCluster scaleConnMap with
      | none =>
        rw [resolveEffective_nil env _ _ _ _ h1 h2 hl]
        simp
      | some sc =>
        rw [resolveEffective_remote env _ _ _ _ sc h1 h2 hl]
        split_ifs with h3 h4
        · exact ⟨by simp [Call.isTopologyQuery], h3⟩
        · exact ⟨by simp [Call.isTopologyQuery], by simp⟩
        · refine ⟨by simp [Call.isTopologyQuery], ?_⟩
          intro e he
          simp only [List.mem_singleton] at he
          subst he
          simp only [Call.isFailedCheck, decide_eq_false_iff_not, not_or, not_not]
          exact ⟨not_not.mp h3, h4⟩

theorem createPrimaryFileset_trace {W : Type} (env : ConnectorWorld W)
    (sc : SpectrumScaleConnector) (primaryFS fsmount filesetName inodeLimit : String) (w : W) :
    ∀ e ∈ (CreatePrimaryFileset env sc primaryFS fsmount filesetName inodeLimit w).trace,
      e.isTopologyQuery = false := by
  unfold CreatePrimaryFileset
  simp only
  split_ifs <;> simp [Call.isTopologyQuery]

theorem bootstrapFileset_trace_cases {W : Type} (env : ConnectorWorld W)
    (environ : String → Option String)
    (scaleConnMap : List (String × SpectrumScaleConnector)) (scaleConfig : ScaleSettingsConfigMap)
    (primaryInfo : Primary) (eff : Effective) (w : W) :
    (eff.sconn = none ∧
      (bootstrapFileset env environ scaleConnMap scaleConfig primaryInfo eff w).trace = []) ∨
    ∃ sconn, eff.sconn = some sconn ∧
      ((bootstrapFileset env environ scaleConnMap scaleConfig primaryInfo eff w).trace =
          (CreatePrimaryFileset env sconn eff.fs eff.fsmount primaryInfo.PrimaryFset
            primaryInfo.InodeLimit w).trace ∨
       ∃ psc fsetlinkpath,
        (bootstrapFileset env environ scaleConnMap scaleConfig primaryInfo eff w).trace =
          (CreatePrimaryFileset env sconn eff.fs eff.fsmount primaryInfo.PrimaryFset
            primaryInfo.InodeLimit w).trace ++
          (CreateSymlinkPath env psc primaryInfo.PrimaryFS primaryInfo.PrimaryFSMount
            fsetlinkpath
            (CreatePrimaryFileset env sconn eff.fs eff.fsmount primaryInfo.PrimaryFset
              primaryInfo.InodeLimit w).world).trace) := by
  unfold bootstrapFileset
  cases eff.sconn with
  | none => exact Or.inl ⟨rfl, rfl⟩
  | some sconn =>
    right
    refine ⟨sconn, rfl, ?_⟩
    simp only
    by_cases h1 : (CreatePrimaryFileset env sconn eff.fs eff.fsmount primaryInfo.PrimaryFset
        primaryInfo.InodeLimit w).val.2 ≠ none
    · rw [if_pos h1]
      exact Or.inl rfl
    · rw [if_neg h1]
      generalize (if eff.fsmount ≠ primaryInfo.PrimaryFSMount then
          Replace1 (CreatePrimaryFileset env sconn eff.fs eff.fsmount primaryInfo.PrimaryFset
            primaryInfo.InodeLimit w).val.1 eff.fsmount primaryInfo.PrimaryFSMount
          else (CreatePrimaryFileset env sconn eff.fs eff.fsmount primaryInfo.PrimaryFset
            primaryInfo.InodeLimit w).val.1) = lp
      by_cases h2 : ValidateHostpath environ primaryInfo.PrimaryFSMount lp ≠ none
      · rw [if_pos h2]
        exact Or.inl rfl
      · rw [if_neg h2]
        cases List.lookup "primary" scaleConnMap with
        | none => exact Or.inl rfl
        | some psc =>
          simp only
          split_ifs
          · exact Or.inr ⟨psc, lp, rfl⟩
          · exact Or.inr ⟨psc, lp, rfl⟩

theorem bootstrapFileset_trace {W : Type} (env : ConnectorWorld W)
    (environ : String → Option String)
    (scaleConnMap : List (String × SpectrumScaleConnector)) (scaleConfig : ScaleSettingsConfigMap)
    (primaryInfo : Primary) (eff : Effective) (w : W) :
    ∀ e ∈ (bootstrapFileset env environ scaleConnMap scaleConfig primaryInfo eff w).trace,
      e.isTopologyQuery = false := by
  intro e he
  rcases bootstrapFileset_trace_cases env environ scaleConnMap scaleConfig primaryInfo eff w
    with ⟨_, h⟩ | ⟨sconn, _, h | ⟨psc, lp, h⟩⟩
  · rw [h] at he
    simp at he
  · rw [h] at he
    exact createPrimaryFileset_trace _ _ _ _ _ _ _ e he
  · rw [h, List.mem_append] at he
    rcases he with he | he
    · exact createPrimaryFileset_trace _ _ _ _ _ _ _ e he
    · simp only [CreateSymlinkPath, List.mem_singleton] at he
      subst he
      rfl

theorem pluginInitialize_failed_check {W : Type} (env : ConnectorWorld W)
    (environ : String → Option String) (scaleConfig : ScaleSettingsConfigMap) (w : W)
    (hbad : ∃ e ∈ (PluginInitialize env environ scaleConfig w).trace, e.isFailedCheck = true) :
    (∃ res, (PluginInitialize env environ scaleConfig w).val = .returned res ∧ res.err ≠ none) ∧
    ∀ e ∈ (PluginInitialize env environ scaleConfig w).trace, e.isMutation = false := by
  obtain ⟨e, he, hfail⟩ := hbad
  unfold PluginInitialize at he ⊢
  simp only at he ⊢
  by_cases hv : (ValidateScaleConfigParameters scaleConfig).1 = true
  swap
  · rw [if_pos hv] at he
    simp at he
  rw [if_neg (not_not.mpr hv)] at he ⊢
  obtain ⟨hlq, hlv⟩ := initLoop_guarantee env scaleConfig.Clusters ⟨[], Primary.zero, []⟩ w
  cases hl : (initLoop env scaleConfig.Clusters ⟨[], Primary.zero, []⟩ w).val with
  | error res =>
    rw [hl] at hlv
    simp only [hl] at he ⊢
    exact ⟨⟨res, rfl, hlv⟩, fun e1 he1 => Call.not_mutation_of_query e1 (hlq e1 he1)⟩
  | ok st =>
    rw [hl] at hlv
    simp only [hl] at he ⊢
    simp only at hlv
    obtain ⟨hrq, hrv⟩ := resolveEffective_guarantee env st.scaleConnMap ⟨st.done⟩ st.primaryInfo
      (initLoop env scaleConfig.Clusters ⟨[], Primary.zero, []⟩ w).world
    cases hr : (resolveEffective env st.scaleConnMap ⟨st.done⟩ st.primaryInfo
      (initLoop env scaleConfig.Clusters ⟨[], Primary.zero, []⟩ w).world).val with
    | error out =>
      rw [hr] at hrv
      simp only [hr] at he ⊢
      cases out with
      | returned res =>
        refine ⟨⟨res, rfl, hrv⟩, ?_⟩
        intro e1 he1
        rw [List.mem_append] at he1
        rcases he1 with he1 | he1
        · exact Call.not_mutation_of_query e1 (hlq e1 he1)
        · exact Call.not_mutation_of_query e1 (hrq e1 he1)
      | nilDereference =>
        simp only at hrv
        rw [hrv, List.append_nil] at he
        rw [hlv e he] at hfail
        cases hfail
    | ok eff =>
      rw [hr] at hrv
      simp only [hr] at he ⊢
      simp only at hrv
      rw [Run.after_trace, List.mem_append, List.mem_append] at he
      rcases he with (he | he) | he
      · rw [hlv e he] at hfail
        cases hfail
      · rw [hrv e he] at hfail
        cases hfail
      · rw [Call.not_failed_of_not_query e (bootstrapFileset_trace _ _ _ _ _ _ _ e he)] at hfail
        cases hfail

/-! ### `PluginInitialize`, stage by stage -/

theorem pluginInitialize_invalid {W : Type} (env : ConnectorWorld W)
    (environ : String → Option String) (scaleConfig : ScaleSettingsConfigMap) (w : W)
    (hv : ¬ (ValidateScaleConfigParameters scaleConfig).1 = true) :
    PluginInitialize env environ scaleConfig w =
      ⟨.returned ⟨none, ⟨[]⟩, Primary.zero, (ValidateScaleConfigParameters scaleConfig).2⟩,
        w, []⟩ := by
  unfold PluginInitialize
  simp only
  rw [if_pos hv]

theorem pluginInitialize_loop_error {W : Type} (env : ConnectorWorld W)
    (environ : String → Option String) (scaleConfig : ScaleSettingsConfigMap) (w : W)
    (hv : (ValidateScaleConfigParameters scaleConfig).1 = true) (res : InitResult)
    (hl : (initLoop env scaleConfig.Clusters ⟨[], Primary.zero, []⟩ w).val = .error res) :
    PluginInitialize env environ scaleConfig w =
      ⟨.returned res, (initLoop env scaleConfig.Clusters ⟨[], Primary.zero, []⟩ w).world,
        (initLoop env scaleConfig.Clusters ⟨[], Primary.zero, []⟩ w).trace⟩ := by
  unfold PluginInitialize
  simp only
  rw [if_neg (not_not.mpr hv)]
  simp only [hl]

theorem pluginInitialize_resolve_error {W : Type} (env : ConnectorWorld W)
    (environ : String → Option String) (scaleConfig : ScaleSettingsConfigMap) (w : W)
    (hv : (ValidateScaleConfigParameters scaleConfig).1 = true) (st : InitLoopState)
    (hl : (initLoop env scaleConfig.Clusters ⟨[], Primary.zero, []⟩ w).val = .ok st)
    (out : Outcome InitResult)
    (hr : (resolveEffective env st.scaleConnMap ⟨st.done⟩ st.primaryInfo
      (initLoop env scaleConfig.Clusters ⟨[], Primary.zero, []⟩ w).world).val = .error out) :
    PluginInitialize env environ scaleConfig w =
      ⟨out,
        (resolveEffective env st.scaleConnMap ⟨st.done⟩ st.primaryInfo
          (initLoop env scaleConfig.Clusters ⟨[], Primary.zero, []⟩ w).world).world,
        (initLoop env scaleConfig.Clusters ⟨[], Primary.zero, []⟩ w).trace ++
        (resolveEffective env st.scaleConnMap ⟨st.done⟩ st.primaryInfo
          (initLoop env scaleConfig.Clusters ⟨[], Primary.zero, []⟩ w).world).trace⟩ := by
  unfold PluginInitialize
  simp only
  rw [if_neg (not_not.mpr hv)]
  simp only [hl, hr]

theorem pluginInitialize_resolve_ok {W : Type} (env : ConnectorWorld W)
    (environ : String → Option String) (scaleConfig : ScaleSettingsConfigMap) (w : W)
    (hv : (ValidateScaleConfigParameters scaleConfig).1 = true) (st : InitLoopState)
    (hl : (initLoop env scaleConfig.Clusters ⟨[], Primary.zero, []⟩ w).val = .ok st)
    (eff : Effective)
    (hr : (resolveEffective env st.scaleConnMap ⟨st.done⟩ st.primaryInfo
      (initLoop env scaleConfig.Clusters ⟨[], Primary.zero, []⟩ w).world).val = .ok eff) :
    PluginInitialize env environ scaleConfig w =
      (bootstrapFileset env environ st.scaleConnMap ⟨st.done⟩ st.primaryInfo eff
        (resolveEffective env st.scaleConnMap ⟨st.done⟩ st.primaryInfo
          (initLoop env scaleConfig.Clusters ⟨[], Primary.zero, []⟩ w).world).world).after
        ((initLoop env scaleConfig.Clusters ⟨[], Primary.zero, []⟩ w).trace ++
        (resolveEffective env st.scaleConnMap ⟨st.done⟩ st.primaryInfo
          (initLoop env scaleConfig.Clusters ⟨[], Primary.zero, []⟩ w).world).trace) := by
  unfold PluginInitialize
  simp only
  rw [if_neg (not_not.mpr hv)]
  simp only [hl, hr]

/-- After a loop that ran to its end, the calls of the choice of the effective connector
are calls of the whole run. -/
theorem pluginInitialize_resolve_trace {W : Type} (env : ConnectorWorld W)
    (environ : String → Option String) (scaleConfig : ScaleSettingsConfigMap) (w : W)
    (hv : (ValidateScaleConfigParameters scaleConfig).1 = true) (st : InitLoopState)
    (hl : (initLoop env scaleConfig.Clusters ⟨[], Primary.zero, []⟩ w).val = .ok st) :
    ∀ e ∈ (resolveEffective env st.scaleConnMap ⟨st.done⟩ st.primaryInfo
        (initLoop env scaleConfig.Clusters ⟨[], Primary.zero, []⟩ w).world).trace,
      e ∈ (PluginInitialize env environ scaleConfig w).trace := by
  intro e he
  cases hr : (resolveEffective env st.scaleConnMap ⟨st.done⟩ st.primaryInfo
      (initLoop env scaleConfig.Clusters ⟨[], Primary.zero, []⟩ w).world).val with
  | error out =>
    rw [pluginInitialize_resolve_error env environ scaleConfig w hv st hl out hr]
    exact List.mem_append_right _ he
  | ok eff =>
    rw [pluginInitialize_resolve_ok env environ scaleConfig w hv st hl eff hr, Run.after_trace]
    exact List.mem_append_left _ (List.mem_append_right _ he)

theorem pluginInitialize_aborted_of_not_ok {W : Type} (env : ConnectorWorld W)
    (environ : String → Option String) (scaleConfig : ScaleSettingsConfigMap) (w : W)
    (h : (ValidateScaleConfigParameters scaleConfig).1 = true →
      ∀ st, (initLoop env scaleConfig.Clusters ⟨[], Primary.zero, []⟩ w).val ≠ .ok st) :
    Aborted (PluginInitialize env environ scaleConfig w) := by
  by_cases hv : (ValidateScaleConfigParameters scaleConfig).1 = true
  · obtain ⟨hlq, hlv⟩ := initLoop_guarantee env scaleConfig.Clusters ⟨[], Primary.zero, []⟩ w
    cases hl : (initLoop env scaleConfig.Clusters ⟨[], Primary.zero, []⟩ w).val with
    | ok st => exact absurd hl (h hv st)
    | error res =>
      rw [hl] at hlv
      rw [pluginInitialize_loop_error env environ scaleConfig w hv res hl]
      exact ⟨⟨res, rfl, hlv⟩, fun e he => Call.not_mutation_of_query e (hlq e he)⟩
  · rw [pluginInitialize_invalid env environ scaleConfig w hv]
    refine ⟨⟨_, rfl, ?_⟩, by simp⟩
    rcases validate_coherent scaleConfig with h1 | ⟨msg, h1⟩
    · rw [h1] at hv
      exact absurd rfl hv
    · rw [h1]
      simp

theorem pluginInitialize_unmounted_remote {W : Type} (env : ConnectorWorld W)
    (environ : String → Option String) (scaleConfig : ScaleSettingsConfigMap) (w : W)
    (c : Clusters) (hc : c ∈ scaleConfig.Clusters) (hp : hasPrimary c)
    (hrc : c.Primary.RemoteCluster ≠ "") (hrf : c.Primary.RemoteFS ≠ "")
    (hfail : ∀ sc, mountFails env sc c.Primary.RemoteFS) :
    Aborted (PluginInitialize env environ scaleConfig w) := by
  by_cases hok : (ValidateScaleConfigParameters scaleConfig).1 = true ∧
      ∃ st, (initLoop env scaleConfig.Clusters ⟨[], Primary.zero, []⟩ w).val = .ok st
  swap
  · apply pluginInitialize_aborted_of_not_ok
    intro hv st hst
    exact hok ⟨hv, st, hst⟩
  obtain ⟨hv, st, hl⟩ := hok
  have hvalid := (validate_true_iff scaleConfig).mp hv
  have hone : primaries scaleConfig.Clusters ≤ 1 := by
    have := hvalid.2.2.2.2.1
    unfold primaryCount at this
    unfold primaries
    omega
  obtain ⟨mount, hpi⟩ := (initLoop_ok_primaryInfo env _ _ _ _ hl).2 hone c hc hp
  have h1 : st.primaryInfo.RemoteCluster ≠ "" := by rw [hpi]; exact hrc
  have h2 : st.primaryInfo.RemoteFS ≠ "" := by rw [hpi]; exact hrf
  have hfs : st.primaryInfo.RemoteFS = c.Primary.RemoteFS := by rw [hpi]
  have hsome : (st.scaleConnMap.lookup st.primaryInfo.RemoteCluster).isSome = true := by
    apply initLoop_ok_lookup_some env _ _ _ _ hl
    right
    rcases hvalid.2.2.2.2.2.2 c hc hp with h | ⟨r, hr, _, hrid⟩
    · exact absurd h hrc
    · exact ⟨r, hr, by rw [hrid, hpi]⟩
  obtain ⟨sc, hsc⟩ := Option.isSome_iff_exists.mp hsome
  apply pluginInitialize_failed_check
  refine ⟨Call.GetFilesystemMountDetails sc st.primaryInfo.RemoteFS
    (env.GetFilesystemMountDetails sc st.primaryInfo.RemoteFS
      (initLoop env scaleConfig.Clusters ⟨[], Primary.zero, []⟩ w).world).1.1
    (env.GetFilesystemMountDetails sc st.primaryInfo.RemoteFS
      (initLoop env scaleConfig.Clusters ⟨[], Primary.zero, []⟩ w).world).1.2, ?_, ?_⟩
  · apply pluginInitialize_resolve_trace env environ scaleConfig w hv st hl
    rw [resolveEffective_remote env _ _ _ _ sc h1 h2 hsc]
    split_ifs <;> simp
  · simp only [Call.isFailedCheck, decide_eq_true_eq]
    rw [hfs]
    exact hfail sc _

/-- C9. If a `GetClusterId` call of the run fails or returns an identity other than the
declared ID, or a `GetFilesystemMountDetails` call of the run (for the primary or for the
remote filesystem) fails or reports no mounted node; or if the connector of some declared
cluster never confirms the declared identity, or never reports the primary filesystem as
mounted, or no connector reports the remote filesystem as mounted: then
`PluginInitialize` returns a non-nil error and has issued no `CreateFileset`,
`LinkFileset` or `MakeDirectory` call. -/
theorem C9_failed_check_aborts {W : Type} (env : ConnectorWorld W)
    (environ : String → Option String) (scaleConfig : ScaleSettingsConfigMap) (w : W)
    (h : (∃ e ∈ (PluginInitialize env environ scaleConfig w).trace, e.isFailedCheck = true) ∨
      (∃ c ∈ scaleConfig.Clusters,
        identityFails env c ∨
        (hasPrimary c ∧ mountFails env ⟨c⟩ c.Primary.PrimaryFS) ∨
        (hasPrimary c ∧ c.Primary.RemoteCluster ≠ "" ∧ c.Primary.RemoteFS ≠ "" ∧
          ∀ sc, mountFails env sc c.Primary.RemoteFS))) :
    (∃ res, (PluginInitialize env environ scaleConfig w).val = .returned res ∧ res.err ≠ none) ∧
    ∀ e ∈ (PluginInitialize env environ scaleConfig w).trace, e.isMutation = false := by
  rcases h with h | ⟨c, hc, h | ⟨hp, h⟩ | ⟨hp, hrc, hrf, h⟩⟩
  · exact pluginInitialize_failed_check env environ scaleConfig w h
  · apply pluginInitialize_aborted_of_not_ok
    intro _ st hst
    obtain ⟨w1, h1, h2⟩ := initLoop_ok_identity env _ _ _ _ hst c hc
    rcases h w1 with h3 | h3
    · exact h3 h1
    · exact h3 h2
  · apply pluginInitialize_aborted_of_not_ok
    intro _ st hst
    obtain ⟨w1, h1, h2⟩ := initLoop_ok_mount env _ _ _ _ hst c hc hp
    rcases h w1 with h3 | h3
    · exact h3 h1
    · exact h2 h3
  · exact pluginInitialize_unmounted_remote env environ scaleConfig w c hc hp hrc hrf h

/-- C9, witness: every connector reports the identity `other`, so the first
`GetClusterId` does not match the declared ID `c1`. -/
theorem C9_failed_check_aborts_witness :
    (∃ res, (PluginInitialize wrongIdWorld sampleEnviron localAndRemote
        FilesetState.notFound).val = .returned res ∧ res.err ≠ none) ∧
    ∀ e ∈ (PluginInitialize wrongIdWorld sampleEnviron localAndRemote
        FilesetState.notFound).trace, e.isMutation = false :=
  C9_failed_check_aborts wrongIdWorld sampleEnviron localAndRemote FilesetState.notFound
    (Or.inl ⟨Call.GetClusterId ⟨primaryCluster "c1" "c2" "fs1"⟩ "other" none,
      by decide, by decide⟩)

theorem bootstrapFileset_trace_prefix {W : Type} (env : ConnectorWorld W)
    (environ : String → Option String)
    (scaleConnMap : List (String × SpectrumScaleConnector)) (scaleConfig : ScaleSettingsConfigMap)
    (primaryInfo : Primary) (eff : Effective) (w : W) (sconn : SpectrumScaleConnector)
    (hs : eff.sconn = some sconn) :
    ∃ rest, (bootstrapFileset env environ scaleConnMap scaleConfig primaryInfo eff w).trace =
      (CreatePrimaryFileset env sconn eff.fs eff.fsmount primaryInfo.PrimaryFset
        primaryInfo.InodeLimit w).trace ++ rest := by
  rcases bootstrapFileset_trace_cases env environ scaleConnMap scaleConfig primaryInfo eff w
    with ⟨hn, _⟩ | ⟨sconn1, hs1, h | ⟨psc, lp, h⟩⟩
  · rw [hs] at hn
    cases hn
  · rw [hs] at hs1
    cases hs1
    exact ⟨[], by rw [h, List.append_nil]⟩
  · rw [hs] at hs1
    cases hs1
    exact ⟨_, h⟩

/-- C10, counterexample. For a validated declaration whose primary names the remote
cluster `c2` but no remote filesystem, `PluginInitialize` succeeds without any
`GetFilesystemMountDetails` call on the connector of `c2`, and it bootstraps the fileset
on the primary filesystem `fs0` with the mount point of the primary cluster. -/
theorem C10_no_remote_check_without_remote_fs :
    (ValidateScaleConfigParameters remoteWithoutFS).1 = true ∧
    (primaryCluster "c1" "c2" "").Primary.RemoteCluster = "c2" ∧
    (PluginInitialize sampleWorld sampleEnviron remoteWithoutFS FilesetState.notFound).trace =
      [Call.GetClusterId ⟨primaryCluster "c1" "c2" ""⟩ "c1" none,
       Call.GetFilesystemMountDetails ⟨primaryCluster "c1" "c2" ""⟩ "fs0"
         ⟨"/gpfs/fs0", ["node1"]⟩ none,
       Call.GetClusterId ⟨plainCluster "c2"⟩ "c2" none,
       Call.ListFileset ⟨plainCluster "c2"⟩ "fs0" "csiroot" ⟨⟨""⟩⟩ (some "fileset not found"),
       Call.CreateFileset ⟨plainCluster "c2"⟩ "fs0" "csiroot" [] none,
       Call.MakeDirectory ⟨primaryCluster "c1" "c2" ""⟩ "fs0" "csiroot/.volumes" 0 0 none] ∧
    (∃ res, (PluginInitialize sampleWorld sampleEnviron remoteWithoutFS
        FilesetState.notFound).val = .returned res ∧ res.err = none) := by
  refine ⟨by decide, rfl, by decide, ?_⟩
  exact ⟨_, rfl, rfl⟩

/-- C10, amended. For a validated declaration whose primary block names a remote cluster
and a non-empty remote filesystem, the remote identifier being the ID of one declared
cluster `r` only and not the map key `primary`: once the loop over the clusters has run to
its end, `PluginInitialize` calls `GetFilesystemMountDetails` for the remote filesystem on
the connector of `r`; when that call fails or reports no mounted node it returns a
non-nil error without a further call; otherwise it goes on with `CreatePrimaryFileset`
on the connector of `r`, the remote filesystem and the mount point that call reported. -/
theorem C10_remote_bootstrap {W : Type} (env : ConnectorWorld W)
    (environ : String → Option String) (scaleConfig : ScaleSettingsConfigMap) (w : W)
    (p r : Clusters)
    (hv : (ValidateScaleConfigParameters scaleConfig).1 = true)
    (hp : p ∈ scaleConfig.Clusters) (hpp : hasPrimary p)
    (hrc : p.Primary.RemoteCluster ≠ "") (hrf : p.Primary.RemoteFS ≠ "")
    (hr : r ∈ scaleConfig.Clusters) (hrid : r.ID = p.Primary.RemoteCluster)
    (huniq : ∀ c ∈ scaleConfig.Clusters, c.ID = r.ID → c = r) (hkey : r.ID ≠ "primary")
    (hl : ∃ st, (initLoop env scaleConfig.Clusters ⟨[], Primary.zero, []⟩ w).val = .ok st) :
    let l := initLoop env scaleConfig.Clusters ⟨[], Primary.zero, []⟩ w
    let m := env.GetFilesystemMountDetails ⟨r⟩ p.Primary.RemoteFS l.world
    let check := Call.GetFilesystemMountDetails ⟨r⟩ p.Primary.RemoteFS m.1.1 m.1.2
    let run := PluginInitialize env environ scaleConfig w
    ((m.1.2 ≠ none ∨ m.1.1.NodesMounted.length = 0) →
      run.trace = l.trace ++ [check] ∧
      ∃ res, run.val = .returned res ∧ res.err ≠ none) ∧
    (m.1.2 = none → m.1.1.NodesMounted.length ≠ 0 →
      ∃ rest, run.trace = l.trace ++ [check] ++
        (CreatePrimaryFileset env ⟨r⟩ p.Primary.RemoteFS m.1.1.MountPoint
          p.Primary.PrimaryFset p.Primary.InodeLimit m.2).trace ++ rest) := by
  intro l m check run
  obtain ⟨st, hl⟩ := hl
  have hvalid := (validate_true_iff scaleConfig).mp hv
  have hone : primaries scaleConfig.Clusters ≤ 1 := by
    have := hvalid.2.2.2.2.1
    unfold primaryCount at this
    unfold primaries
    omega
  obtain ⟨mount, hpi⟩ := (initLoop_ok_primaryInfo env _ _ _ _ hl).2 hone p hp hpp
  have h1 : st.primaryInfo.RemoteCluster ≠ "" := by rw [hpi]; exact hrc
  have h2 : st.primaryInfo.RemoteFS ≠ "" := by rw [hpi]; exact hrf
  have hfs : st.primaryInfo.RemoteFS = p.Primary.RemoteFS := by rw [hpi]
  have hfset : st.primaryInfo.PrimaryFset = p.Primary.PrimaryFset := by rw [hpi]
  have hino : st.primaryInfo.InodeLimit = p.Primary.InodeLimit := by rw [hpi]
  have hlook : st.scaleConnMap.lookup st.primaryInfo.RemoteCluster = some ⟨r⟩ := by
    have hrc1 : st.primaryInfo.RemoteCluster = r.ID := by rw [hpi, hrid]
    rw [hrc1, initLoop_ok_lookup env _ _ _ _ hl r hkey huniq, if_pos hr]
  have hres := resolveEffective_remote env st.scaleConnMap ⟨st.done⟩ st.primaryInfo l.world ⟨r⟩
    h1 h2 hlook
  rw [hfs] at hres
  constructor
  · intro hbad
    have hval : ∃ res, (resolveEffective env st.scaleConnMap ⟨st.done⟩ st.primaryInfo l.world).val
          = .error (.returned res) ∧ res.err ≠ none ∧
        (resolveEffective env st.scaleConnMap ⟨st.done⟩ st.primaryInfo l.world).trace
          = [check] := by
      rw [hres]
      by_cases hb1 : m.1.2 ≠ none
      · rw [if_pos hb1]
        exact ⟨_, rfl, hb1, rfl⟩
      · rw [if_neg hb1]
        have hb2 : m.1.1.NodesMounted.length = 0 := by
          rcases hbad with hb | hb
          · exact absurd hb hb1
          · exact hb
        rw [if_pos hb2]
        exact ⟨_, rfl, by simp, rfl⟩
    obtain ⟨res, hv1, hv2, hv3⟩ := hval
    have hrun := pluginInitialize_resolve_error env environ scaleConfig w hv st hl _ hv1
    show (PluginInitialize env environ scaleConfig w).trace = _ ∧
      ∃ res, (PluginInitialize env environ scaleConfig w).val = _ ∧ _
    rw [hrun]
    exact ⟨by rw [hv3], res, rfl, hv2⟩
  · intro hg1 hg2
    have hval : (resolveEffective env st.scaleConnMap ⟨st.done⟩ st.primaryInfo l.world)
        = ⟨.ok ⟨some ⟨r⟩, p.Primary.RemoteFS, m.1.1.MountPoint⟩, m.2, [check]⟩ := by
      rw [hres, if_neg (not_not.mpr hg1), if_neg hg2]
    have hrun := pluginInitialize_resolve_ok env environ scaleConfig w hv st hl
      ⟨some ⟨r⟩, p.Primary.RemoteFS, m.1.1.MountPoint⟩ (by rw [hval])
    obtain ⟨rest, hrest⟩ := bootstrapFileset_trace_prefix env environ st.scaleConnMap ⟨st.done⟩
      st.primaryInfo ⟨some ⟨r⟩, p.Primary.RemoteFS, m.1.1.MountPoint⟩
      (resolveEffective env st.scaleConnMap ⟨st.done⟩ st.primaryInfo l.world).world ⟨r⟩ rfl
    refine ⟨rest, ?_⟩
    show (PluginInitialize env environ scaleConfig w).trace = _
    rw [hrun, Run.after_trace, hrest, hval, hfset, hino]
    simp only [List.append_assoc]

/-- C10, witness: the primary cluster `c1` names the remote cluster `c2` and the remote
filesystem `fs1`. -/
theorem C10_remote_bootstrap_witness :
    let l := initLoop sampleWorld localAndRemote.Clusters ⟨[], Primary.zero, []⟩
      FilesetState.notFound
    let m := sampleWorld.GetFilesystemMountDetails ⟨plainCluster "c2"⟩
      (primaryCluster "c1" "c2" "fs1").Primary.RemoteFS l.world
    let check := Call.GetFilesystemMountDetails ⟨plainCluster "c2"⟩
      (primaryCluster "c1" "c2" "fs1").Primary.RemoteFS m.1.1 m.1.2
    let run := PluginInitialize sampleWorld sampleEnviron localAndRemote FilesetState.notFound
    ((m.1.2 ≠ none ∨ m.1.1.NodesMounted.length = 0) →
      run.trace = l.trace ++ [check] ∧
      ∃ res, run.val = .returned res ∧ res.err ≠ none) ∧
    (m.1.2 = none → m.1.1.NodesMounted.length ≠ 0 →
      ∃ rest, run.trace = l.trace ++ [check] ++
        (CreatePrimaryFileset sampleWorld ⟨plainCluster "c2"⟩
          (primaryCluster "c1" "c2" "fs1").Primary.RemoteFS m.1.1.MountPoint
          (primaryCluster "c1" "c2" "fs1").Primary.PrimaryFset
          (primaryCluster "c1" "c2" "fs1").Primary.InodeLimit m.2).trace ++ rest) :=
  C10_remote_bootstrap sampleWorld sampleEnviron localAndRemote FilesetState.notFound
    (primaryCluster "c1" "c2" "fs1") (plainCluster "c2")
    (by decide) (by decide) (by decide) (by decide) (by decide) (by decide) (by decide)
    (by decide) (by decide) ⟨_, rfl⟩

/-! ### The first violation decides the result of the validator -/

theorem validateLoop_append (pre rest : List Clusters) (i : Nat) (st : ValidateState) :
    validateLoop (pre ++ rest) i st =
      match validateLoop pre i st with
      | .error e => .error e
      | .ok st1 => validateLoop rest (i + pre.length) st1 := by
  induction pre generalizing i st with
  | nil => simp [validateLoop]
  | cons c cs ih =>
    simp only [List.cons_append, validateLoop, List.length_cons]
    cases validateCluster c i st with
    | error e => rfl
    | ok st1 =>
      simp only [List.append_eq]
      rw [ih]
      have : i + 1 + cs.length = i + (cs.length + 1) := by omega
      rw [this]

theorem validateCluster_error_indep (c : Clusters) (i j : Nat) (st st2 : ValidateState)
    (e : Bool × Option String) (h : validateCluster c i st = .error e)
    (hf : st2.primaryClusterFound = st.primaryClusterFound) :
    validateCluster c j st2 = .error e := by
  unfold validateCluster at h ⊢
  rw [hf]
  split_ifs at h ⊢ <;> simp_all

theorem validate_first_violation (pre : List Clusters) (c : Clusters)
    (hpre : ∀ a ∈ pre, clusterOk a) (hone : primaries pre ≤ 1)
    (hbad : ¬ clusterOk c ∨ (hasPrimary c ∧ primaries pre = 1)) :
    ∃ e, e.1 = false ∧ e.2 ≠ none ∧ ∀ rest, ValidateScaleConfigParameters ⟨pre ++ c :: rest⟩ = e := by
  -- the loop passes `pre` and stops at `c`, whatever the slice `cl` holds
  have hstep : ∀ (cl : List String),
      validateLoop pre 0 ⟨false, "", cl⟩ = .ok (loopState pre 0 ⟨false, "", cl⟩) := by
    intro cl
    rw [validateLoop_ok_iff]
    exact ⟨hpre, ⟨(fun h => by cases h), hone⟩, rfl⟩
  have hfound : ∀ (cl : List String),
      (loopState pre 0 ⟨false, "", cl⟩).primaryClusterFound = decide (0 < primaries pre) := by
    intro cl
    have := loopState_found pre 0 ⟨false, "", cl⟩
    simp only [Bool.false_eq_true, false_or] at this
    by_cases hp : 0 < primaries pre
    · rw [this.mpr hp]; simp [hp]
    · cases hq : (loopState pre 0 ⟨false, "", cl⟩).primaryClusterFound
      · simp [hp]
      · exact absurd (this.mp hq) hp
  have hc : ∀ (cl : List String) (i : Nat), ∃ e,
      validateCluster c i (loopState pre 0 ⟨false, "", cl⟩) = .error e := by
    intro cl i
    cases hv : validateCluster c i (loopState pre 0 ⟨false, "", cl⟩) with
    | error e => exact ⟨e, rfl⟩
    | ok st1 =>
      exfalso
      rw [validateCluster_ok_iff] at hv
      rcases hbad with hb | ⟨hb1, hb2⟩
      · exact hb hv.1
      · have := hv.2.1 hb1
        rw [hfound cl] at this
        simp [hb2] at this
  obtain ⟨e, he⟩ := hc [] 0
  have hloop : ∀ rest, validateLoop (pre ++ c :: rest) 0
      ⟨false, "", List.replicate (pre ++ c :: rest).length ""⟩ = .error e := by
    intro rest
    rw [validateLoop_append, hstep]
    simp only [validateLoop]
    rw [validateCluster_error_indep c 0 (0 + pre.length) _ _ e he
      (by rw [hfound, hfound])]
  have hee := validateLoop_error _ _ _ _ (hloop [])
  refine ⟨e, hee.1, hee.2, ?_⟩
  intro rest
  unfold ValidateScaleConfigParameters
  rw [if_neg (by simp)]
  simp only [hloop rest]

/-- C17. The validator returns the first violation in declaration order: when the
clusters before index `i` pass every per-cluster rule and the cluster at index `i`
violates one (mandatory parameters, a second primary, primary filesystem or fileset name,
secret fields, CA certificate), the result for the whole declaration is the result for
the declaration cut after index `i`, it is a rejection with a non-nil error, and it is
the same for every choice of the clusters after index `i`. -/
theorem C17_first_violation_returned (pre post : List Clusters) (c : Clusters)
    (hpre : ∀ a ∈ pre, clusterOk a) (hone : primaries pre ≤ 1)
    (hbad : ¬ clusterOk c ∨ (hasPrimary c ∧ primaries pre = 1)) :
    ValidateScaleConfigParameters ⟨pre ++ c :: post⟩ = ValidateScaleConfigParameters ⟨pre ++ [c]⟩ ∧
    (ValidateScaleConfigParameters ⟨pre ++ [c]⟩).1 = false ∧
    (ValidateScaleConfigParameters ⟨pre ++ [c]⟩).2 ≠ none ∧
    ∀ other, ValidateScaleConfigParameters ⟨pre ++ c :: other⟩ =
      ValidateScaleConfigParameters ⟨pre ++ c :: post⟩ := by
  obtain ⟨e, he1, he2, hall⟩ := validate_first_violation pre c hpre hone hbad
  rw [hall post, hall []]
  exact ⟨rfl, he1, he2, fun other => hall other⟩

/-- C17, witness: the second cluster is a second primary; the third cluster plays no part. -/
theorem C17_first_violation_returned_witness :
    ValidateScaleConfigParameters secondPrimaryThenPlain =
      ValidateScaleConfigParameters ⟨[primaryCluster "c1" "" ""] ++ [primaryCluster "c2" "" ""]⟩ ∧
    (ValidateScaleConfigParameters
      ⟨[primaryCluster "c1" "" ""] ++ [primaryCluster "c2" "" ""]⟩).1 = false ∧
    (ValidateScaleConfigParameters
      ⟨[primaryCluster "c1" "" ""] ++ [primaryCluster "c2" "" ""]⟩).2 ≠ none ∧
    ∀ other, ValidateScaleConfigParameters
        ⟨[primaryCluster "c1" "" ""] ++ primaryCluster "c2" "" "" :: other⟩ =
      ValidateScaleConfigParameters secondPrimaryThenPlain :=
  C17_first_violation_returned [primaryCluster "c1" "" ""] [plainCluster "c3"]
    (primaryCluster "c2" "" "")
    (by
      intro a ha
      simp only [List.mem_singleton] at ha
      subst ha
      exact ((validateCluster_ok_iff (primaryCluster "c1" "" "") 0 ⟨false, "", []⟩
        (stepState (primaryCluster "c1" "" "") 0 ⟨false, "", []⟩)).mp rfl).1)
    (by decide) (Or.inr ⟨by decide, by decide⟩)

/-! ### Coherence of the two results of the validator -/

/-- C20. The validator returns either `(true, nil)` or `(false, err)` with a non-nil
`err`. Hence `PluginInitialize`, which looks at the boolean only, returns a non-nil error
and makes no connector call after a failed validation, and whenever the validation error
is non-nil it does not go past the validation. -/
theorem C20_validation_results_coherent (d : ScaleSettingsConfigMap) :
    (ValidateScaleConfigParameters d = (true, none) ∨
      ∃ msg, ValidateScaleConfigParameters d = (false, some msg)) ∧
    ∀ {W : Type} (env : ConnectorWorld W) (environ : String → Option String) (w : W),
      ((ValidateScaleConfigParameters d).1 = false ∨ (ValidateScaleConfigParameters d).2 ≠ none) →
      (PluginInitialize env environ d w).trace = [] ∧
      (PluginInitialize env environ d w).world = w ∧
      ∃ res, (PluginInitialize env environ d w).val = .returned res ∧
        res.err = (ValidateScaleConfigParameters d).2 ∧ res.err ≠ none := by
  refine ⟨validate_coherent d, ?_⟩
  intro W env environ w h
  have hfalse : (ValidateScaleConfigParameters d).1 = false ∧
      (ValidateScaleConfigParameters d).2 ≠ none := by
    rcases validate_coherent d with h1 | ⟨msg, h1⟩
    · rw [h1] at h
      simp at h
    · rw [h1]
      simp
  rw [pluginInitialize_invalid env environ d w (by rw [hfalse.1]; simp)]
  exact ⟨rfl, rfl, _, rfl, rfl, hfalse.2⟩

/-! ### `CreateSymlinkPath` -/

theorem Replace1_strip_front (fsmount fsetlinkpath : String)
    (h : isPathPrefix fsmount fsetlinkpath) :
    Replace1 fsetlinkpath fsmount "" = ⟨fsetlinkpath.data.drop fsmount.data.length⟩ := by
  unfold Replace1
  by_cases he : fsmount = ""
  · rw [if_pos he, he]
    rfl
  · rw [if_neg he]
    congr 1
    unfold isPathPrefix at h
    obtain ⟨t, ht⟩ := h
    have hne : fsmount.data ≠ [] := by
      intro hd
      apply he
      exact String.ext hd
    cases hl : fsetlinkpath.data with
    | nil =>
      rw [hl] at ht
      exact absurd (List.append_eq_nil.mp ht).1 hne
    | cons c cs =>
      have hp : fsmount.data.isPrefixOf (c :: cs) = true := by
        rw [List.isPrefixOf_iff_prefix, ← hl]
        exact ⟨t, ht⟩
      show replaceFirst fsmount.data [] (c :: cs) = _
      rw [replaceFirst, if_pos hp]
      rfl

theorem contains_cutset (c : Char) : "!/".data.contains c = isEdgeChar c := by
  show List.elem c ['!', '/'] = _
  unfold isEdgeChar
  rw [List.elem_cons, List.elem_cons]
  cases c == '!' <;> cases c == '/' <;> rfl

theorem Trim_cutset (s : String) : Trim s "!/" = ⟨stripEdges s.data⟩ := by
  unfold Trim stripEdges
  have : (fun c => "!/".data.contains c) = isEdgeChar := funext contains_cutset
  rw [this]

theorem TrimSuffix_slash (s : String) : TrimSuffix s "/" = ⟨dropOneTrailingSlash s.data⟩ := by
  unfold TrimSuffix dropOneTrailingSlash
  by_cases h : HasSuffix s "/" = true
  · rw [if_pos h, if_pos ((HasSuffix_slash_iff s).mp h), List.dropLast_eq_take]
    rfl
  · rw [if_neg h, if_neg (fun h1 => h ((HasSuffix_slash_iff s).mpr h1))]

theorem createSymlinkPath_eq {W : Type} (env : ConnectorWorld W) (sc : SpectrumScaleConnector)
    (fs fsmount fsetlinkpath : String) (w : W) :
    CreateSymlinkPath env sc fs fsmount fsetlinkpath w =
      ⟨(TrimSuffix fsetlinkpath "/" ++ "/.volumes",
          Trim (Replace1 fsetlinkpath fsmount "") "!/" ++ "/.volumes",
          (env.MakeDirectory sc fs (Trim (Replace1 fsetlinkpath fsmount "") "!/" ++ "/.volumes")
            0 0 w).1),
        (env.MakeDirectory sc fs (Trim (Replace1 fsetlinkpath fsmount "") "!/" ++ "/.volumes")
            0 0 w).2,
        [Call.MakeDirectory sc fs (Trim (Replace1 fsetlinkpath fsmount "") "!/" ++ "/.volumes")
          0 0 (env.MakeDirectory sc fs
            (Trim (Replace1 fsetlinkpath fsmount "") "!/" ++ "/.volumes") 0 0 w).1]⟩ := rfl

/-- C13, counterexample. For the mount point `/gpfs/fs0` and the link path
`/gpfs/fs0/csiroot/`, which has the mount point as a prefix, `CreateSymlinkPath` returns
the relative path `csiroot/.volumes` and the absolute path `/gpfs/fs0/csiroot/.volumes`:
the `/` at the end of the link path is removed in both, so neither is the stripped, resp.
the unstripped, link path followed by `/.volumes`. -/
theorem C13_trailing_slash_trimmed :
    isPathPrefix "/gpfs/fs0" "/gpfs/fs0/csiroot/" ∧
    (CreateSymlinkPath sampleWorld ⟨plainCluster "c1"⟩ "fs0" "/gpfs/fs0" "/gpfs/fs0/csiroot/"
      FilesetState.notFound).val.2.1 = "csiroot/.volumes" ∧
    (CreateSymlinkPath sampleWorld ⟨plainCluster "c1"⟩ "fs0" "/gpfs/fs0" "/gpfs/fs0/csiroot/"
      FilesetState.notFound).val.1 = "/gpfs/fs0/csiroot/.volumes" ∧
    (CreateSymlinkPath sampleWorld ⟨plainCluster "c1"⟩ "fs0" "/gpfs/fs0" "/gpfs/fs0/csiroot/"
      FilesetState.notFound).val.2.1 ≠ specRelativePath "/gpfs/fs0" "/gpfs/fs0/csiroot/" ∧
    (CreateSymlinkPath sampleWorld ⟨plainCluster "c1"⟩ "fs0" "/gpfs/fs0" "/gpfs/fs0/csiroot/"
      FilesetState.notFound).val.1 ≠ specAbsolutePath "/gpfs/fs0/csiroot/" := by
  decide

/-- C13, amended. For every mount point and every fileset link path that has the mount
point as a prefix, the API-relative path returned by `CreateSymlinkPath`, which is the
path passed to `MakeDirectory`, is the link path with the mount-point prefix stripped and
every `/` and `!` at its start and at its end removed, followed by `/.volumes`; the
absolute path returned is the link path without one `/` at its end, if it has one,
followed by `/.volumes`. -/
theorem C13_symlink_paths {W : Type} (env : ConnectorWorld W) (sc : SpectrumScaleConnector)
    (fs fsmount fsetlinkpath : String) (w : W)
    (h : isPathPrefix fsmount fsetlinkpath) :
    let run := CreateSymlinkPath env sc fs fsmount fsetlinkpath w
    run.val.2.1 =
      ⟨stripEdges (fsetlinkpath.data.drop fsmount.data.length)⟩ ++ "/.volumes" ∧
    run.val.1 = ⟨dropOneTrailingSlash fsetlinkpath.data⟩ ++ "/.volumes" ∧
    run.trace = [Call.MakeDirectory sc fs run.val.2.1 0 0 run.val.2.2] := by
  intro run
  have hrun : run = CreateSymlinkPath env sc fs fsmount fsetlinkpath w := rfl
  rw [createSymlinkPath_eq, Replace1_strip_front fsmount fsetlinkpath h, Trim_cutset,
    TrimSuffix_slash] at hrun
  rw [hrun]
  exact ⟨rfl, rfl, rfl⟩

/-- C13, witness: the link path `/gpfs/fs0/csiroot` under the mount point `/gpfs/fs0`. -/
theorem C13_symlink_paths_witness :
    let run := CreateSymlinkPath sampleWorld ⟨plainCluster "c1"⟩ "fs0" "/gpfs/fs0"
      "/gpfs/fs0/csiroot" FilesetState.notFound
    run.val.2.1 =
      ⟨stripEdges ("/gpfs/fs0/csiroot".data.drop "/gpfs/fs0".data.length)⟩ ++ "/.volumes" ∧
    run.val.1 = ⟨dropOneTrailingSlash "/gpfs/fs0/csiroot".data⟩ ++ "/.volumes" ∧
    run.trace = [Call.MakeDirectory ⟨plainCluster "c1"⟩ "fs0" run.val.2.1 0 0 run.val.2.2] :=
  C13_symlink_paths sampleWorld ⟨plainCluster "c1"⟩ "fs0" "/gpfs/fs0" "/gpfs/fs0/csiroot"
    FilesetState.notFound (by decide)

/-! ### `loadExVolumes` -/

theorem loadExVolumesLoop_unchanged (files : List ControllerFile) (scaleVol : scaleVolume)
    (scaleVolumes : List (String × scaleVolume)) :
    loadExVolumesLoop files scaleVol scaleVolumes = scaleVolumes := by
  induction files generalizing scaleVol with
  | nil => rfl
  | cons f rest ih =>
    unfold loadExVolumesLoop
    split_ifs <;> first | exact ih _ | (cases f.decoded <;> exact ih _)

/-- C18, the code at the failing input. With the one file `vol1.json` in the controller
folder, which opens and decodes to the volume `vol1`, `loadExVolumes` returns with an
empty `scaleVolumes`, and so does `init`; for every folder content `loadExVolumes` leaves
`scaleVolumes` as it was. -/
theorem C18_no_volume_loaded :
    loadExVolumes oneVolumeFolder [] = [] ∧
    init false false oneVolumeFolder = some [] ∧
    ∀ readDir scaleVolumes, loadExVolumes readDir scaleVolumes = scaleVolumes := by
  refine ⟨by decide, by decide, ?_⟩
  intro readDir scaleVolumes
  cases readDir with
  | none => rfl
  | some files => exact loadExVolumesLoop_unchanged files _ scaleVolumes

/-! ### `ValidateControllerServiceRequest` and `SetupScaleDriver` -/

theorem validateRequestLoop_rpc (c : ControllerServiceCapability_RPC_Type)
    (cscap : List ControllerServiceCapability) (h : ∀ cap ∈ cscap, cap.Rpc ≠ none) :
    (validateRequestLoop c cscap = .returned none ↔ ∃ cap ∈ cscap, cap.Rpc = some ⟨c⟩) ∧
    (validateRequestLoop c cscap = .returned none ∨
     validateRequestLoop c cscap =
      .returned (some ⟨codes_InvalidArgument, "Invalid controller service request"⟩)) := by
  induction cscap with
  | nil => simp [validateRequestLoop]
  | cons cap rest ih =>
    have ih1 := ih (fun a ha => h a (List.mem_cons_of_mem _ ha))
    unfold validateRequestLoop
    cases hr : cap.Rpc with
    | none => exact absurd hr (h cap (List.mem_cons_self _ _))
    | some rpc =>
      simp only
      by_cases hc : c = rpc.type
      · rw [if_pos hc]
        refine ⟨⟨fun _ => ⟨cap, List.mem_cons_self _ _, ?_⟩, fun _ => rfl⟩, Or.inl rfl⟩
        rw [hr, hc]
      · rw [if_neg hc]
        refine ⟨?_, ih1.2⟩
        rw [ih1.1]
        constructor
        · rintro ⟨a, ha, har⟩
          exact ⟨a, List.mem_cons_of_mem _ ha, har⟩
        · rintro ⟨a, ha, har⟩
          rcases List.mem_cons.mp ha with ha1 | ha1
          · subst ha1
            rw [hr] at har
            simp only [Option.some.injEq] at har
            rw [har] at hc
            exact absurd rfl hc
          · exact ⟨a, ha1, har⟩

theorem addControllerServiceCapabilities_cscap (driver : ScaleDriver)
    (cl : List ControllerServiceCapability_RPC_Type) :
    (AddControllerServiceCapabilities driver cl).1.cscap = cl.map NewControllerServiceCapability := by
  unfold AddControllerServiceCapabilities
  simp only
  have h : ∀ (acc : List ControllerServiceCapability),
      cl.foldl (fun csc c => csc ++ [NewControllerServiceCapability c]) acc
        = acc ++ cl.map NewControllerServiceCapability := by
    induction cl with
    | nil => intro acc; simp
    | cons c rest ih =>
      intro acc
      simp only [List.foldl_cons, List.map_cons]
      rw [ih]
      simp
  rw [h]
  simp

theorem validateRequest_registered (driver : ScaleDriver)
    (cl : List ControllerServiceCapability_RPC_Type) (c : ControllerServiceCapability_RPC_Type) :
    (ValidateControllerServiceRequest (AddControllerServiceCapabilities driver cl).1 c
        = .returned none ↔ c = ControllerServiceCapability_RPC_UNKNOWN ∨ c ∈ cl) ∧
    (ValidateControllerServiceRequest (AddControllerServiceCapabilities driver cl).1 c
        = .returned none ∨
     ValidateControllerServiceRequest (AddControllerServiceCapabilities driver cl).1 c
        = .returned (some ⟨codes_InvalidArgument, "Invalid controller service request"⟩)) := by
  unfold ValidateControllerServiceRequest
  rw [addControllerServiceCapabilities_cscap]
  by_cases h0 : c = ControllerServiceCapability_RPC_UNKNOWN
  · rw [if_pos h0]
    exact ⟨⟨fun _ => Or.inl h0, fun _ => rfl⟩, Or.inl rfl⟩
  · rw [if_neg h0]
    have hall : ∀ cap ∈ cl.map NewControllerServiceCapability, cap.Rpc ≠ none := by
      intro cap hcap
      obtain ⟨a, _, ha⟩ := List.mem_map.mp hcap
      rw [← ha]
      simp [NewControllerServiceCapability]
    obtain ⟨h1, h2⟩ := validateRequestLoop_rpc c _ hall
    refine ⟨?_, h2⟩
    rw [h1]
    constructor
    · rintro ⟨cap, hcap, hr⟩
      obtain ⟨a, ha, hac⟩ := List.mem_map.mp hcap
      rw [← hac] at hr
      simp only [NewControllerServiceCapability, Option.some.injEq,
        ControllerServiceCapability_RPC.mk.injEq] at hr
      rw [← hr]
      exact Or.inr ha
    · rintro (h | h)
      · exact absurd h h0
      · exact ⟨NewControllerServiceCapability c, List.mem_map.mpr ⟨c, h, rfl⟩, rfl⟩

theorem setupScaleDriver_ok_cscap {W : Type} (env : ConnectorWorld W)
    (environ : String → Option String) (scaleConfig : ScaleSettingsConfigMap)
    (driver : ScaleDriver) (name vendorVersion nodeID : String)
    (mounter : Option SafeFormatAndMount) (w : W) (d : ScaleDriver)
    (h : (SetupScaleDriver env environ scaleConfig driver name vendorVersion nodeID mounter
      w).val = .returned (d, none)) :
    d.cscap = (AddControllerServiceCapabilities driver
      [ControllerServiceCapability_RPC_CREATE_DELETE_VOLUME,
       ControllerServiceCapability_RPC_PUBLISH_UNPUBLISH_VOLUME]).1.cscap := by
  unfold SetupScaleDriver at h
  by_cases hn : name = ""
  · rw [if_pos hn] at h
    simp at h
  · rw [if_neg hn] at h
    simp only at h
    cases hr : (PluginInitialize env environ scaleConfig w).val with
    | nilDereference =>
      rw [hr] at h
      simp at h
    | returned res =>
      rw [hr] at h
      simp only at h
      by_cases he : res.err ≠ none
      · rw [if_pos he] at h
        simp only [Outcome.returned.injEq, Prod.mk.injEq] at h
        exact absurd h.2 he
      · rw [if_neg he] at h
        simp only [Outcome.returned.injEq, Prod.mk.injEq, and_true] at h
        rw [← h]
        rfl

/-- C19. `ValidateControllerServiceRequest(c)` returns `nil` exactly when `c` is
`ControllerServiceCapability_RPC_UNKNOWN` or the RPC type of a capability in
`driver.cscap`, and an `InvalidArgument` error otherwise: for every `cscap` whose entries
carry an RPC, and so for the capabilities registered by
`AddControllerServiceCapabilities`. After a successful `SetupScaleDriver` it accepts
exactly `UNKNOWN`, `CREATE_DELETE_VOLUME` and `PUBLISH_UNPUBLISH_VOLUME`. -/
theorem C19_request_accepted_iff_registered :
    (∀ (driver : ScaleDriver) (c : ControllerServiceCapability_RPC_Type),
      (∀ cap ∈ driver.cscap, cap.Rpc ≠ none) →
      (ValidateControllerServiceRequest driver c = .returned none ↔
        c = ControllerServiceCapability_RPC_UNKNOWN ∨
          ∃ cap ∈ driver.cscap, cap.Rpc = some ⟨c⟩) ∧
      (ValidateControllerServiceRequest driver c ≠ .returned none →
        ValidateControllerServiceRequest driver c =
          .returned (some ⟨codes_InvalidArgument, "Invalid controller service request"⟩))) ∧
    (∀ (driver : ScaleDriver) (cl : List ControllerServiceCapability_RPC_Type)
        (c : ControllerServiceCapability_RPC_Type),
      (ValidateControllerServiceRequest (AddControllerServiceCapabilities driver cl).1 c
          = .returned none ↔ c = ControllerServiceCapability_RPC_UNKNOWN ∨ c ∈ cl) ∧
      (ValidateControllerServiceRequest (AddControllerServiceCapabilities driver cl).1 c
          ≠ .returned none →
        ValidateControllerServiceRequest (AddControllerServiceCapabilities driver cl).1 c =
          .returned (some ⟨codes_InvalidArgument, "Invalid controller service request"⟩))) ∧
    (∀ {W : Type} (env : ConnectorWorld W) (environ : String → Option String)
        (scaleConfig : ScaleSettingsConfigMap) (driver : ScaleDriver)
        (name vendorVersion nodeID : String) (mounter : Option SafeFormatAndMount) (w : W)
        (d : ScaleDriver),
      (SetupScaleDriver env environ scaleConfig driver name vendorVersion nodeID mounter
        w).val = .returned (d, none) →
      ∀ c, (ValidateControllerServiceRequest d c = .returned none ↔
          c = ControllerServiceCapability_RPC_UNKNOWN ∨
          c = ControllerServiceCapability_RPC_CREATE_DELETE_VOLUME ∨
          c = ControllerServiceCapability_RPC_PUBLISH_UNPUBLISH_VOLUME) ∧
        (ValidateControllerServiceRequest d c ≠ .returned none →
          ValidateControllerServiceRequest d c =
            .returned (some ⟨codes_InvalidArgument, "Invalid controller service request"⟩))) := by
  refine ⟨?_, ?_, ?_⟩
  · intro driver c hall
    unfold ValidateControllerServiceRequest
    by_cases h0 : c = ControllerServiceCapability_RPC_UNKNOWN
    · rw [if_pos h0]
      exact ⟨⟨fun _ => Or.inl h0, fun _ => rfl⟩, fun h => absurd rfl h⟩
    · rw [if_neg h0]
      obtain ⟨h1, h2⟩ := validateRequestLoop_rpc c driver.cscap hall
      refine ⟨?_, fun hne => ?_⟩
      · rw [h1]
        constructor
        · intro h; exact Or.inr h
        · rintro (h | h)
          · exact absurd h h0
          · exact h
      · rcases h2 with h | h
        · exact absurd h hne
        · exact h
  · intro driver cl c
    obtain ⟨h1, h2⟩ := validateRequest_registered driver cl c
    refine ⟨h1, fun hne => ?_⟩
    rcases h2 with h | h
    · exact absurd h hne
    · exact h
  · intro W env environ scaleConfig driver name vendorVersion nodeID mounter w d hok c
    have hcs := setupScaleDriver_ok_cscap env environ scaleConfig driver name vendorVersion
      nodeID mounter w d hok
    have heq : ValidateControllerServiceRequest d c =
        ValidateControllerServiceRequest (AddControllerServiceCapabilities driver
          [ControllerServiceCapability_RPC_CREATE_DELETE_VOLUME,
           ControllerServiceCapability_RPC_PUBLISH_UNPUBLISH_VOLUME]).1 c := by
      unfold ValidateControllerServiceRequest
      rw [hcs]
    rw [heq]
    obtain ⟨h1, h2⟩ := validateRequest_registered driver
      [ControllerServiceCapability_RPC_CREATE_DELETE_VOLUME,
       ControllerServiceCapability_RPC_PUBLISH_UNPUBLISH_VOLUME] c
    refine ⟨?_, fun hne => ?_⟩
    · rw [h1]
      simp only [List.mem_cons, List.mem_singleton, List.not_mem_nil, or_false]
    · rcases h2 with h | h
      · exact absurd h hne
      · exact h

/-- C15. `SetupScaleDriver` publishes no partial state on failure. With an empty driver
name it returns an error, the driver is as before, and no connector call is made and the
world is untouched (`PluginInitialize` does not run). When `PluginInitialize` returns a
non-nil error, `SetupScaleDriver` returns that error and every field of the driver is as
before. -/
theorem C15_no_partial_state {W : Type} (env : ConnectorWorld W)
    (environ : String → Option String) (scaleConfig : ScaleSettingsConfigMap)
    (driver : ScaleDriver) (name vendorVersion nodeID : String)
    (mounter : Option SafeFormatAndMount) (w : W) :
    (name = "" →
      ∃ msg, SetupScaleDriver env environ scaleConfig driver name vendorVersion nodeID mounter w
        = ⟨.returned (driver, some msg), w, []⟩) ∧
    (name ≠ "" → ∀ res, (PluginInitialize env environ scaleConfig w).val = .returned res →
      res.err ≠ none →
      (SetupScaleDriver env environ scaleConfig driver name vendorVersion nodeID mounter w).val
        = .returned (driver, res.err)) ∧
    (∀ d err, (SetupScaleDriver env environ scaleConfig driver name vendorVersion nodeID
        mounter w).val = .returned (d, err) → err ≠ none → d = driver) := by
  refine ⟨?_, ?_, ?_⟩
  · intro hn
    unfold SetupScaleDriver
    rw [if_pos hn]
    exact ⟨_, rfl⟩
  · intro hn res hres herr
    unfold SetupScaleDriver
    rw [if_neg hn]
    simp only [hres]
    rw [if_pos herr]
  · intro d err h herr
    unfold SetupScaleDriver at h
    by_cases hn : name = ""
    · rw [if_pos hn] at h
      simp only [Outcome.returned.injEq, Prod.mk.injEq] at h
      exact h.1.symm
    · rw [if_neg hn] at h
      simp only at h
      cases hr : (PluginInitialize env environ scaleConfig w).val with
      | nilDereference =>
        rw [hr] at h
        simp at h
      | returned res =>
        rw [hr] at h
        simp only at h
        by_cases he : res.err ≠ none
        · rw [if_pos he] at h
          simp only [Outcome.returned.injEq, Prod.mk.injEq] at h
          exact h.1.symm
        · rw [if_neg he] at h
          simp only [Outcome.returned.injEq, Prod.mk.injEq] at h
          exact absurd h.2.symm herr

/-! ### The connector of the primary cluster -/

/-- C11, the code at the failing input. The declaration holds the primary cluster `c1`
and, after it, a cluster with the identifier `primary`; every connector reports its
declared identity. The declaration is valid and names no remote cluster, yet
`ListFileset`, `CreateFileset` and `MakeDirectory` are issued on the connector of the
cluster `primary`, not on the connector of `c1`. -/
theorem C11_primary_key_overwritten :
    (ValidateScaleConfigParameters clusterNamedPrimary).1 = true ∧
    (PluginInitialize sampleWorld sampleEnviron clusterNamedPrimary FilesetState.notFound).trace =
      [Call.GetClusterId ⟨primaryCluster "c1" "" ""⟩ "c1" none,
       Call.GetFilesystemMountDetails ⟨primaryCluster "c1" "" ""⟩ "fs0"
         ⟨"/gpfs/fs0", ["node1"]⟩ none,
       Call.GetClusterId ⟨plainCluster "primary"⟩ "primary" none,
       Call.ListFileset ⟨plainCluster "primary"⟩ "fs0" "csiroot" ⟨⟨""⟩⟩
         (some "fileset not found"),
       Call.CreateFileset ⟨plainCluster "primary"⟩ "fs0" "csiroot" [] none,
       Call.MakeDirectory ⟨plainCluster "primary"⟩ "fs0" "csiroot/.volumes" 0 0 none] ∧
    (∃ res, (PluginInitialize sampleWorld sampleEnviron clusterNamedPrimary
        FilesetState.notFound).val = .returned res ∧ res.err = none) := by
  refine ⟨by decide, by decide, ?_⟩
  exact ⟨_, rfl, rfl⟩

/-! ### The last part of `PluginInitialize`, case by case -/

theorem bootstrapFileset_nil {W : Type} (env : ConnectorWorld W)
    (environ : String → Option String)
    (scaleConnMap : List (String × SpectrumScaleConnector)) (scaleConfig : ScaleSettingsConfigMap)
    (primaryInfo : Primary) (eff : Effective) (w : W) (hs : eff.sconn = none) :
    bootstrapFileset env environ scaleConnMap scaleConfig primaryInfo eff w =
      ⟨.nilDereference, w, []⟩ := by
  unfold bootstrapFileset
  rw [hs]

theorem bootstrapFileset_create_error {W : Type} (env : ConnectorWorld W)
    (environ : String → Option String)
    (scaleConnMap : List (String × SpectrumScaleConnector)) (scaleConfig : ScaleSettingsConfigMap)
    (primaryInfo : Primary) (eff : Effective) (w : W) (sconn : SpectrumScaleConnector)
    (hs : eff.sconn = some sconn)
    (h1 : (CreatePrimaryFileset env sconn eff.fs eff.fsmount primaryInfo.PrimaryFset
      primaryInfo.InodeLimit w).val.2 ≠ none) :
    bootstrapFileset env environ scaleConnMap scaleConfig primaryInfo eff w =
      ⟨.returned ⟨some scaleConnMap, scaleConfig, primaryInfo,
          (CreatePrimaryFileset env sconn eff.fs eff.fsmount primaryInfo.PrimaryFset
            primaryInfo.InodeLimit w).val.2⟩,
        (CreatePrimaryFileset env sconn eff.fs eff.fsmount primaryInfo.PrimaryFset
          primaryInfo.InodeLimit w).world,
        (CreatePrimaryFileset env sconn eff.fs eff.fsmount primaryInfo.PrimaryFset
          primaryInfo.InodeLimit w).trace⟩ := by
  unfold bootstrapFileset
  rw [hs]
  simp only
  rw [if_pos h1]

theorem bootstrapFileset_hostpath_error {W : Type} (env : ConnectorWorld W)
    (environ : String → Option String)
    (scaleConnMap : List (String × SpectrumScaleConnector)) (scaleConfig : ScaleSettingsConfigMap)
    (primaryInfo : Primary) (eff : Effective) (w : W) (sconn : SpectrumScaleConnector)
    (hs : eff.sconn = some sconn)
    (h1 : (CreatePrimaryFileset env sconn eff.fs eff.fsmount primaryInfo.PrimaryFset
      primaryInfo.InodeLimit w).val.2 = none)
    (h2 : ValidateHostpath environ primaryInfo.PrimaryFSMount
      (rewrittenLinkPath (CreatePrimaryFileset env sconn eff.fs eff.fsmount
        primaryInfo.PrimaryFset primaryInfo.InodeLimit w).val.1 eff.fsmount
        primaryInfo.PrimaryFSMount) ≠ none) :
    bootstrapFileset env environ scaleConnMap scaleConfig primaryInfo eff w =
      ⟨.returned ⟨some scaleConnMap, scaleConfig, primaryInfo,
          ValidateHostpath environ primaryInfo.PrimaryFSMount
            (rewrittenLinkPath (CreatePrimaryFileset env sconn eff.fs eff.fsmount
              primaryInfo.PrimaryFset primaryInfo.InodeLimit w).val.1 eff.fsmount
              primaryInfo.PrimaryFSMount)⟩,
        (CreatePrimaryFileset env sconn eff.fs eff.fsmount primaryInfo.PrimaryFset
          primaryInfo.InodeLimit w).world,
        (CreatePrimaryFileset env sconn eff.fs eff.fsmount primaryInfo.PrimaryFset
          primaryInfo.InodeLimit w).trace⟩ := by
  unfold rewrittenLinkPath at h2 ⊢
  unfold bootstrapFileset
  rw [hs]
  simp only
  rw [if_neg (not_not.mpr h1), if_pos h2]

theorem bootstrapFileset_primary_nil {W : Type} (env : ConnectorWorld W)
    (environ : String → Option String)
    (scaleConnMap : List (String × SpectrumScaleConnector)) (scaleConfig : ScaleSettingsConfigMap)
    (primaryInfo : Primary) (eff : Effective) (w : W) (sconn : SpectrumScaleConnector)
    (hs : eff.sconn = some sconn)
    (h1 : (CreatePrimaryFileset env sconn eff.fs eff.fsmount primaryInfo.PrimaryFset
      primaryInfo.InodeLimit w).val.2 = none)
    (h2 : ValidateHostpath environ primaryInfo.PrimaryFSMount
      (rewrittenLinkPath (CreatePrimaryFileset env sconn eff.fs eff.fsmount
        primaryInfo.PrimaryFset primaryInfo.InodeLimit w).val.1 eff.fsmount
        primaryInfo.PrimaryFSMount) = none)
    (h3 : scaleConnMap.lookup "primary" = none) :
    bootstrapFileset env environ scaleConnMap scaleConfig primaryInfo eff w =
      ⟨.nilDereference,
        (CreatePrimaryFileset env sconn eff.fs eff.fsmount primaryInfo.PrimaryFset
          primaryInfo.InodeLimit w).world,
        (CreatePrimaryFileset env sconn eff.fs eff.fsmount primaryInfo.PrimaryFset
          primaryInfo.InodeLimit w).trace⟩ := by
  unfold rewrittenLinkPath at h2
  unfold bootstrapFileset
  rw [hs]
  simp only
  rw [if_neg (not_not.mpr h1), if_neg (not_not.mpr h2), h3]

theorem bootstrapFileset_symlink {W : Type} (env : ConnectorWorld W)
    (environ : String → Option String)
    (scaleConnMap : List (String × SpectrumScaleConnector)) (scaleConfig : ScaleSettingsConfigMap)
    (primaryInfo : Primary) (eff : Effective) (w : W) (sconn psc : SpectrumScaleConnector)
    (hs : eff.sconn = some sconn)
    (h1 : (CreatePrimaryFileset env sconn eff.fs eff.fsmount primaryInfo.PrimaryFset
      primaryInfo.InodeLimit w).val.2 = none)
    (h2 : ValidateHostpath environ primaryInfo.PrimaryFSMount
      (rewrittenLinkPath (CreatePrimaryFileset env sconn eff.fs eff.fsmount
        primaryInfo.PrimaryFset primaryInfo.InodeLimit w).val.1 eff.fsmount
        primaryInfo.PrimaryFSMount) = none)
    (h3 : scaleConnMap.lookup "primary" = some psc) :
    bootstrapFileset env environ scaleConnMap scaleConfig primaryInfo eff w =
      ⟨.returned
          (if (CreateSymlinkPath env psc primaryInfo.PrimaryFS primaryInfo.PrimaryFSMount
              (rewrittenLinkPath (CreatePrimaryFileset env sconn eff.fs eff.fsmount
                primaryInfo.PrimaryFset primaryInfo.InodeLimit w).val.1 eff.fsmount
                primaryInfo.PrimaryFSMount)
              (CreatePrimaryFileset env sconn eff.fs eff.fsmount primaryInfo.PrimaryFset
                primaryInfo.InodeLimit w).world).val.2.2 ≠ none
          then ⟨some scaleConnMap, scaleConfig, primaryInfo,
            (CreateSymlinkPath env psc primaryInfo.PrimaryFS primaryInfo.PrimaryFSMount
              (rewrittenLinkPath (CreatePrimaryFileset env sconn eff.fs eff.fsmount
                primaryInfo.PrimaryFset primaryInfo.InodeLimit w).val.1 eff.fsmount
                primaryInfo.PrimaryFSMount)
              (CreatePrimaryFileset env sconn eff.fs eff.fsmount primaryInfo.PrimaryFset
                primaryInfo.InodeLimit w).world).val.2.2⟩
          else ⟨some scaleConnMap, scaleConfig,
            { primaryInfo with
              SymlinkAbsolutePath :=
                (CreateSymlinkPath env psc primaryInfo.PrimaryFS primaryInfo.PrimaryFSMount
                  (rewrittenLinkPath (CreatePrimaryFileset env sconn eff.fs eff.fsmount
                    primaryInfo.PrimaryFset primaryInfo.InodeLimit w).val.1 eff.fsmount
                    primaryInfo.PrimaryFSMount)
                  (CreatePrimaryFileset env sconn eff.fs eff.fsmount primaryInfo.PrimaryFset
                    primaryInfo.InodeLimit w).world).val.1,
              SymlinkRelativePath :=
                (CreateSymlinkPath env psc primaryInfo.PrimaryFS primaryInfo.PrimaryFSMount
                  (rewrittenLinkPath (CreatePrimaryFileset env sconn eff.fs eff.fsmount
                    primaryInfo.PrimaryFset primaryInfo.InodeLimit w).val.1 eff.fsmount
                    primaryInfo.PrimaryFSMount)
                  (CreatePrimaryFileset env sconn eff.fs eff.fsmount primaryInfo.PrimaryFset
                    primaryInfo.InodeLimit w).world).val.2.1,
              PrimaryFsetLink :=
                rewrittenLinkPath (CreatePrimaryFileset env sconn eff.fs eff.fsmount
                  primaryInfo.PrimaryFset primaryInfo.InodeLimit w).val.1 eff.fsmount
                  primaryInfo.PrimaryFSMount },
            none⟩),
        (CreateSymlinkPath env psc primaryInfo.PrimaryFS primaryInfo.PrimaryFSMount
          (rewrittenLinkPath (CreatePrimaryFileset env sconn eff.fs eff.fsmount
            primaryInfo.PrimaryFset primaryInfo.InodeLimit w).val.1 eff.fsmount
            primaryInfo.PrimaryFSMount)
          (CreatePrimaryFileset env sconn eff.fs eff.fsmount primaryInfo.PrimaryFset
            primaryInfo.InodeLimit w).world).world,
        (CreatePrimaryFileset env sconn eff.fs eff.fsmount primaryInfo.PrimaryFset
          primaryInfo.InodeLimit w).trace ++
        (CreateSymlinkPath env psc primaryInfo.PrimaryFS primaryInfo.PrimaryFSMount
          (rewrittenLinkPath (CreatePrimaryFileset env sconn eff.fs eff.fsmount
            primaryInfo.PrimaryFset primaryInfo.InodeLimit w).val.1 eff.fsmount
            primaryInfo.PrimaryFSMount)
          (CreatePrimaryFileset env sconn eff.fs eff.fsmount primaryInfo.PrimaryFset
            primaryInfo.InodeLimit w).world).trace⟩ := by
  unfold rewrittenLinkPath at h2 ⊢
  unfold bootstrapFileset
  rw [hs]
  simp only
  rw [if_neg (not_not.mpr h1), if_neg (not_not.mpr h2), h3]
  simp only
  split_ifs <;> rfl

/-- What a successful run of the last part of `PluginInitialize` has done, told by the
fields of the `Primary` it returns. -/
theorem bootstrapFileset_ok {W : Type} (env : ConnectorWorld W)
    (environ : String → Option String)
    (scaleConnMap : List (String × SpectrumScaleConnector)) (scaleConfig : ScaleSettingsConfigMap)
    (primaryInfo : Primary) (eff : Effective) (w : W) (res : InitResult)
    (h : (bootstrapFileset env environ scaleConnMap scaleConfig primaryInfo eff w).val
      = .returned res)
    (herr : res.err = none) :
    ∃ sconn psc, eff.sconn = some sconn ∧ scaleConnMap.lookup "primary" = some psc ∧
      (CreatePrimaryFileset env sconn eff.fs eff.fsmount primaryInfo.PrimaryFset
        primaryInfo.InodeLimit w).val.2 = none ∧
      res.primary.PrimaryFsetLink =
        rewrittenLinkPath (CreatePrimaryFileset env sconn eff.fs eff.fsmount
          primaryInfo.PrimaryFset primaryInfo.InodeLimit w).val.1 eff.fsmount
          primaryInfo.PrimaryFSMount ∧
      ValidateHostpath environ primaryInfo.PrimaryFSMount res.primary.PrimaryFsetLink = none ∧
      res.primary = { primaryInfo with
        SymlinkAbsolutePath := TrimSuffix res.primary.PrimaryFsetLink "/" ++ "/.volumes",
        SymlinkRelativePath :=
          Trim (Replace1 res.primary.PrimaryFsetLink primaryInfo.PrimaryFSMount "") "!/"
            ++ "/.volumes",
        PrimaryFsetLink := res.primary.PrimaryFsetLink } ∧
      (bootstrapFileset env environ scaleConnMap scaleConfig primaryInfo eff w).trace =
        (CreatePrimaryFileset env sconn eff.fs eff.fsmount primaryInfo.PrimaryFset
          primaryInfo.InodeLimit w).trace ++
        [Call.MakeDirectory psc primaryInfo.PrimaryFS res.primary.SymlinkRelativePath 0 0 none] := by
  cases hs : eff.sconn with
  | none =>
    rw [bootstrapFileset_nil env environ _ _ _ _ _ hs] at h
    cases h
  | some sconn =>
    by_cases h1 : (CreatePrimaryFileset env sconn eff.fs eff.fsmount primaryInfo.PrimaryFset
        primaryInfo.InodeLimit w).val.2 = none
    swap
    · rw [bootstrapFileset_create_error env environ _ _ _ _ _ sconn hs h1] at h
      simp only [Outcome.returned.injEq] at h
      rw [← h] at herr
      exact absurd herr h1
    by_cases h2 : ValidateHostpath environ primaryInfo.PrimaryFSMount
        (rewrittenLinkPath (CreatePrimaryFileset env sconn eff.fs eff.fsmount
          primaryInfo.PrimaryFset primaryInfo.InodeLimit w).val.1 eff.fsmount
          primaryInfo.PrimaryFSMount) = none
    swap
    · rw [bootstrapFileset_hostpath_error env environ _ _ _ _ _ sconn hs h1 h2] at h
      simp only [Outcome.returned.injEq] at h
      rw [← h] at herr
      exact absurd herr h2
    cases h3 : scaleConnMap.lookup "primary" with
    | none =>
      rw [bootstrapFileset_primary_nil env environ _ _ _ _ _ sconn hs h1 h2 h3] at h
      cases h
    | some psc =>
      have heq := bootstrapFileset_symlink env environ scaleConnMap scaleConfig primaryInfo eff w
        sconn psc hs h1 h2 h3
      rw [heq] at h ⊢
      by_cases h4 : (CreateSymlinkPath env psc primaryInfo.PrimaryFS primaryInfo.PrimaryFSMount
          (rewrittenLinkPath (CreatePrimaryFileset env sconn eff.fs eff.fsmount
            primaryInfo.PrimaryFset primaryInfo.InodeLimit w).val.1 eff.fsmount
            primaryInfo.PrimaryFSMount)
          (CreatePrimaryFileset env sconn eff.fs eff.fsmount primaryInfo.PrimaryFset
            primaryInfo.InodeLimit w).world).val.2.2 = none
      swap
      · simp only [Outcome.returned.injEq] at h
        rw [if_pos h4] at h
        rw [← h] at herr
        exact absurd herr h4
      · simp only [Outcome.returned.injEq] at h
        rw [if_neg (not_not.mpr h4)] at h
        refine ⟨sconn, psc, rfl, rfl, h1, ?_, ?_, ?_, ?_⟩
        · rw [← h]
        · rw [← h]
          exact h2
        · rw [← h]
          rfl
        · rw [createSymlinkPath_eq] at h4 ⊢
          simp only at h4 ⊢
          rw [h4, ← h]
          rfl

/-- The stages that a successful `PluginInitialize` has gone through. -/
theorem pluginInitialize_ok_stages {W : Type} (env : ConnectorWorld W)
    (environ : String → Option String) (scaleConfig : ScaleSettingsConfigMap) (w : W)
    (res : InitResult)
    (hok : (PluginInitialize env environ scaleConfig w).val = .returned res)
    (herr : res.err = none) :
    (ValidateScaleConfigParameters scaleConfig).1 = true ∧
    ∃ st eff,
      (initLoop env scaleConfig.Clusters ⟨[], Primary.zero, []⟩ w).val = .ok st ∧
      (resolveEffective env st.scaleConnMap ⟨st.done⟩ st.primaryInfo
        (initLoop env scaleConfig.Clusters ⟨[], Primary.zero, []⟩ w).world).val = .ok eff ∧
      (bootstrapFileset env environ st.scaleConnMap ⟨st.done⟩ st.primaryInfo eff
        (resolveEffective env st.scaleConnMap ⟨st.done⟩ st.primaryInfo
          (initLoop env scaleConfig.Clusters ⟨[], Primary.zero, []⟩ w).world).world).val
        = .returned res ∧
      (PluginInitialize env environ scaleConfig w).trace =
        (initLoop env scaleConfig.Clusters ⟨[], Primary.zero, []⟩ w).trace ++
        (resolveEffective env st.scaleConnMap ⟨st.done⟩ st.primaryInfo
          (initLoop env scaleConfig.Clusters ⟨[], Primary.zero, []⟩ w).world).trace ++
        (bootstrapFileset env environ st.scaleConnMap ⟨st.done⟩ st.primaryInfo eff
          (resolveEffective env st.scaleConnMap ⟨st.done⟩ st.primaryInfo
            (initLoop env scaleConfig.Clusters ⟨[], Primary.zero, []⟩ w).world).world).trace := by
  by_cases hv : (ValidateScaleConfigParameters scaleConfig).1 = true
  swap
  · exfalso
    rw [pluginInitialize_invalid env environ scaleConfig w hv] at hok
    simp only [Outcome.returned.injEq] at hok
    rw [← hok] at herr
    simp only at herr
    rcases validate_coherent scaleConfig with h1 | ⟨msg, h1⟩
    · rw [h1] at hv
      exact hv rfl
    · rw [h1] at herr
      cases herr
  refine ⟨hv, ?_⟩
  obtain ⟨_, hlv⟩ := initLoop_guarantee env scaleConfig.Clusters ⟨[], Primary.zero, []⟩ w
  cases hl : (initLoop env scaleConfig.Clusters ⟨[], Primary.zero, []⟩ w).val with
  | error res1 =>
    exfalso
    rw [hl] at hlv
    rw [pluginInitialize_loop_error env environ scaleConfig w hv res1 hl] at hok
    simp only [Outcome.returned.injEq] at hok
    rw [hok] at hlv
    exact hlv herr
  | ok st =>
    obtain ⟨_, hrv⟩ := resolveEffective_guarantee env st.scaleConnMap ⟨st.done⟩ st.primaryInfo
      (initLoop env scaleConfig.Clusters ⟨[], Primary.zero, []⟩ w).world
    cases hr : (resolveEffective env st.scaleConnMap ⟨st.done⟩ st.primaryInfo
        (initLoop env scaleConfig.Clusters ⟨[], Primary.zero, []⟩ w).world).val with
    | error out =>
      exfalso
      rw [hr] at hrv
      rw [pluginInitialize_resolve_error env environ scaleConfig w hv st hl out hr] at hok
      simp only at hok
      subst hok
      exact hrv herr
    | ok eff =>
      have hrun := pluginInitialize_resolve_ok env environ scaleConfig w hv st hl eff hr
      rw [hrun, Run.after_val] at hok
      refine ⟨st, eff, rfl, hr, hok, ?_⟩
      rw [hrun, Run.after_trace]

/-! ### The rewrite of the link path to the local mount point -/

theorem Replace1_replace_front (a t b : String) (hne : a ≠ b) :
    Replace1 (a ++ t) a b = b ++ t := by
  unfold Replace1
  rw [if_neg hne]
  apply String.ext
  show replaceFirst a.data b.data (a ++ t).data = (b ++ t).data
  simp only [String.data_append]
  cases hl : a.data ++ t.data with
  | nil =>
    have ha := (List.append_eq_nil.mp hl).1
    have ht := (List.append_eq_nil.mp hl).2
    rw [replaceFirst, if_pos ha, ht, List.append_nil]
  | cons c cs =>
    have hp : a.data.isPrefixOf (c :: cs) = true := by
      rw [List.isPrefixOf_iff_prefix, ← hl]
      exact ⟨t.data, rfl⟩
    rw [replaceFirst, if_pos hp, ← hl, List.drop_left]

theorem createPrimaryFileset_created_path {W : Type} (env : ConnectorWorld W)
    (sc : SpectrumScaleConnector) (primaryFS fsmount filesetName inodeLimit : String) (w : W)
    (herr : (env.ListFileset sc primaryFS filesetName w).1.2 ≠ none)
    (hok : (CreatePrimaryFileset env sc primaryFS fsmount filesetName inodeLimit w).val.2 = none) :
    (CreatePrimaryFileset env sc primaryFS fsmount filesetName inodeLimit w).val.1 =
      pathJoin fsmount filesetName := by
  obtain ⟨opts, hval, _, _⟩ :=
    createPrimaryFileset_notFound env sc primaryFS fsmount filesetName inodeLimit w herr
  by_cases hc : (env.CreateFileset sc primaryFS filesetName opts
      (env.ListFileset sc primaryFS filesetName w).2).1 ≠ none
  · rw [hval, if_pos hc] at hok
    exact absurd hok hc
  · rw [hval, if_neg hc]

/-- C12, the code at the failing input. The declaration is valid; its primary names the
remote cluster `c2` and the remote filesystem `fs1`, which is reported with the mount
point `/gpfs/fs1/`, while the local filesystem `fs0` is reported with `/gpfs/fs0`; the
fileset is not yet present. `PluginInitialize` succeeds and stores the link path
`/gpfs/fs0csiroot`, which is not `path.Join("/gpfs/fs0", "csiroot") = /gpfs/fs0/csiroot`:
the rewrite of source lines 311-313 replaces `/gpfs/fs1/` in `/gpfs/fs1/csiroot` and so
takes away the separator as well. The absolute symlink path stored is
`/gpfs/fs0csiroot/.volumes`, while `MakeDirectory` is called with `csiroot/.volumes`. -/
theorem C12_rewrite_loses_separator :
    (ValidateScaleConfigParameters localAndRemote).1 = true ∧
    (∃ res, (PluginInitialize trailingSlashWorld sampleEnviron localAndRemote
        FilesetState.notFound).val = .returned res ∧ res.err = none ∧
      res.primary.PrimaryFSMount = "/gpfs/fs0" ∧
      res.primary.PrimaryFset = "csiroot" ∧
      res.primary.PrimaryFsetLink = "/gpfs/fs0csiroot" ∧
      res.primary.PrimaryFsetLink ≠
        pathJoin res.primary.PrimaryFSMount res.primary.PrimaryFset ∧
      pathJoin res.primary.PrimaryFSMount res.primary.PrimaryFset = "/gpfs/fs0/csiroot" ∧
      res.primary.SymlinkAbsolutePath = "/gpfs/fs0csiroot/.volumes" ∧
      res.primary.SymlinkRelativePath = "csiroot/.volumes") ∧
    (PluginInitialize trailingSlashWorld sampleEnviron localAndRemote
        FilesetState.notFound).trace =
      [Call.GetClusterId ⟨primaryCluster "c1" "c2" "fs1"⟩ "c1" none,
       Call.GetFilesystemMountDetails ⟨primaryCluster "c1" "c2" "fs1"⟩ "fs0"
         ⟨"/gpfs/fs0", ["node1"]⟩ none,
       Call.GetClusterId ⟨plainCluster "c2"⟩ "c2" none,
       Call.GetFilesystemMountDetails ⟨plainCluster "c2"⟩ "fs1" ⟨"/gpfs/fs1/", ["node1"]⟩ none,
       Call.ListFileset ⟨plainCluster "c2"⟩ "fs1" "csiroot" ⟨⟨""⟩⟩ (some "fileset not found"),
       Call.CreateFileset ⟨plainCluster "c2"⟩ "fs1" "csiroot" [] none,
       Call.MakeDirectory ⟨primaryCluster "c1" "c2" "fs1"⟩ "fs0" "csiroot/.volumes" 0 0 none] := by
  refine ⟨by decide, ⟨_, rfl, ?_⟩, by decide⟩
  decide

/-- The rewrite of the link path on mount points in their shortest form. When the
effective (remote) mount point differs from the local mount
point, the primary fileset is not yet present, and `path.Join` of either mount point with
the fileset name is the mount point, a `/` and the fileset name (as for mount points in
their shortest form), a successful `PluginInitialize` has rewritten the link path to the
local mount point: the link path stored in `PrimaryFsetLink` is
`path.Join(PrimaryFSMount, PrimaryFset)`; it passes `ValidateHostpath`, and the symlink
paths returned are those that `CreateSymlinkPath` computes from it. Here `st` is the
state after the loop over the clusters, with the local mount point in
`st.primaryInfo.PrimaryFSMount`, and `eff` the effective connector, filesystem and mount
point. -/
theorem link_path_rewritten_of_clean_mounts {W : Type} (env : ConnectorWorld W)
    (environ : String → Option String) (scaleConfig : ScaleSettingsConfigMap) (w : W)
    (st : InitLoopState) (eff : Effective) (res : InitResult)
    (hl : (initLoop env scaleConfig.Clusters ⟨[], Primary.zero, []⟩ w).val = .ok st)
    (he : (resolveEffective env st.scaleConnMap ⟨st.done⟩ st.primaryInfo
      (initLoop env scaleConfig.Clusters ⟨[], Primary.zero, []⟩ w).world).val = .ok eff)
    (hdiff : eff.fsmount ≠ st.primaryInfo.PrimaryFSMount)
    (hnf : ∀ sconn, eff.sconn = some sconn →
      (env.ListFileset sconn eff.fs st.primaryInfo.PrimaryFset
        (resolveEffective env st.scaleConnMap ⟨st.done⟩ st.primaryInfo
          (initLoop env scaleConfig.Clusters ⟨[], Primary.zero, []⟩ w).world).world).1.2 ≠ none)
    (hjr : pathJoin eff.fsmount st.primaryInfo.PrimaryFset =
      eff.fsmount ++ ("/" ++ st.primaryInfo.PrimaryFset))
    (hjl : pathJoin st.primaryInfo.PrimaryFSMount st.primaryInfo.PrimaryFset =
      st.primaryInfo.PrimaryFSMount ++ ("/" ++ st.primaryInfo.PrimaryFset))
    (hok : (PluginInitialize env environ scaleConfig w).val = .returned res)
    (herr : res.err = none) :
    res.primary.PrimaryFSMount = st.primaryInfo.PrimaryFSMount ∧
    res.primary.PrimaryFset = st.primaryInfo.PrimaryFset ∧
    res.primary.PrimaryFsetLink = pathJoin res.primary.PrimaryFSMount res.primary.PrimaryFset ∧
    ValidateHostpath environ res.primary.PrimaryFSMount res.primary.PrimaryFsetLink = none ∧
    res.primary.SymlinkAbsolutePath =
      TrimSuffix res.primary.PrimaryFsetLink "/" ++ "/.volumes" ∧
    res.primary.SymlinkRelativePath =
      Trim (Replace1 res.primary.PrimaryFsetLink res.primary.PrimaryFSMount "") "!/"
        ++ "/.volumes" := by
  obtain ⟨hv, _⟩ := pluginInitialize_ok_stages env environ scaleConfig w res hok herr
  have hrun := pluginInitialize_resolve_ok env environ scaleConfig w hv st hl eff he
  rw [hrun, Run.after_val] at hok
  obtain ⟨sconn, psc, hs, _, hc, hlink, hhost, hprim, _⟩ :=
    bootstrapFileset_ok env environ _ _ _ _ _ res hok herr
  have hcreated := createPrimaryFileset_created_path env sconn eff.fs eff.fsmount
    st.primaryInfo.PrimaryFset st.primaryInfo.InodeLimit _ (hnf sconn hs) hc
  have hm : res.primary.PrimaryFSMount = st.primaryInfo.PrimaryFSMount := by rw [hprim]
  have hf : res.primary.PrimaryFset = st.primaryInfo.PrimaryFset := by rw [hprim]
  have hlink2 : res.primary.PrimaryFsetLink =
      pathJoin st.primaryInfo.PrimaryFSMount st.primaryInfo.PrimaryFset := by
    rw [hlink, hcreated, hjr, hjl]
    unfold rewrittenLinkPath
    rw [if_pos hdiff, Replace1_replace_front _ _ _ hdiff]
  refine ⟨hm, hf, ?_, ?_, ?_, ?_⟩
  · rw [hm, hf]
    exact hlink2
  · rw [hm]
    exact hhost
  · rw [hprim]
  · rw [hm, hprim]

/-- The rewrite of the link path in the sample world: the primary cluster `c1` mounts
`fs0` at `/gpfs/fs0`; the remote cluster `c2` mounts the remote filesystem `fs1` at
`/gpfs/fs1`. -/
theorem link_path_rewritten_sample :
    ∃ res, (PluginInitialize sampleWorld sampleEnviron localAndRemote
        FilesetState.notFound).val = .returned res ∧
      res.primary.PrimaryFSMount = "/gpfs/fs0" ∧
      res.primary.PrimaryFsetLink = "/gpfs/fs0/csiroot" ∧
      res.primary.PrimaryFsetLink = pathJoin res.primary.PrimaryFSMount res.primary.PrimaryFset :=
  ⟨_, rfl, by decide, by decide,
    (link_path_rewritten_of_clean_mounts sampleWorld sampleEnviron localAndRemote FilesetState.notFound
      _ _ _ rfl rfl (by decide) (by decide) (by decide) (by decide) rfl rfl).2.2.1⟩

/-! ### The scenario with one cluster -/

theorem initCluster_primary_passes {W : Type} (env : ConnectorWorld W) (c : Clusters)
    (rest : List Clusters) (st : InitLoopState) (w : W)
    (hconn : env.connectorError c = none)
    (hid : (env.GetClusterId ⟨c⟩ w).1 = (c.ID, none))
    (hp : hasPrimary c)
    (hm2 : (env.GetFilesystemMountDetails ⟨c⟩ c.Primary.PrimaryFS (env.GetClusterId ⟨c⟩ w).2).1.2
      = none)
    (hm3 : (env.GetFilesystemMountDetails ⟨c⟩ c.Primary.PrimaryFS
      (env.GetClusterId ⟨c⟩ w).2).1.1.NodesMounted.length ≠ 0) :
    initCluster env c rest st w =
      ⟨.ok ⟨("primary", ⟨c⟩) :: (c.ID, ⟨c⟩) :: st.scaleConnMap,
          { c.Primary with
            PrimaryFSMount := (env.GetFilesystemMountDetails ⟨c⟩ c.Primary.PrimaryFS
              (env.GetClusterId ⟨c⟩ w).2).1.1.MountPoint,
            PrimaryCid := c.ID },
          st.done ++ [{ c with Primary := { c.Primary with
            PrimaryFSMount := (env.GetFilesystemMountDetails ⟨c⟩ c.Primary.PrimaryFS
              (env.GetClusterId ⟨c⟩ w).2).1.1.MountPoint,
            PrimaryCid := c.ID } }]⟩,
        (env.GetFilesystemMountDetails ⟨c⟩ c.Primary.PrimaryFS (env.GetClusterId ⟨c⟩ w).2).2,
        [Call.GetClusterId ⟨c⟩ c.ID none,
         Call.GetFilesystemMountDetails ⟨c⟩ c.Primary.PrimaryFS
          (env.GetFilesystemMountDetails ⟨c⟩ c.Primary.PrimaryFS (env.GetClusterId ⟨c⟩ w).2).1.1
          none]⟩ := by
  have hid1 : (env.GetClusterId ⟨c⟩ w).1.1 = c.ID := by rw [hid]
  have hid2 : (env.GetClusterId ⟨c⟩ w).1.2 = none := by rw [hid]
  unfold initCluster
  simp only [GetSpectrumScaleConnector]
  have hp1 : c.Primary ≠ Primary.zero := hp
  rw [if_neg (not_not.mpr hconn), if_neg (not_not.mpr hid2), hid1, if_neg (not_not.mpr rfl),
    if_pos hp1, if_neg (not_not.mpr hm2), if_neg hm3, hid2, hm2]
  rfl

theorem suffix_after_mount (M : String) :
    TrimSuffix (M ++ "/csiroot") "/" = M ++ "/csiroot" ∧
    Trim (Replace1 (M ++ "/csiroot") M "") "!/" = "csiroot" := by
  constructor
  · rw [TrimSuffix_slash]
    unfold dropOneTrailingSlash
    have hlast : (M ++ "/csiroot").data.getLast? = some 't' := by
      rw [String.data_append, List.getLast?_append]
      rfl
    rw [hlast, if_neg (by decide)]
  · rw [Replace1_strip_front M (M ++ "/csiroot") ⟨"/csiroot".data, (String.data_append _ _).symm⟩,
      Trim_cutset]
    apply String.ext
    show stripEdges (List.drop M.data.length (M ++ "/csiroot").data) = _
    rw [String.data_append, List.drop_left]
    decide

/-- C14, the code at the failing input. One cluster with the primary block
`fs0`/`csiroot`; its connector reports the declared identity and the mount point `/gpfs//fs0` with one mounted node; the
fileset is not found; every other call succeeds and the host-path check passes.
`PluginInitialize` succeeds, but the relative path it returns and passes to
`MakeDirectory` is `gpfs/fs0/csiroot/.volumes`, not `csiroot/.volumes`, and the link
path is `/gpfs/fs0/csiroot`, not the mount point followed by `/csiroot`: `path.Join` has
cleaned the link path, so the mount point as reported no longer occurs in it and the
strip of source line 377 removes nothing. -/
theorem C14_mount_point_not_stripped :
    (ValidateScaleConfigParameters singleCluster).1 = true ∧
    (PluginInitialize doubleSlashWorld sampleEnviron singleCluster FilesetState.notFound).trace =
      [Call.GetClusterId ⟨primaryCluster "c1" "" ""⟩ "c1" none,
       Call.GetFilesystemMountDetails ⟨primaryCluster "c1" "" ""⟩ "fs0"
         ⟨"/gpfs//fs0", ["node1"]⟩ none,
       Call.ListFileset ⟨primaryCluster "c1" "" ""⟩ "fs0" "csiroot" ⟨⟨""⟩⟩
         (some "fileset not found"),
       Call.CreateFileset ⟨primaryCluster "c1" "" ""⟩ "fs0" "csiroot" [] none,
       Call.MakeDirectory ⟨primaryCluster "c1" "" ""⟩ "fs0" "gpfs/fs0/csiroot/.volumes" 0 0 none] ∧
    (∃ res, (PluginInitialize doubleSlashWorld sampleEnviron singleCluster
        FilesetState.notFound).val = .returned res ∧ res.err = none ∧
      res.primary.PrimaryFSMount = "/gpfs//fs0" ∧
      res.primary.PrimaryFsetLink = "/gpfs/fs0/csiroot" ∧
      res.primary.PrimaryFsetLink ≠ res.primary.PrimaryFSMount ++ "/csiroot" ∧
      res.primary.SymlinkAbsolutePath = "/gpfs/fs0/csiroot/.volumes" ∧
      res.primary.SymlinkAbsolutePath ≠ res.primary.PrimaryFSMount ++ "/csiroot/.volumes" ∧
      res.primary.SymlinkRelativePath = "gpfs/fs0/csiroot/.volumes" ∧
      res.primary.SymlinkRelativePath ≠ "csiroot/.volumes") := by
  refine ⟨by decide, by decide, ⟨_, rfl, ?_⟩⟩
  decide

theorem initLoop_single_primary {W : Type} (env : ConnectorWorld W) (c : Clusters)
    (M : String) (nodes : List String) (w : W)
    (hconn : env.connectorError c = none)
    (hid : (env.GetClusterId ⟨c⟩ w).1 = (c.ID, none))
    (hp : hasPrimary c)
    (hm : (env.GetFilesystemMountDetails ⟨c⟩ c.Primary.PrimaryFS (env.GetClusterId ⟨c⟩ w).2).1
      = (⟨M, nodes⟩, none))
    (hlen : nodes.length ≠ 0) :
    ∃ st, initLoop env [c] ⟨[], Primary.zero, []⟩ w =
        ⟨.ok st,
          (env.GetFilesystemMountDetails ⟨c⟩ c.Primary.PrimaryFS (env.GetClusterId ⟨c⟩ w).2).2,
          [Call.GetClusterId ⟨c⟩ c.ID none,
           Call.GetFilesystemMountDetails ⟨c⟩ c.Primary.PrimaryFS ⟨M, nodes⟩ none]⟩ ∧
      st.scaleConnMap.lookup "primary" = some ⟨c⟩ ∧
      st.primaryInfo = { c.Primary with PrimaryFSMount := M, PrimaryCid := c.ID } := by
  have hcl := initCluster_primary_passes env c [] ⟨[], Primary.zero, []⟩ w hconn hid hp
    (by rw [hm]) (by rw [hm]; exact hlen)
  rw [hm] at hcl
  have hloop := initLoop_cons_ok env c [] ⟨[], Primary.zero, []⟩ w _ (congrArg Run.val hcl)
  rw [hcl] at hloop
  refine ⟨_, hloop, ?_, rfl⟩
  rw [lookup_cons_eq, if_pos rfl]

theorem createPrimaryFileset_notFound_plain {W : Type} (env : ConnectorWorld W)
    (sc : SpectrumScaleConnector) (primaryFS fsmount filesetName : String) (w : W)
    (herr : (env.ListFileset sc primaryFS filesetName w).1.2 ≠ none)
    (hc : (env.CreateFileset sc primaryFS filesetName []
      (env.ListFileset sc primaryFS filesetName w).2).1 = none) :
    CreatePrimaryFileset env sc primaryFS fsmount filesetName "" w =
      ⟨(pathJoin fsmount filesetName, none),
        (env.CreateFileset sc primaryFS filesetName []
          (env.ListFileset sc primaryFS filesetName w).2).2,
        [Call.ListFileset sc primaryFS filesetName
            (env.ListFileset sc primaryFS filesetName w).1.1
            (env.ListFileset sc primaryFS filesetName w).1.2,
          Call.CreateFileset sc primaryFS filesetName [] none]⟩ := by
  unfold CreatePrimaryFileset
  simp only [if_pos herr, ne_eq, not_true_eq_false, if_false, hc, List.singleton_append]

/-- The scenario with one cluster on a mount point in its shortest form. One valid
cluster with the primary block `fs0`/`csiroot`, whose
connector reports the declared identity and the mount point `M` with at least one mounted
node, `M` being such that `path.Join(M, "csiroot")` is `M` followed by `/csiroot` (a mount
point in its shortest form); `ListFileset` reports the fileset as not found, every other
connector call succeeds and the host-path check passes. Then `PluginInitialize` succeeds
with the calls `GetClusterId`, `GetFilesystemMountDetails`, `ListFileset`, one
`CreateFileset("fs0", "csiroot")` and `MakeDirectory("fs0", "csiroot/.volumes", 0, 0)`,
and returns a `Primary` with `PrimaryFSMount = M`, `PrimaryFsetLink = M/csiroot`,
`SymlinkAbsolutePath = M/csiroot/.volumes` and `SymlinkRelativePath = csiroot/.volumes`. -/
theorem single_cluster_scenario_of_clean_mount {W : Type} (env : ConnectorWorld W)
    (environ : String → Option String) (c : Clusters) (M : String) (nodes : List String)
    (w : W)
    (hv : (ValidateScaleConfigParameters ⟨[c]⟩).1 = true)
    (hprim : c.Primary = { Primary.zero with PrimaryFS := "fs0", PrimaryFset := "csiroot" })
    (hconn : env.connectorError c = none)
    (hid : (env.GetClusterId ⟨c⟩ w).1 = (c.ID, none))
    (hmount : (env.GetFilesystemMountDetails ⟨c⟩ "fs0" (env.GetClusterId ⟨c⟩ w).2).1
      = (⟨M, nodes⟩, none))
    (hnodes : nodes ≠ [])
    (hlist : (env.ListFileset ⟨c⟩ "fs0" "csiroot"
      (env.GetFilesystemMountDetails ⟨c⟩ "fs0" (env.GetClusterId ⟨c⟩ w).2).2).1.2 ≠ none)
    (hcreate : (env.CreateFileset ⟨c⟩ "fs0" "csiroot" []
      (env.ListFileset ⟨c⟩ "fs0" "csiroot"
        (env.GetFilesystemMountDetails ⟨c⟩ "fs0" (env.GetClusterId ⟨c⟩ w).2).2).2).1 = none)
    (hmkdir : (env.MakeDirectory ⟨c⟩ "fs0" "csiroot/.volumes" 0 0
      (env.CreateFileset ⟨c⟩ "fs0" "csiroot" []
        (env.ListFileset ⟨c⟩ "fs0" "csiroot"
          (env.GetFilesystemMountDetails ⟨c⟩ "fs0" (env.GetClusterId ⟨c⟩ w).2).2).2).2).1 = none)
    (hjoin : pathJoin M "csiroot" = M ++ "/csiroot")
    (hhost : ValidateHostpath environ M (M ++ "/csiroot") = none) :
    (∃ res, (PluginInitialize env environ ⟨[c]⟩ w).val = .returned res ∧ res.err = none ∧
      res.primary.PrimaryFSMount = M ∧
      res.primary.PrimaryFsetLink = M ++ "/csiroot" ∧
      res.primary.SymlinkAbsolutePath = M ++ "/csiroot/.volumes" ∧
      res.primary.SymlinkRelativePath = "csiroot/.volumes") ∧
    (∃ fsetResponse err, (PluginInitialize env environ ⟨[c]⟩ w).trace =
      [Call.GetClusterId ⟨c⟩ c.ID none,
       Call.GetFilesystemMountDetails ⟨c⟩ "fs0" ⟨M, nodes⟩ none,
       Call.ListFileset ⟨c⟩ "fs0" "csiroot" fsetResponse (some err),
       Call.CreateFileset ⟨c⟩ "fs0" "csiroot" [] none,
       Call.MakeDirectory ⟨c⟩ "fs0" "csiroot/.volumes" 0 0 none]) := by
  have hfs : c.Primary.PrimaryFS = "fs0" := by rw [hprim]
  have hp : hasPrimary c := by
    unfold hasPrimary
    rw [hprim]
    decide
  have hlen : nodes.length ≠ 0 := fun h => hnodes (List.length_eq_zero.mp h)
  -- the loop over the one cluster
  obtain ⟨st, hloop, hlook, hpi⟩ := initLoop_single_primary env c M nodes w hconn hid hp
    (by rw [hfs]; exact hmount) hlen
  rw [hfs] at hloop
  have hF1 : st.primaryInfo.PrimaryFS = "fs0" := by rw [hpi, hprim]
  have hF2 : st.primaryInfo.PrimaryFset = "csiroot" := by rw [hpi, hprim]
  have hF3 : st.primaryInfo.PrimaryFSMount = M := by rw [hpi]
  have hF4 : st.primaryInfo.InodeLimit = "" := by rw [hpi, hprim]; rfl
  have hF5 : st.primaryInfo.RemoteCluster = "" := by rw [hpi, hprim]; rfl
  have hlval : (initLoop env [c] ⟨[], Primary.zero, []⟩ w).val = .ok st := by rw [hloop]
  have hlworld : (initLoop env [c] ⟨[], Primary.zero, []⟩ w).world =
      (env.GetFilesystemMountDetails ⟨c⟩ "fs0" (env.GetClusterId ⟨c⟩ w).2).2 := by rw [hloop]
  -- the effective connector is the connector of `c`
  have hres := resolveEffective_local env st.scaleConnMap ⟨st.done⟩ st.primaryInfo
    (initLoop env [c] ⟨[], Primary.zero, []⟩ w).world hF5
  rw [hlook, hF1, hF3, hlworld] at hres
  have hrun := pluginInitialize_resolve_ok env environ ⟨[c]⟩ w hv st hlval
    ⟨some ⟨c⟩, "fs0", M⟩ (by rw [hlworld, hres])
  rw [hlworld, hres] at hrun
  simp only at hrun
  -- the fileset is created, the host path is checked, the directory is made
  have hcpf := createPrimaryFileset_notFound_plain env ⟨c⟩ "fs0" M "csiroot"
    (env.GetFilesystemMountDetails ⟨c⟩ "fs0" (env.GetClusterId ⟨c⟩ w).2).2 hlist hcreate
  rw [hjoin] at hcpf
  have hrw : rewrittenLinkPath (M ++ "/csiroot") M M = M ++ "/csiroot" := by
    unfold rewrittenLinkPath
    rw [if_neg (not_not.mpr rfl)]
  have hdir : "csiroot" ++ "/.volumes" = "csiroot/.volumes" := by decide
  have hboot := bootstrapFileset_symlink env environ st.scaleConnMap ⟨st.done⟩ st.primaryInfo
    ⟨some ⟨c⟩, "fs0", M⟩ (env.GetFilesystemMountDetails ⟨c⟩ "fs0" (env.GetClusterId ⟨c⟩ w).2).2
    ⟨c⟩ ⟨c⟩ rfl
    (by rw [hF2, hF4, hcpf]) (by rw [hF2, hF4, hF3, hcpf, hrw]; exact hhost) hlook
  rw [hF1, hF2, hF3, hF4] at hboot
  simp only [hcpf, hrw, createSymlinkPath_eq, (suffix_after_mount M).1,
    (suffix_after_mount M).2, hdir, hmkdir, ne_eq, not_true_eq_false, if_false] at hboot
  rw [hboot] at hrun
  rw [hrun, hloop]
  refine ⟨⟨_, rfl, rfl, rfl, rfl, ?_, rfl⟩, ?_⟩
  · show M ++ "/csiroot" ++ "/.volumes" = M ++ "/csiroot/.volumes"
    rw [String.append_assoc]
    rfl
  · obtain ⟨err, herr⟩ := Option.ne_none_iff_exists'.mp hlist
    refine ⟨(env.ListFileset ⟨c⟩ "fs0" "csiroot"
      (env.GetFilesystemMountDetails ⟨c⟩ "fs0" (env.GetClusterId ⟨c⟩ w).2).2).1.1, err, ?_⟩
    simp only [Run.after, List.append_nil, List.cons_append, List.nil_append, herr]

/-- The scenario with one cluster in the sample world, where `fs0` is mounted at
`/gpfs/fs0` and the fileset is not found. -/
theorem single_cluster_scenario_sample :
    (∃ res, (PluginInitialize sampleWorld sampleEnviron ⟨[primaryCluster "c1" "" ""]⟩
        FilesetState.notFound).val = .returned res ∧ res.err = none ∧
      res.primary.PrimaryFSMount = "/gpfs/fs0" ∧
      res.primary.PrimaryFsetLink = "/gpfs/fs0" ++ "/csiroot" ∧
      res.primary.SymlinkAbsolutePath = "/gpfs/fs0" ++ "/csiroot/.volumes" ∧
      res.primary.SymlinkRelativePath = "csiroot/.volumes") ∧
    (∃ fsetResponse err, (PluginInitialize sampleWorld sampleEnviron
        ⟨[primaryCluster "c1" "" ""]⟩ FilesetState.notFound).trace =
      [Call.GetClusterId ⟨primaryCluster "c1" "" ""⟩ (primaryCluster "c1" "" "").ID none,
       Call.GetFilesystemMountDetails ⟨primaryCluster "c1" "" ""⟩ "fs0"
        ⟨"/gpfs/fs0", ["node1"]⟩ none,
       Call.ListFileset ⟨primaryCluster "c1" "" ""⟩ "fs0" "csiroot" fsetResponse (some err),
       Call.CreateFileset ⟨primaryCluster "c1" "" ""⟩ "fs0" "csiroot" [] none,
       Call.MakeDirectory ⟨primaryCluster "c1" "" ""⟩ "fs0" "csiroot/.volumes" 0 0 none]) :=
  single_cluster_scenario_of_clean_mount sampleWorld sampleEnviron (primaryCluster "c1" "" "")
    "/gpfs/fs0" ["node1"] FilesetState.notFound
    (by decide) (by decide) (by decide) (by decide) (by decide) (by decide) (by decide)
    (by decide) (by decide) (by decide) (by decide)

/-! ### The order of the stages of `PluginInitialize` -/

theorem Call.not_mkdir_of_query (e : Call) (h : e.isTopologyQuery = true) :
    e.isMakeDirectory = false := by
  cases e <;> simp_all [Call.isTopologyQuery, Call.isMakeDirectory]

theorem createPrimaryFileset_calls {W : Type} (env : ConnectorWorld W)
    (sc : SpectrumScaleConnector) (primaryFS fsmount filesetName inodeLimit : String) (w : W) :
    (∀ e ∈ (CreatePrimaryFileset env sc primaryFS fsmount filesetName inodeLimit w).trace,
      e.isMakeDirectory = false) ∧
    ∃ e ∈ (CreatePrimaryFileset env sc primaryFS fsmount filesetName inodeLimit w).trace,
      e.isListFileset = true := by
  unfold CreatePrimaryFileset
  simp only
  split_ifs <;> simp [Call.isMakeDirectory, Call.isListFileset]

/-- The calls of the last part of `PluginInitialize`: calls other than `MakeDirectory`,
followed by at most one `MakeDirectory`, which is only made after a `ListFileset` and
after `ValidateHostpath` has accepted the link path its argument is computed from. -/
theorem bootstrapFileset_shape {W : Type} (env : ConnectorWorld W)
    (environ : String → Option String)
    (scaleConnMap : List (String × SpectrumScaleConnector)) (scaleConfig : ScaleSettingsConfigMap)
    (primaryInfo : Primary) (eff : Effective) (w : W) :
    ∃ pre, (∀ a ∈ pre, a.isMakeDirectory = false) ∧
      ((bootstrapFileset env environ scaleConnMap scaleConfig primaryInfo eff w).trace = pre ∨
       ((∃ a ∈ pre, a.isListFileset = true) ∧
        ∃ sc fs linkpath err,
          ValidateHostpath environ primaryInfo.PrimaryFSMount linkpath = none ∧
          (bootstrapFileset env environ scaleConnMap scaleConfig primaryInfo eff w).trace =
            pre ++ [Call.MakeDirectory sc fs
              (Trim (Replace1 linkpath primaryInfo.PrimaryFSMount "") "!/" ++ "/.volumes")
              0 0 err])) := by
  cases hs : eff.sconn with
  | none =>
    rw [bootstrapFileset_nil env environ _ _ _ _ _ hs]
    exact ⟨[], by simp, Or.inl rfl⟩
  | some sconn =>
    obtain ⟨hno, hlist⟩ := createPrimaryFileset_calls env sconn eff.fs eff.fsmount
      primaryInfo.PrimaryFset primaryInfo.InodeLimit w
    refine ⟨_, hno, ?_⟩
    by_cases h1 : (CreatePrimaryFileset env sconn eff.fs eff.fsmount primaryInfo.PrimaryFset
        primaryInfo.InodeLimit w).val.2 = none
    swap
    · rw [bootstrapFileset_create_error env environ _ _ _ _ _ sconn hs h1]
      exact Or.inl rfl
    by_cases h2 : ValidateHostpath environ primaryInfo.PrimaryFSMount
        (rewrittenLinkPath (CreatePrimaryFileset env sconn eff.fs eff.fsmount
          primaryInfo.PrimaryFset primaryInfo.InodeLimit w).val.1 eff.fsmount
          primaryInfo.PrimaryFSMount) = none
    swap
    · rw [bootstrapFileset_hostpath_error env environ _ _ _ _ _ sconn hs h1 h2]
      exact Or.inl rfl
    cases h3 : scaleConnMap.lookup "primary" with
    | none =>
      rw [bootstrapFileset_primary_nil env environ _ _ _ _ _ sconn hs h1 h2 h3]
      exact Or.inl rfl
    | some psc =>
      rw [bootstrapFileset_symlink env environ _ _ _ _ _ sconn psc hs h1 h2 h3]
      right
      refine ⟨hlist, psc, primaryInfo.PrimaryFS,
        rewrittenLinkPath (CreatePrimaryFileset env sconn eff.fs eff.fsmount
          primaryInfo.PrimaryFset primaryInfo.InodeLimit w).val.1 eff.fsmount
          primaryInfo.PrimaryFSMount, ?_⟩
      rw [createSymlinkPath_eq]
      exact ⟨_, h2, rfl⟩

theorem pluginInitialize_shape {W : Type} (env : ConnectorWorld W)
    (environ : String → Option String) (scaleConfig : ScaleSettingsConfigMap) (w : W) :
    ∃ pre, (∀ a ∈ pre, a.isMakeDirectory = false) ∧
      ((PluginInitialize env environ scaleConfig w).trace = pre ∨
       ((∃ a ∈ pre, a.isListFileset = true) ∧
        ∃ sc fs mountpath linkpath err,
          ValidateHostpath environ mountpath linkpath = none ∧
          (PluginInitialize env environ scaleConfig w).trace =
            pre ++ [Call.MakeDirectory sc fs
              (Trim (Replace1 linkpath mountpath "") "!/" ++ "/.volumes") 0 0 err])) := by
  by_cases hv : (ValidateScaleConfigParameters scaleConfig).1 = true
  swap
  · rw [pluginInitialize_invalid env environ scaleConfig w hv]
    exact ⟨[], by simp, Or.inl rfl⟩
  obtain ⟨hlq, _⟩ := initLoop_guarantee env scaleConfig.Clusters ⟨[], Primary.zero, []⟩ w
  cases hl : (initLoop env scaleConfig.Clusters ⟨[], Primary.zero, []⟩ w).val with
  | error res =>
    rw [pluginInitialize_loop_error env environ scaleConfig w hv res hl]
    exact ⟨_, fun a ha => Call.not_mkdir_of_query a (hlq a ha), Or.inl rfl⟩
  | ok st =>
    obtain ⟨hrq, _⟩ := resolveEffective_guarantee env st.scaleConnMap ⟨st.done⟩ st.primaryInfo
      (initLoop env scaleConfig.Clusters ⟨[], Primary.zero, []⟩ w).world
    have hq : ∀ a ∈ (initLoop env scaleConfig.Clusters ⟨[], Primary.zero, []⟩ w).trace ++
        (resolveEffective env st.scaleConnMap ⟨st.done⟩ st.primaryInfo
          (initLoop env scaleConfig.Clusters ⟨[], Primary.zero, []⟩ w).world).trace,
        a.isMakeDirectory = false := by
      intro a ha
      rcases List.mem_append.mp ha with ha | ha
      · exact Call.not_mkdir_of_query a (hlq a ha)
      · exact Call.not_mkdir_of_query a (hrq a ha)
    cases hr : (resolveEffective env st.scaleConnMap ⟨st.done⟩ st.primaryInfo
        (initLoop env scaleConfig.Clusters ⟨[], Primary.zero, []⟩ w).world).val with
    | error out =>
      rw [pluginInitialize_resolve_error env environ scaleConfig w hv st hl out hr]
      exact ⟨_, hq, Or.inl rfl⟩
    | ok eff =>
      rw [pluginInitialize_resolve_ok env environ scaleConfig w hv st hl eff hr, Run.after_trace]
      obtain ⟨pre, hpre, hshape⟩ := bootstrapFileset_shape env environ st.scaleConnMap ⟨st.done⟩
        st.primaryInfo eff
        (resolveEffective env st.scaleConnMap ⟨st.done⟩ st.primaryInfo
          (initLoop env scaleConfig.Clusters ⟨[], Primary.zero, []⟩ w).world).world
      refine ⟨((initLoop env scaleConfig.Clusters ⟨[], Primary.zero, []⟩ w).trace ++
        (resolveEffective env st.scaleConnMap ⟨st.done⟩ st.primaryInfo
          (initLoop env scaleConfig.Clusters ⟨[], Primary.zero, []⟩ w).world).trace) ++ pre,
        ?_, ?_⟩
      · intro a ha
        rcases List.mem_append.mp ha with ha | ha
        · exact hq a ha
        · exact hpre a ha
      · rcases hshape with h | ⟨⟨a, ha, hal⟩, sc, fs, linkpath, err, hvh, h⟩
        · left
          rw [h]
        · right
          refine ⟨⟨a, List.mem_append_right _ ha, hal⟩, sc, fs, _, linkpath, err, hvh, ?_⟩
          rw [h]
          simp only [List.append_assoc]

theorem initLoop_ok_primary_some {W : Type} (env : ConnectorWorld W)
    (cs : List Clusters) (st : InitLoopState) (w : W) (st2 : InitLoopState)
    (h : (initLoop env cs st w).val = .ok st2) :
    ((st.scaleConnMap.lookup "primary").isSome = true ∨ ∃ c ∈ cs, hasPrimary c) →
      (st2.scaleConnMap.lookup "primary").isSome = true := by
  refine initLoop_ok_induction env
    (fun cs st st2 => ((st.scaleConnMap.lookup "primary").isSome = true ∨ ∃ c ∈ cs, hasPrimary c) →
      (st2.scaleConnMap.lookup "primary").isSome = true) ?_ ?_ cs st w st2 h
  · intro st hk
    rcases hk with hk | ⟨c, hc, _⟩
    · exact hk
    · simp at hc
  · intro c rest st w st1 st2 hc ih hk
    apply ih
    rw [initCluster_ok_primary_key env c rest st w st1 hc]
    by_cases hq : hasPrimary c ∨ c.ID = "primary"
    · left
      simp [hq]
    · rw [if_neg hq]
      rcases hk with hk | ⟨a, ha, hap⟩
      · exact Or.inl hk
      · rcases List.mem_cons.mp ha with ha | ha
        · subst ha
          exact absurd (Or.inl hap) hq
        · exact Or.inr ⟨a, ha, hap⟩

/-- `PluginInitialize` never calls a method through a `nil` connector: it always
returns. -/
theorem pluginInitialize_returns {W : Type} (env : ConnectorWorld W)
    (environ : String → Option String) (scaleConfig : ScaleSettingsConfigMap) (w : W) :
    ∃ res, (PluginInitialize env environ scaleConfig w).val = .returned res := by
  by_cases hv : (ValidateScaleConfigParameters scaleConfig).1 = true
  swap
  · rw [pluginInitialize_invalid env environ scaleConfig w hv]
    exact ⟨_, rfl⟩
  cases hl : (initLoop env scaleConfig.Clusters ⟨[], Primary.zero, []⟩ w).val with
  | error res =>
    rw [pluginInitialize_loop_error env environ scaleConfig w hv res hl]
    exact ⟨_, rfl⟩
  | ok st =>
    have hvalid := (validate_true_iff scaleConfig).mp hv
    have hcount : primaries scaleConfig.Clusters = 1 := hvalid.2.2.2.2.1
    obtain ⟨p, hp, hpp⟩ := (primaries_pos scaleConfig.Clusters).mp (by omega)
    obtain ⟨mount, hpi⟩ := (initLoop_ok_primaryInfo env _ _ _ _ hl).2 (by omega) p hp hpp
    obtain ⟨psc, hpsc⟩ := Option.isSome_iff_exists.mp
      (initLoop_ok_primary_some env _ _ _ _ hl (Or.inr ⟨p, hp, hpp⟩))
    have hremote : st.primaryInfo.RemoteCluster ≠ "" →
        ∃ sc, st.scaleConnMap.lookup st.primaryInfo.RemoteCluster = some sc := by
      intro hrc
      apply Option.isSome_iff_exists.mp
      apply initLoop_ok_lookup_some env _ _ _ _ hl
      right
      rcases hvalid.2.2.2.2.2.2 p hp hpp with h | ⟨r, hr, _, hrid⟩
      · rw [hpi] at hrc
        exact absurd h hrc
      · exact ⟨r, hr, by rw [hrid, hpi]⟩
    -- the choice of the effective connector returns, or yields a connector
    have hres : (∃ res, (resolveEffective env st.scaleConnMap ⟨st.done⟩ st.primaryInfo
          (initLoop env scaleConfig.Clusters ⟨[], Primary.zero, []⟩ w).world).val
            = .error (.returned res)) ∨
        ∃ eff sconn, (resolveEffective env st.scaleConnMap ⟨st.done⟩ st.primaryInfo
          (initLoop env scaleConfig.Clusters ⟨[], Primary.zero, []⟩ w).world).val = .ok eff ∧
          eff.sconn = some sconn := by
      by_cases h1 : st.primaryInfo.RemoteCluster = ""
      · rw [resolveEffective_local env _ _ _ _ h1]
        exact Or.inr ⟨_, psc, rfl, hpsc⟩
      · obtain ⟨sc, hsc⟩ := hremote h1
        by_cases h2 : st.primaryInfo.RemoteFS = ""
        · rw [resolveEffective_noRemoteFS env _ _ _ _ h1 h2]
          exact Or.inr ⟨_, sc, rfl, hsc⟩
        · rw [resolveEffective_remote env _ _ _ _ sc h1 h2 hsc]
          split_ifs
          · exact Or.inl ⟨_, rfl⟩
          · exact Or.inl ⟨_, rfl⟩
          · exact Or.inr ⟨_, sc, rfl, rfl⟩
    rcases hres with ⟨res, hr⟩ | ⟨eff, sconn, hr, hs⟩
    · rw [pluginInitialize_resolve_error env environ scaleConfig w hv st hl _ hr]
      exact ⟨_, rfl⟩
    · rw [pluginInitialize_resolve_ok env environ scaleConfig w hv st hl eff hr, Run.after_val]
      by_cases h1 : (CreatePrimaryFileset env sconn eff.fs eff.fsmount st.primaryInfo.PrimaryFset
          st.primaryInfo.InodeLimit (resolveEffective env st.scaleConnMap ⟨st.done⟩ st.primaryInfo
            (initLoop env scaleConfig.Clusters ⟨[], Primary.zero, []⟩ w).world).world).val.2 = none
      swap
      · rw [bootstrapFileset_create_error env environ _ _ _ _ _ sconn hs h1]
        exact ⟨_, rfl⟩
      by_cases h2 : ValidateHostpath environ st.primaryInfo.PrimaryFSMount
          (rewrittenLinkPath (CreatePrimaryFileset env sconn eff.fs eff.fsmount
            st.primaryInfo.PrimaryFset st.primaryInfo.InodeLimit
            (resolveEffective env st.scaleConnMap ⟨st.done⟩ st.primaryInfo
              (initLoop env scaleConfig.Clusters ⟨[], Primary.zero, []⟩ w).world).world).val.1
            eff.fsmount st.primaryInfo.PrimaryFSMount) = none
      swap
      · rw [bootstrapFileset_hostpath_error env environ _ _ _ _ _ sconn hs h1 h2]
        exact ⟨_, rfl⟩
      rw [bootstrapFileset_symlink env environ _ _ _ _ _ sconn psc hs h1 h2 hpsc]
      exact ⟨_, rfl⟩

theorem pluginInitialize_ok_hostpath {W : Type} (env : ConnectorWorld W)
    (environ : String → Option String) (scaleConfig : ScaleSettingsConfigMap) (w : W)
    (res : InitResult)
    (hok : (PluginInitialize env environ scaleConfig w).val = .returned res)
    (herr : res.err = none) :
    ValidateHostpath environ res.primary.PrimaryFSMount res.primary.PrimaryFsetLink = none := by
  obtain ⟨_, st, eff, _, _, hb, _⟩ :=
    pluginInitialize_ok_stages env environ scaleConfig w res hok herr
  obtain ⟨_, _, _, _, _, _, hhost, hprim, _⟩ :=
    bootstrapFileset_ok env environ _ _ _ _ _ res hb herr
  have hm : res.primary.PrimaryFSMount = st.primaryInfo.PrimaryFSMount := by rw [hprim]
  rw [hm]
  exact hhost

theorem pluginInitialize_hostpath_fails {W : Type} (env : ConnectorWorld W)
    (environ : String → Option String) (scaleConfig : ScaleSettingsConfigMap) (w : W)
    (st : InitLoopState) (eff : Effective) (sconn : SpectrumScaleConnector)
    (hl : (initLoop env scaleConfig.Clusters ⟨[], Primary.zero, []⟩ w).val = .ok st)
    (he : (resolveEffective env st.scaleConnMap ⟨st.done⟩ st.primaryInfo
      (initLoop env scaleConfig.Clusters ⟨[], Primary.zero, []⟩ w).world).val = .ok eff)
    (hs : eff.sconn = some sconn)
    (h1 : (CreatePrimaryFileset env sconn eff.fs eff.fsmount st.primaryInfo.PrimaryFset
      st.primaryInfo.InodeLimit (resolveEffective env st.scaleConnMap ⟨st.done⟩ st.primaryInfo
        (initLoop env scaleConfig.Clusters ⟨[], Primary.zero, []⟩ w).world).world).val.2 = none)
    (h2 : ValidateHostpath environ st.primaryInfo.PrimaryFSMount
      (rewrittenLinkPath (CreatePrimaryFileset env sconn eff.fs eff.fsmount
        st.primaryInfo.PrimaryFset st.primaryInfo.InodeLimit
        (resolveEffective env st.scaleConnMap ⟨st.done⟩ st.primaryInfo
          (initLoop env scaleConfig.Clusters ⟨[], Primary.zero, []⟩ w).world).world).val.1
        eff.fsmount st.primaryInfo.PrimaryFSMount) ≠ none) :
    (∃ res, (PluginInitialize env environ scaleConfig w).val = .returned res ∧ res.err ≠ none) ∧
    ∀ e ∈ (PluginInitialize env environ scaleConfig w).trace, e.isMakeDirectory = false := by
  by_cases hv : (ValidateScaleConfigParameters scaleConfig).1 = true
  swap
  · rw [pluginInitialize_invalid env environ scaleConfig w hv]
    refine ⟨⟨_, rfl, ?_⟩, by simp⟩
    rcases validate_coherent scaleConfig with h | ⟨msg, h⟩
    · rw [h] at hv
      exact absurd rfl hv
    · rw [h]
      simp
  obtain ⟨hlq, _⟩ := initLoop_guarantee env scaleConfig.Clusters ⟨[], Primary.zero, []⟩ w
  obtain ⟨hrq, _⟩ := resolveEffective_guarantee env st.scaleConnMap ⟨st.done⟩ st.primaryInfo
    (initLoop env scaleConfig.Clusters ⟨[], Primary.zero, []⟩ w).world
  rw [pluginInitialize_resolve_ok env environ scaleConfig w hv st hl eff he,
    bootstrapFileset_hostpath_error env environ _ _ _ _ _ sconn hs h1 h2]
  refine ⟨⟨_, rfl, h2⟩, ?_⟩
  intro e he1
  rw [Run.after_trace] at he1
  rcases List.mem_append.mp he1 with he1 | he1
  · rcases List.mem_append.mp he1 with he1 | he1
    · exact Call.not_mkdir_of_query e (hlq e he1)
    · exact Call.not_mkdir_of_query e (hrq e he1)
  · exact (createPrimaryFileset_calls env sconn eff.fs eff.fsmount st.primaryInfo.PrimaryFset
      st.primaryInfo.InodeLimit _).1 e he1

/-- A `MakeDirectory` among the calls of the last part of `PluginInitialize` is its last
call: `CreatePrimaryFileset` has succeeded before it, and `ValidateHostpath` has accepted
the local mount point and the (rewritten) link path that `CreatePrimaryFileset`
returned. -/
theorem bootstrapFileset_mkdir {W : Type} (env : ConnectorWorld W)
    (environ : String → Option String)
    (scaleConnMap : List (String × SpectrumScaleConnector)) (scaleConfig : ScaleSettingsConfigMap)
    (primaryInfo : Primary) (eff : Effective) (w : W)
    (h : ∃ e ∈ (bootstrapFileset env environ scaleConnMap scaleConfig primaryInfo eff w).trace,
      e.isMakeDirectory = true) :
    ∃ sconn psc err, eff.sconn = some sconn ∧ scaleConnMap.lookup "primary" = some psc ∧
      (CreatePrimaryFileset env sconn eff.fs eff.fsmount primaryInfo.PrimaryFset
        primaryInfo.InodeLimit w).val.2 = none ∧
      ValidateHostpath environ primaryInfo.PrimaryFSMount
        (rewrittenLinkPath (CreatePrimaryFileset env sconn eff.fs eff.fsmount
          primaryInfo.PrimaryFset primaryInfo.InodeLimit w).val.1 eff.fsmount
          primaryInfo.PrimaryFSMount) = none ∧
      (bootstrapFileset env environ scaleConnMap scaleConfig primaryInfo eff w).trace =
        (CreatePrimaryFileset env sconn eff.fs eff.fsmount primaryInfo.PrimaryFset
          primaryInfo.InodeLimit w).trace ++
        [Call.MakeDirectory psc primaryInfo.PrimaryFS
          (Trim (Replace1 (rewrittenLinkPath (CreatePrimaryFileset env sconn eff.fs eff.fsmount
              primaryInfo.PrimaryFset primaryInfo.InodeLimit w).val.1 eff.fsmount
              primaryInfo.PrimaryFSMount) primaryInfo.PrimaryFSMount "") "!/" ++ "/.volumes")
          0 0 err] := by
  obtain ⟨e, he, hmk⟩ := h
  cases hs : eff.sconn with
  | none =>
    rw [bootstrapFileset_nil env environ _ _ _ _ _ hs] at he
    simp at he
  | some sconn =>
    have hno := (createPrimaryFileset_calls env sconn eff.fs eff.fsmount
      primaryInfo.PrimaryFset primaryInfo.InodeLimit w).1
    by_cases h1 : (CreatePrimaryFileset env sconn eff.fs eff.fsmount primaryInfo.PrimaryFset
        primaryInfo.InodeLimit w).val.2 = none
    swap
    · rw [bootstrapFileset_create_error env environ _ _ _ _ _ sconn hs h1] at he
      rw [hno e he] at hmk
      cases hmk
    by_cases h2 : ValidateHostpath environ primaryInfo.PrimaryFSMount
        (rewrittenLinkPath (CreatePrimaryFileset env sconn eff.fs eff.fsmount
          primaryInfo.PrimaryFset primaryInfo.InodeLimit w).val.1 eff.fsmount
          primaryInfo.PrimaryFSMount) = none
    swap
    · rw [bootstrapFileset_hostpath_error env environ _ _ _ _ _ sconn hs h1 h2] at he
      rw [hno e he] at hmk
      cases hmk
    cases h3 : scaleConnMap.lookup "primary" with
    | none =>
      rw [bootstrapFileset_primary_nil env environ _ _ _ _ _ sconn hs h1 h2 h3] at he
      rw [hno e he] at hmk
      cases hmk
    | some psc =>
      rw [bootstrapFileset_symlink env environ _ _ _ _ _ sconn psc hs h1 h2 h3]
      rw [createSymlinkPath_eq]
      exact ⟨sconn, psc, _, rfl, rfl, h1, h2, rfl⟩

/-- A `MakeDirectory` among the calls of `PluginInitialize` is the last call of the run.
Before it the declaration was validated, the loop over the clusters and the choice of
the effective connector ended well, `CreatePrimaryFileset` succeeded, and
`ValidateHostpath` accepted the local mount point and the (rewritten) link path that
`CreatePrimaryFileset` returned; the argument of `MakeDirectory` is computed from that
mount point and link path. -/
theorem pluginInitialize_mkdir {W : Type} (env : ConnectorWorld W)
    (environ : String → Option String) (scaleConfig : ScaleSettingsConfigMap) (w : W)
    (h : ∃ e ∈ (PluginInitialize env environ scaleConfig w).trace, e.isMakeDirectory = true) :
    ∃ st eff sconn psc err,
      (ValidateScaleConfigParameters scaleConfig).1 = true ∧
      (initLoop env scaleConfig.Clusters ⟨[], Primary.zero, []⟩ w).val = .ok st ∧
      (resolveEffective env st.scaleConnMap ⟨st.done⟩ st.primaryInfo
        (initLoop env scaleConfig.Clusters ⟨[], Primary.zero, []⟩ w).world).val = .ok eff ∧
      eff.sconn = some sconn ∧ st.scaleConnMap.lookup "primary" = some psc ∧
      (CreatePrimaryFileset env sconn eff.fs eff.fsmount st.primaryInfo.PrimaryFset
        st.primaryInfo.InodeLimit (resolveEffective env st.scaleConnMap ⟨st.done⟩ st.primaryInfo
          (initLoop env scaleConfig.Clusters ⟨[], Primary.zero, []⟩ w).world).world).val.2 = none ∧
      ValidateHostpath environ st.primaryInfo.PrimaryFSMount
        (rewrittenLinkPath (CreatePrimaryFileset env sconn eff.fs eff.fsmount
          st.primaryInfo.PrimaryFset st.primaryInfo.InodeLimit
          (resolveEffective env st.scaleConnMap ⟨st.done⟩ st.primaryInfo
            (initLoop env scaleConfig.Clusters ⟨[], Primary.zero, []⟩ w).world).world).val.1
          eff.fsmount st.primaryInfo.PrimaryFSMount) = none ∧
      (∀ a ∈ (initLoop env scaleConfig.Clusters ⟨[], Primary.zero, []⟩ w).trace ++
          (resolveEffective env st.scaleConnMap ⟨st.done⟩ st.primaryInfo
            (initLoop env scaleConfig.Clusters ⟨[], Primary.zero, []⟩ w).world).trace ++
          (CreatePrimaryFileset env sconn eff.fs eff.fsmount st.primaryInfo.PrimaryFset
            st.primaryInfo.InodeLimit
            (resolveEffective env st.scaleConnMap ⟨st.done⟩ st.primaryInfo
              (initLoop env scaleConfig.Clusters ⟨[], Primary.zero, []⟩ w).world).world).trace,
        a.isMakeDirectory = false) ∧
      (∃ a ∈ (CreatePrimaryFileset env sconn eff.fs eff.fsmount st.primaryInfo.PrimaryFset
          st.primaryInfo.InodeLimit
          (resolveEffective env st.scaleConnMap ⟨st.done⟩ st.primaryInfo
            (initLoop env scaleConfig.Clusters ⟨[], Primary.zero, []⟩ w).world).world).trace,
        a.isListFileset = true) ∧
      (PluginInitialize env environ scaleConfig w).trace =
        (initLoop env scaleConfig.Clusters ⟨[], Primary.zero, []⟩ w).trace ++
        (resolveEffective env st.scaleConnMap ⟨st.done⟩ st.primaryInfo
          (initLoop env scaleConfig.Clusters ⟨[], Primary.zero, []⟩ w).world).trace ++
        (CreatePrimaryFileset env sconn eff.fs eff.fsmount st.primaryInfo.PrimaryFset
          st.primaryInfo.InodeLimit
          (resolveEffective env st.scaleConnMap ⟨st.done⟩ st.primaryInfo
            (initLoop env scaleConfig.Clusters ⟨[], Primary.zero, []⟩ w).world).world).trace ++
        [Call.MakeDirectory psc st.primaryInfo.PrimaryFS
          (Trim (Replace1 (rewrittenLinkPath (CreatePrimaryFileset env sconn eff.fs eff.fsmount
              st.primaryInfo.PrimaryFset st.primaryInfo.InodeLimit
              (resolveEffective env st.scaleConnMap ⟨st.done⟩ st.primaryInfo
                (initLoop env scaleConfig.Clusters ⟨[], Primary.zero, []⟩ w).world).world).val.1
              eff.fsmount st.primaryInfo.PrimaryFSMount) st.primaryInfo.PrimaryFSMount "") "!/"
            ++ "/.volumes") 0 0 err] := by
  obtain ⟨e, he, hmk⟩ := h
  by_cases hv : (ValidateScaleConfigParameters scaleConfig).1 = true
  swap
  · rw [pluginInitialize_invalid env environ scaleConfig w hv] at he
    simp at he
  obtain ⟨hlq, _⟩ := initLoop_guarantee env scaleConfig.Clusters ⟨[], Primary.zero, []⟩ w
  cases hl : (initLoop env scaleConfig.Clusters ⟨[], Primary.zero, []⟩ w).val with
  | error res =>
    rw [pluginInitialize_loop_error env environ scaleConfig w hv res hl] at he
    rw [Call.not_mkdir_of_query e (hlq e he)] at hmk
    cases hmk
  | ok st =>
    obtain ⟨hrq, _⟩ := resolveEffective_guarantee env st.scaleConnMap ⟨st.done⟩ st.primaryInfo
      (initLoop env scaleConfig.Clusters ⟨[], Primary.zero, []⟩ w).world
    have hq : ∀ a ∈ (initLoop env scaleConfig.Clusters ⟨[], Primary.zero, []⟩ w).trace ++
        (resolveEffective env st.scaleConnMap ⟨st.done⟩ st.primaryInfo
          (initLoop env scaleConfig.Clusters ⟨[], Primary.zero, []⟩ w).world).trace,
        a.isMakeDirectory = false := by
      intro a ha
      rcases List.mem_append.mp ha with ha | ha
      · exact Call.not_mkdir_of_query a (hlq a ha)
      · exact Call.not_mkdir_of_query a (hrq a ha)
    cases hr : (resolveEffective env st.scaleConnMap ⟨st.done⟩ st.primaryInfo
        (initLoop env scaleConfig.Clusters ⟨[], Primary.zero, []⟩ w).world).val with
    | error out =>
      rw [pluginInitialize_resolve_error env environ scaleConfig w hv st hl out hr] at he
      rw [hq e he] at hmk
      cases hmk
    | ok eff =>
      rw [pluginInitialize_resolve_ok env environ scaleConfig w hv st hl eff hr,
        Run.after_trace] at he
      have heb : e ∈ (bootstrapFileset env environ st.scaleConnMap ⟨st.done⟩ st.primaryInfo eff
          (resolveEffective env st.scaleConnMap ⟨st.done⟩ st.primaryInfo
            (initLoop env scaleConfig.Clusters ⟨[], Primary.zero, []⟩ w).world).world).trace := by
        rcases List.mem_append.mp he with he | he
        · rw [hq e he] at hmk
          cases hmk
        · exact he
      obtain ⟨sconn, psc, err, hs, hp, h1, h2, ht⟩ :=
        bootstrapFileset_mkdir env environ _ _ _ _ _ ⟨e, heb, hmk⟩
      obtain ⟨hno, hlist⟩ := createPrimaryFileset_calls env sconn eff.fs eff.fsmount
        st.primaryInfo.PrimaryFset st.primaryInfo.InodeLimit
        (resolveEffective env st.scaleConnMap ⟨st.done⟩ st.primaryInfo
          (initLoop env scaleConfig.Clusters ⟨[], Primary.zero, []⟩ w).world).world
      refine ⟨st, eff, sconn, psc, err, hv, rfl, hr, hs, hp, h1, h2, ?_, hlist, ?_⟩
      · intro a ha
        rcases List.mem_append.mp ha with ha | ha
        · exact hq a ha
        · exact hno a ha
      · rw [pluginInitialize_resolve_ok env environ scaleConfig w hv st hl eff hr,
          Run.after_trace, ht]
        simp only [List.append_assoc]

theorem pluginInitialize_create_fails {W : Type} (env : ConnectorWorld W)
    (environ : String → Option String) (scaleConfig : ScaleSettingsConfigMap) (w : W)
    (st : InitLoopState) (eff : Effective) (sconn : SpectrumScaleConnector)
    (hl : (initLoop env scaleConfig.Clusters ⟨[], Primary.zero, []⟩ w).val = .ok st)
    (he : (resolveEffective env st.scaleConnMap ⟨st.done⟩ st.primaryInfo
      (initLoop env scaleConfig.Clusters ⟨[], Primary.zero, []⟩ w).world).val = .ok eff)
    (hs : eff.sconn = some sconn)
    (h1 : (CreatePrimaryFileset env sconn eff.fs eff.fsmount st.primaryInfo.PrimaryFset
      st.primaryInfo.InodeLimit (resolveEffective env st.scaleConnMap ⟨st.done⟩ st.primaryInfo
        (initLoop env scaleConfig.Clusters ⟨[], Primary.zero, []⟩ w).world).world).val.2 ≠ none) :
    (∃ res, (PluginInitialize env environ scaleConfig w).val = .returned res ∧ res.err ≠ none) ∧
    ∀ e ∈ (PluginInitialize env environ scaleConfig w).trace, e.isMakeDirectory = false := by
  by_cases hv : (ValidateScaleConfigParameters scaleConfig).1 = true
  swap
  · rw [pluginInitialize_invalid env environ scaleConfig w hv]
    refine ⟨⟨_, rfl, ?_⟩, by simp⟩
    rcases validate_coherent scaleConfig with h | ⟨msg, h⟩
    · rw [h] at hv
      exact absurd rfl hv
    · rw [h]
      simp
  obtain ⟨hlq, _⟩ := initLoop_guarantee env scaleConfig.Clusters ⟨[], Primary.zero, []⟩ w
  obtain ⟨hrq, _⟩ := resolveEffective_guarantee env st.scaleConnMap ⟨st.done⟩ st.primaryInfo
    (initLoop env scaleConfig.Clusters ⟨[], Primary.zero, []⟩ w).world
  rw [pluginInitialize_resolve_ok env environ scaleConfig w hv st hl eff he,
    bootstrapFileset_create_error env environ _ _ _ _ _ sconn hs h1]
  refine ⟨⟨_, rfl, h1⟩, ?_⟩
  intro e he1
  rw [Run.after_trace] at he1
  rcases List.mem_append.mp he1 with he1 | he1
  · rcases List.mem_append.mp he1 with he1 | he1
    · exact Call.not_mkdir_of_query e (hlq e he1)
    · exact Call.not_mkdir_of_query e (hrq e he1)
  · exact (createPrimaryFileset_calls env sconn eff.fs eff.fsmount st.primaryInfo.PrimaryFset
      st.primaryInfo.InodeLimit _).1 e he1

/-- C16. The order of the stages of `PluginInitialize`: the primary-fileset bootstrap,
then the host-path check on the link path the bootstrap returned, then the creation of
the symlink directory.
(1) If a run calls `MakeDirectory` at all, that call is the last call of the run and the
only `MakeDirectory`; before it the declaration was validated, the loop over the
clusters and the choice of the effective connector ended well, `CreatePrimaryFileset`
made its calls (a `ListFileset` among them) and returned no error, and `ValidateHostpath`
accepted the local mount point and the (rewritten) link path that this
`CreatePrimaryFileset` returned; the path given to `MakeDirectory` is computed from that
same mount point and link path, on the connector stored under the key `primary`.
(2) A run that succeeds has passed `ValidateHostpath` on the mount point and link path it
returns.
(3) When `CreatePrimaryFileset` returns an error, `PluginInitialize` returns a non-nil
error and makes no `MakeDirectory` call.
(4) When `CreatePrimaryFileset` succeeds and `ValidateHostpath` rejects its (rewritten)
link path, `PluginInitialize` returns a non-nil error and makes no `MakeDirectory` call.
(5) When `SCALE_HOSTPATH` is unset or empty, `PluginInitialize` returns a non-nil error
and makes no `MakeDirectory` call. -/
theorem C16_hostpath_check_before_mkdir {W : Type} (env : ConnectorWorld W)
    (environ : String → Option String) (scaleConfig : ScaleSettingsConfigMap) (w : W) :
    ((∃ e ∈ (PluginInitialize env environ scaleConfig w).trace, e.isMakeDirectory = true) →
      ∃ st eff sconn psc err,
        (ValidateScaleConfigParameters scaleConfig).1 = true ∧
        (initLoop env scaleConfig.Clusters ⟨[], Primary.zero, []⟩ w).val = .ok st ∧
        (resolveEffective env st.scaleConnMap ⟨st.done⟩ st.primaryInfo
          (initLoop env scaleConfig.Clusters ⟨[], Primary.zero, []⟩ w).world).val = .ok eff ∧
        eff.sconn = some sconn ∧ st.scaleConnMap.lookup "primary" = some psc ∧
        (CreatePrimaryFileset env sconn eff.fs eff.fsmount st.primaryInfo.PrimaryFset
          st.primaryInfo.InodeLimit
          (resolveEffective env st.scaleConnMap ⟨st.done⟩ st.primaryInfo
            (initLoop env scaleConfig.Clusters ⟨[], Primary.zero, []⟩ w).world).world).val.2
              = none ∧
        ValidateHostpath environ st.primaryInfo.PrimaryFSMount
          (rewrittenLinkPath (CreatePrimaryFileset env sconn eff.fs eff.fsmount
            st.primaryInfo.PrimaryFset st.primaryInfo.InodeLimit
            (resolveEffective env st.scaleConnMap ⟨st.done⟩ st.primaryInfo
              (initLoop env scaleConfig.Clusters ⟨[], Primary.zero, []⟩ w).world).world).val.1
            eff.fsmount st.primaryInfo.PrimaryFSMount) = none ∧
        (∀ a ∈ (initLoop env scaleConfig.Clusters ⟨[], Primary.zero, []⟩ w).trace ++
            (resolveEffective env st.scaleConnMap ⟨st.done⟩ st.primaryInfo
              (initLoop env scaleConfig.Clusters ⟨[], Primary.zero, []⟩ w).world).trace ++
            (CreatePrimaryFileset env sconn eff.fs eff.fsmount st.primaryInfo.PrimaryFset
              st.primaryInfo.InodeLimit
              (resolveEffective env st.scaleConnMap ⟨st.done⟩ st.primaryInfo
                (initLoop env scaleConfig.Clusters ⟨[], Primary.zero, []⟩ w).world).world).trace,
          a.isMakeDirectory = false) ∧
        (∃ a ∈ (CreatePrimaryFileset env sconn eff.fs eff.fsmount st.primaryInfo.PrimaryFset
            st.primaryInfo.InodeLimit
            (resolveEffective env st.scaleConnMap ⟨st.done⟩ st.primaryInfo
              (initLoop env scaleConfig.Clusters ⟨[], Primary.zero, []⟩ w).world).world).trace,
          a.isListFileset = true) ∧
        (PluginInitialize env environ scaleConfig w).trace =
          (initLoop env scaleConfig.Clusters ⟨[], Primary.zero, []⟩ w).trace ++
          (resolveEffective env st.scaleConnMap ⟨st.done⟩ st.primaryInfo
            (initLoop env scaleConfig.Clusters ⟨[], Primary.zero, []⟩ w).world).trace ++
          (CreatePrimaryFileset env sconn eff.fs eff.fsmount st.primaryInfo.PrimaryFset
            st.primaryInfo.InodeLimit
            (resolveEffective env st.scaleConnMap ⟨st.done⟩ st.primaryInfo
              (initLoop env scaleConfig.Clusters ⟨[], Primary.zero, []⟩ w).world).world).trace ++
          [Call.MakeDirectory psc st.primaryInfo.PrimaryFS
            (Trim (Replace1 (rewrittenLinkPath (CreatePrimaryFileset env sconn eff.fs eff.fsmount
                st.primaryInfo.PrimaryFset st.primaryInfo.InodeLimit
                (resolveEffective env st.scaleConnMap ⟨st.done⟩ st.primaryInfo
                  (initLoop env scaleConfig.Clusters ⟨[], Primary.zero, []⟩ w).world).world).val.1
                eff.fsmount st.primaryInfo.PrimaryFSMount) st.primaryInfo.PrimaryFSMount "") "!/"
              ++ "/.volumes") 0 0 err]) ∧
    (∀ res, (PluginInitialize env environ scaleConfig w).val = .returned res → res.err = none →
      ValidateHostpath environ res.primary.PrimaryFSMount res.primary.PrimaryFsetLink = none) ∧
    (∀ st eff sconn,
      (initLoop env scaleConfig.Clusters ⟨[], Primary.zero, []⟩ w).val = .ok st →
      (resolveEffective env st.scaleConnMap ⟨st.done⟩ st.primaryInfo
        (initLoop env scaleConfig.Clusters ⟨[], Primary.zero, []⟩ w).world).val = .ok eff →
      eff.sconn = some sconn →
      (CreatePrimaryFileset env sconn eff.fs eff.fsmount st.primaryInfo.PrimaryFset
        st.primaryInfo.InodeLimit (resolveEffective env st.scaleConnMap ⟨st.done⟩ st.primaryInfo
          (initLoop env scaleConfig.Clusters ⟨[], Primary.zero, []⟩ w).world).world).val.2 ≠ none →
      (∃ res, (PluginInitialize env environ scaleConfig w).val = .returned res ∧
        res.err ≠ none) ∧
      ∀ e ∈ (PluginInitialize env environ scaleConfig w).trace, e.isMakeDirectory = false) ∧
    (∀ st eff sconn,
      (initLoop env scaleConfig.Clusters ⟨[], Primary.zero, []⟩ w).val = .ok st →
      (resolveEffective env st.scaleConnMap ⟨st.done⟩ st.primaryInfo
        (initLoop env scaleConfig.Clusters ⟨[], Primary.zero, []⟩ w).world).val = .ok eff →
      eff.sconn = some sconn →
      (CreatePrimaryFileset env sconn eff.fs eff.fsmount st.primaryInfo.PrimaryFset
        st.primaryInfo.InodeLimit (resolveEffective env st.scaleConnMap ⟨st.done⟩ st.primaryInfo
          (initLoop env scaleConfig.Clusters ⟨[], Primary.zero, []⟩ w).world).world).val.2 = none →
      ValidateHostpath environ st.primaryInfo.PrimaryFSMount
        (rewrittenLinkPath (CreatePrimaryFileset env sconn eff.fs eff.fsmount
          st.primaryInfo.PrimaryFset st.primaryInfo.InodeLimit
          (resolveEffective env st.scaleConnMap ⟨st.done⟩ st.primaryInfo
            (initLoop env scaleConfig.Clusters ⟨[], Primary.zero, []⟩ w).world).world).val.1
          eff.fsmount st.primaryInfo.PrimaryFSMount) ≠ none →
      (∃ res, (PluginInitialize env environ scaleConfig w).val = .returned res ∧
        res.err ≠ none) ∧
      ∀ e ∈ (PluginInitialize env environ scaleConfig w).trace, e.isMakeDirectory = false) ∧
    ((environ "SCALE_HOSTPATH").getD "" = "" →
      (∃ res, (PluginInitialize env environ scaleConfig w).val = .returned res ∧
        res.err ≠ none) ∧
      ∀ e ∈ (PluginInitialize env environ scaleConfig w).trace, e.isMakeDirectory = false) := by
  refine ⟨fun h => pluginInitialize_mkdir env environ scaleConfig w h,
    fun res hok herr => pluginInitialize_ok_hostpath env environ scaleConfig w res hok herr,
    fun st eff sconn hl he hs h1 =>
      pluginInitialize_create_fails env environ scaleConfig w st eff sconn hl he hs h1,
    fun st eff sconn hl he hs h1 h2 =>
      pluginInitialize_hostpath_fails env environ scaleConfig w st eff sconn hl he hs h1 h2, ?_⟩
  intro hunset
  have hget : GetEnv environ "SCALE_HOSTPATH" "" = "" := by
    unfold GetEnv
    cases hE : environ "SCALE_HOSTPATH" with
    | none => rfl
    | some v =>
      rw [hE] at hunset
      exact hunset
  have hfail : ∀ mountpath linkpath, ValidateHostpath environ mountpath linkpath ≠ none := by
    intro mountpath linkpath h
    exact ((ValidateHostpath_none_iff environ mountpath linkpath).mp h).1 hget
  obtain ⟨res, hres⟩ := pluginInitialize_returns env environ scaleConfig w
  refine ⟨⟨res, hres, ?_⟩, ?_⟩
  · intro herr
    exact hfail _ _ (pluginInitialize_ok_hostpath env environ scaleConfig w res hres herr)
  · intro e he
    cases hmk : e.isMakeDirectory with
    | false => rfl
    | true =>
      obtain ⟨st, eff, sconn, psc, err, _, _, _, _, _, _, hvh, _⟩ :=
        pluginInitialize_mkdir env environ scaleConfig w ⟨e, he, hmk⟩
      exact absurd hvh (hfail _ _)

/-- A run of the single-cluster sample in which every stage ends well: the one
`MakeDirectory` is the last call, after the `ListFileset` and `CreateFileset` of the
bootstrap, and the host-path check accepts the returned mount point and link path. -/
theorem pluginInitialize_stages_sample :
    (PluginInitialize sampleWorld sampleEnviron singleCluster FilesetState.notFound).trace =
      [Call.GetClusterId ⟨primaryCluster "c1" "" ""⟩ "c1" none,
       Call.GetFilesystemMountDetails ⟨primaryCluster "c1" "" ""⟩ "fs0"
         ⟨"/gpfs/fs0", ["node1"]⟩ none,
       Call.ListFileset ⟨primaryCluster "c1" "" ""⟩ "fs0" "csiroot" ⟨⟨""⟩⟩
         (some "fileset not found"),
       Call.CreateFileset ⟨primaryCluster "c1" "" ""⟩ "fs0" "csiroot" [] none,
       Call.MakeDirectory ⟨primaryCluster "c1" "" ""⟩ "fs0" "csiroot/.volumes" 0 0 none] ∧
    ValidateHostpath sampleEnviron "/gpfs/fs0" "/gpfs/fs0/csiroot" = none := by
  decide

/-! ### The two paths of `CreateSymlinkPath` denote one directory -/

theorem hasPrefix_single_false (c a : Char) (cs : List Char)
    (h : HasPrefix ⟨c :: cs⟩ ⟨[a]⟩ = false) : c ≠ a := by
  intro hca
  subst hca
  simp [HasPrefix, List.isPrefixOf] at h

theorem hasSuffix_single_false (c a : Char) (cs : List Char)
    (h : HasSuffix ⟨cs ++ [c]⟩ ⟨[a]⟩ = false) : c ≠ a := by
  intro hca
  subst hca
  simp [HasSuffix, List.isSuffixOf, List.isPrefixOf] at h

theorem isEdgeChar_false (c : Char) (h1 : c ≠ '/') (h2 : c ≠ '!') : isEdgeChar c = false := by
  simp [isEdgeChar, h1, h2]

theorem edges_of_inner (r : String) (hne : r ≠ "")
    (hs1 : HasPrefix r "/" = false) (hs2 : HasPrefix r "!" = false)
    (he1 : HasSuffix r "/" = false) (he2 : HasSuffix r "!" = false) :
    (∃ c cs, r.data = c :: cs ∧ isEdgeChar c = false) ∧
    (∃ cs c, r.data = cs ++ [c] ∧ isEdgeChar c = false ∧ c ≠ '/') := by
  have hd : r.data ≠ [] := fun h => hne (String.ext h)
  constructor
  · cases hr : r.data with
    | nil => exact absurd hr hd
    | cons c cs =>
      have e : r = ⟨c :: cs⟩ := String.ext hr
      rw [e] at hs1 hs2
      exact ⟨c, cs, rfl, isEdgeChar_false c (hasPrefix_single_false c '/' cs hs1)
        (hasPrefix_single_false c '!' cs hs2)⟩
  · rcases List.eq_nil_or_concat r.data with h | ⟨cs, c, h⟩
    · exact absurd h hd
    · rw [List.concat_eq_append] at h
      have e : r = ⟨cs ++ [c]⟩ := String.ext h
      rw [e] at he1 he2
      exact ⟨cs, c, h, isEdgeChar_false c (hasSuffix_single_false c '/' cs he1)
        (hasSuffix_single_false c '!' cs he2), hasSuffix_single_false c '/' cs he1⟩

theorem stripEdges_inner (r : String) (hne : r ≠ "")
    (hs1 : HasPrefix r "/" = false) (hs2 : HasPrefix r "!" = false)
    (he1 : HasSuffix r "/" = false) (he2 : HasSuffix r "!" = false) :
    stripEdges ('/' :: r.data) = r.data := by
  obtain ⟨⟨c, cs, hc, hce⟩, ⟨ds, d, hd, hde, _⟩⟩ := edges_of_inner r hne hs1 hs2 he1 he2
  unfold stripEdges
  have h1 : List.dropWhile isEdgeChar ('/' :: r.data) = r.data := by
    rw [List.dropWhile_cons_of_pos (by decide), hc, List.dropWhile_cons_of_neg (by simp [hce])]
  rw [h1, hd, List.reverse_append, List.reverse_singleton, List.singleton_append,
    List.dropWhile_cons_of_neg (by simp [hde]), List.reverse_cons, List.reverse_reverse]

theorem dropOneTrailingSlash_inner (m r : String) (hne : r ≠ "")
    (hs1 : HasPrefix r "/" = false) (hs2 : HasPrefix r "!" = false)
    (he1 : HasSuffix r "/" = false) (he2 : HasSuffix r "!" = false) :
    dropOneTrailingSlash (m ++ "/" ++ r).data = (m ++ "/" ++ r).data := by
  obtain ⟨_, ⟨ds, d, hd, _, hds⟩⟩ := edges_of_inner r hne hs1 hs2 he1 he2
  unfold dropOneTrailingSlash
  have hlast : (m ++ "/" ++ r).data.getLast? = some d := by
    rw [String.data_append, hd, ← List.append_assoc, List.getLast?_append]
    rfl
  rw [hlast, if_neg (fun h => hds (Option.some.inj h))]

/-- C21. The two paths returned by `CreateSymlinkPath` denote the same directory. For
every mount point `m` (in particular every non-empty one that does not end in `/`) and
every link path `m ++ "/" ++ r`, where `r` is non-empty and neither begins nor ends with
`/` or `!`, the API-relative path returned is `r ++ "/.volumes"`, the absolute path
returned is `m ++ "/"` followed by the API-relative path returned, and the one call made
is `MakeDirectory` with that relative path; this holds whether or not `MakeDirectory`
reports an error. -/
theorem C21_paths_denote_same_directory {W : Type} (env : ConnectorWorld W)
    (sc : SpectrumScaleConnector) (fs m r : String) (w : W)
    (hne : r ≠ "")
    (hs1 : HasPrefix r "/" = false) (hs2 : HasPrefix r "!" = false)
    (he1 : HasSuffix r "/" = false) (he2 : HasSuffix r "!" = false) :
    (CreateSymlinkPath env sc fs m (m ++ "/" ++ r) w).val.2.1 = r ++ "/.volumes" ∧
    (CreateSymlinkPath env sc fs m (m ++ "/" ++ r) w).val.1 =
      m ++ "/" ++ (CreateSymlinkPath env sc fs m (m ++ "/" ++ r) w).val.2.1 ∧
    (CreateSymlinkPath env sc fs m (m ++ "/" ++ r) w).trace =
      [Call.MakeDirectory sc fs (r ++ "/.volumes") 0 0
        (CreateSymlinkPath env sc fs m (m ++ "/" ++ r) w).val.2.2] := by
  have hpre : isPathPrefix m (m ++ "/" ++ r) := by
    unfold isPathPrefix
    refine ⟨("/" ++ r).data, ?_⟩
    simp only [String.data_append, List.append_assoc]
  have hdir : Trim (Replace1 (m ++ "/" ++ r) m "") "!/" = r := by
    rw [Replace1_strip_front m (m ++ "/" ++ r) hpre, Trim_cutset]
    apply String.ext
    show stripEdges (List.drop m.data.length (m ++ "/" ++ r).data) = r.data
    rw [String.data_append, String.data_append, List.append_assoc, List.drop_left]
    exact stripEdges_inner r hne hs1 hs2 he1 he2
  have hlink : TrimSuffix (m ++ "/" ++ r) "/" = m ++ "/" ++ r := by
    rw [TrimSuffix_slash]
    apply String.ext
    exact dropOneTrailingSlash_inner m r hne hs1 hs2 he1 he2
  rw [createSymlinkPath_eq, hdir, hlink]
  refine ⟨rfl, ?_, rfl⟩
  show m ++ "/" ++ r ++ "/.volumes" = m ++ "/" ++ (r ++ "/.volumes")
  rw [String.append_assoc (m ++ "/") r "/.volumes"]

/-- C21, witness: the mount point `/gpfs/fs0` and the link path `/gpfs/fs0/csiroot`. -/
theorem C21_paths_denote_same_directory_witness :
    (CreateSymlinkPath sampleWorld ⟨plainCluster "c1"⟩ "fs0" "/gpfs/fs0"
      ("/gpfs/fs0" ++ "/" ++ "csiroot") FilesetState.notFound).val.2.1
        = "csiroot" ++ "/.volumes" ∧
    (CreateSymlinkPath sampleWorld ⟨plainCluster "c1"⟩ "fs0" "/gpfs/fs0"
      ("/gpfs/fs0" ++ "/" ++ "csiroot") FilesetState.notFound).val.1 =
      "/gpfs/fs0" ++ "/" ++ (CreateSymlinkPath sampleWorld ⟨plainCluster "c1"⟩ "fs0" "/gpfs/fs0"
        ("/gpfs/fs0" ++ "/" ++ "csiroot") FilesetState.notFound).val.2.1 ∧
    (CreateSymlinkPath sampleWorld ⟨plainCluster "c1"⟩ "fs0" "/gpfs/fs0"
      ("/gpfs/fs0" ++ "/" ++ "csiroot") FilesetState.notFound).trace =
      [Call.MakeDirectory ⟨plainCluster "c1"⟩ "fs0" ("csiroot" ++ "/.volumes") 0 0
        (CreateSymlinkPath sampleWorld ⟨plainCluster "c1"⟩ "fs0" "/gpfs/fs0"
          ("/gpfs/fs0" ++ "/" ++ "csiroot") FilesetState.notFound).val.2.2] :=
  C21_paths_denote_same_directory sampleWorld ⟨plainCluster "c1"⟩ "fs0" "/gpfs/fs0" "csiroot"
    FilesetState.notFound (by decide) (by decide) (by decide) (by decide) (by decide)

end scale
